import Mathlib

/-! LingmoUI wheel handler: a shallow embedding of `src/wheelhandler.cpp`.

Modelling conventions.

* `qreal` values are rationals (`ℚ`) and `qreal` arithmetic is exact, except in
  the section on binary64 arithmetic, which embeds the arithmetic of
  `scrollFlickable` once more with every operation rounded; `int` values are
  integers (`ℤ`), reduced to 32 bits where a conversion or a product can leave
  the range of `int`.
* A `QObject *` is an object identity (`ObjId`); a possibly-null pointer is an `Option`.
* The handler is a record of its member variables together with the part of the
  scene it reads and writes (the target's properties, the event-filter
  registrations, the signal connections) and a log of the outward effects it
  performs, oldest first.
* The smooth-scroll animation engine and the debounce timer belong to the host
  framework: the handler only issues commands to them (`stop`, `setEndValue`,
  `start`), which are recorded in the state and in the log.
* Member defaults, default arguments and constants that live in the absent
  header `wheelhandler.h` are fields of the state or are documented where used.
-/

namespace LingmoUI

/-! ## Qt value types and helper functions -/

/-- Identity of a `QObject` (a non-null pointer). -/
abbrev ObjId := Nat

/-- Embedding of `QPointF`: a point with `qreal` coordinates. -/
structure QPointF where
  x : ℚ
  y : ℚ
deriving DecidableEq

/-- Embedding of `QPoint`: a point with `int` coordinates. -/
structure QPoint where
  x : ℤ
  y : ℤ
deriving DecidableEq

/-- Embedding of `QPointF::isNull()`: both coordinates are zero. -/
def QPointF.isNull (p : QPointF) : Bool := decide (p.x = 0) && decide (p.y = 0)

/-- Embedding of `QPointF::transposed()`. -/
def QPointF.transposed (p : QPointF) : QPointF := { x := p.y, y := p.x }

/-- Embedding of `QPoint::isNull()`. -/
def QPoint.isNull (p : QPoint) : Bool := decide (p.x = 0) && decide (p.y = 0)

/-- Implicit conversion `QPoint -> QPointF`. -/
def QPoint.toPointF (p : QPoint) : QPointF := { x := (p.x : ℚ), y := (p.y : ℚ) }

/-- Implicit conversion `qreal -> int`, as performed by `QPoint(stepSize, 0)` in
`scrollLeft` / `scrollRight`: truncation toward zero when the truncated value fits
a 32-bit `int`. Beyond that range the conversion is undefined in C++; the value
modelled is the one the x86-64 conversion instruction yields, `INT_MIN`. -/
def truncToInt (q : ℚ) : ℤ :=
  if -2147483649 < q ∧ q < 2147483648 then (if 0 ≤ q then ⌊q⌋ else ⌈q⌉) else -2147483648

/-- The value of an `int` computation whose mathematical result is `n`: reduced
into the 32-bit two's complement range `[-2 ^ 31, 2 ^ 31)`. Signed overflow is
undefined in C++; the value modelled is the one two's complement hardware yields. -/
def wrapInt32 (n : ℤ) : ℤ := (n + 2147483648) % 4294967296 - 2147483648

/-- Embedding of `qFuzzyCompare(double, double)` of QtGlobal:
`qAbs(p1 - p2) * 1000000000000. <= qMin(qAbs(p1), qAbs(p2))`. -/
def qFuzzyCompare (p1 p2 : ℚ) : Bool :=
  decide (|p1 - p2| * 1000000000000 ≤ min |p1| |p2|)

/-- Embedding of `qFuzzyIsNull(double)` of QtGlobal: `qAbs(d) <= 0.000000000001`. -/
def qFuzzyIsNull (d : ℚ) : Bool := decide (|d| ≤ 1 / 1000000000000)

/-- Embedding of `qBound(min, val, max)` of QtGlobal: `qMax(min, qMin(max, val))`. -/
def qBound (lo val hi : ℚ) : ℚ := max lo (min hi val)

/-- Embedding of `std::clamp(v, lo, hi)`: `(v < lo) ? lo : (hi < v) ? hi : v`. -/
def stdClamp (v lo hi : ℚ) : ℚ := if v < lo then lo else if hi < v then hi else v

/-- Embedding of `std::round`: nearest integer, halfway cases away from zero. -/
def stdRound (x : ℚ) : ℤ := if 0 ≤ x then ⌊x + 1 / 2⌋ else -⌊-x + 1 / 2⌋

/-- Test of a `QFlags` intersection: `a & b` converted to `bool`. -/
def testFlags (a b : Nat) : Bool := decide (a &&& b ≠ 0)

/-- Embedding of `Qt::MouseEventSource`. -/
inductive MouseEventSource where
  | MouseEventNotSynthesized
  | MouseEventSynthesizedBySystem
  | MouseEventSynthesizedByQt
  | MouseEventSynthesizedByApplication
deriving DecidableEq

/-- The keys of `Qt::Key` that `eventFilter` distinguishes. -/
inductive Key where
  | Key_Up
  | Key_Down
  | Key_Left
  | Key_Right
  | Key_PageUp
  | Key_PageDown
  | Key_Home
  | Key_End
  | Key_Other
deriving DecidableEq

/-- Embedding of `QWheelEvent`, with the accessors the handler reads. -/
structure QWheelEvent where
  position : QPointF
  globalPosition : QPointF
  pixelDelta : QPoint
  angleDelta : QPoint
  buttons : Nat
  modifiers : Nat
  phase : Nat
  inverted : Bool
  source : MouseEventSource
deriving DecidableEq

/-- Embedding of `QEvent`, by `type()`, with the payload the handler reads. -/
inductive QEvent where
  | Wheel (wheelEvent : QWheelEvent)
  | TouchBegin
  | TouchEnd
  | MouseButtonPress (source : MouseEventSource)
  | MouseMove (source : MouseEventSource)
  | MouseButtonRelease (source : MouseEventSource)
  | HoverEnter
  | HoverMove
  | KeyPress (key : Key) (modifiers : Nat)
  | Other
deriving DecidableEq

/-! ## LingmoUIWheelEvent -/

/-- Embedding of `LingmoUIWheelEvent`: the synthesized wheel event handed to listeners. -/
structure LingmoUIWheelEvent where
  m_x : ℚ
  m_y : ℚ
  m_angleDelta : QPointF
  m_pixelDelta : QPointF
  m_buttons : Nat
  m_modifiers : Nat
  m_accepted : Bool
  m_inverted : Bool
deriving DecidableEq

namespace LingmoUIWheelEvent

/-- Embedding of `LingmoUIWheelEvent::initializeFromEvent`. -/
def initializeFromEvent (event : QWheelEvent) : LingmoUIWheelEvent :=
  { m_x := event.position.x
    m_y := event.position.y
    m_angleDelta := event.angleDelta.toPointF
    m_pixelDelta := event.pixelDelta.toPointF
    m_buttons := event.buttons
    m_modifiers := event.modifiers
    m_accepted := false
    m_inverted := event.inverted }

/-- Embedding of `LingmoUIWheelEvent::angleDelta`. -/
def angleDelta (e : LingmoUIWheelEvent) : QPointF := e.m_angleDelta

/-- Embedding of `LingmoUIWheelEvent::pixelDelta`. -/
def pixelDelta (e : LingmoUIWheelEvent) : QPointF := e.m_pixelDelta

/-- Embedding of `LingmoUIWheelEvent::modifiers`. -/
def modifiers (e : LingmoUIWheelEvent) : Nat := e.m_modifiers

/-- Embedding of `LingmoUIWheelEvent::isAccepted`. -/
def isAccepted (e : LingmoUIWheelEvent) : Bool := e.m_accepted

/-- Embedding of `LingmoUIWheelEvent::setAccepted`. -/
def setAccepted (e : LingmoUIWheelEvent) (accepted : Bool) : LingmoUIWheelEvent :=
  { e with m_accepted := accepted }

end LingmoUIWheelEvent

/-! ## The scene, as the handler sees it -/

/-- A child `QObject` of an item: whether it `inherits("QQuickScrollBarAttached")`
and the items held by its `vertical` / `horizontal` properties. -/
structure ChildObject where
  id : ObjId
  inheritsScrollBarAttached : Bool
  vertical : Option ObjId
  horizontal : Option ObjId
deriving DecidableEq

/-- The `parentItem()` of the target: whether it `inherits("QQuickScrollView")`
and its `children()`. -/
structure ParentItem where
  id : ObjId
  inheritsScrollView : Bool
  children : List ChildObject
deriving DecidableEq

/-- A `QQuickItem *` offered as target, with the properties the handler reads. -/
structure QQuickItem where
  id : ObjId
  inheritsFlickable : Bool
  width : ℚ
  height : ℚ
  contentWidth : ℚ
  contentHeight : ℚ
  contentX : ℚ
  contentY : ℚ
  topMargin : ℚ
  bottomMargin : ℚ
  leftMargin : ℚ
  rightMargin : ℚ
  originX : ℚ
  originY : ℚ
  contentItem : Option ObjId
  children : List ChildObject
  parentItem : Option ParentItem
  windowDevicePixelRatio : Option ℚ
deriving DecidableEq

/-- The `watched` object of `eventFilter`: its identity, whether
`qobject_cast<QQuickItem *>` succeeds, and `isEnabled()`. -/
structure Watched where
  id : ObjId
  isQuickItem : Bool
  isEnabled : Bool
deriving DecidableEq

/-- Signals of `WheelHandler` without arguments. -/
inductive Signal where
  | targetChanged
  | verticalStepSizeChanged
  | horizontalStepSizeChanged
  | pageScrollModifiersChanged
  | filterMouseEventsChanged
  | keyNavigationEnabledChanged
deriving DecidableEq

/-- Outward effects of the handler, in the order performed. -/
inductive Effect where
  | emitted (signal : Signal)
  | wheel (event : LingmoUIWheelEvent)
  | qmlWarning
  | setContentX (value : ℚ)
  | setContentY (value : ℚ)
  | animationStop
  | animationSetEndValue (value : ℚ)
  | animationStart
  | setInteractive (scrollBar : ObjId) (value : Bool)
deriving DecidableEq

/-- Embedding of `WheelFilterItem`: the overlay item owned by the handler. -/
structure WheelFilterItem where
  id : ObjId
  enabled : Bool
  parentItem : Option ObjId
  stackedAfter : Option ObjId
  width : ℚ
  height : ℚ
deriving DecidableEq

/-- The constructor `WheelFilterItem::WheelFilterItem(nullptr)`: `setEnabled(false)`. -/
def WheelFilterItem.create (id : ObjId) : WheelFilterItem :=
  { id := id, enabled := false, parentItem := none, stackedAfter := none, width := 0, height := 0 }

/-- The `QPropertyAnimation m_yScrollAnimation`, as far as the handler drives it. -/
structure YScrollAnimation where
  running : Bool
  endValue : ℚ
  targetObject : Option ObjId
deriving DecidableEq

/-! ## WheelHandler -/

/-- The state of a `WheelHandler`. -/
structure WheelHandler where
  m_flickable : Option QQuickItem
  m_verticalScrollBar : Option ObjId
  m_horizontalScrollBar : Option ObjId
  m_filterItem : WheelFilterItem
  /-- The attached object whose `verticalChanged()` is connected to `_k_rebindScrollBars`. -/
  m_verticalChangedConnection : Option ObjId
  /-- The attached object whose `horizontalChanged()` is connected to `_k_rebindScrollBars`. -/
  m_horizontalChangedConnection : Option ObjId
  /-- Whether the target's `parentChanged` is connected to `_k_rebindScrollBars`. -/
  parentChangedConnected : Bool
  /-- The item whose `widthChanged` / `heightChanged` resize the filter item. -/
  sizeConnections : Option ObjId
  /-- The objects on which this handler is installed as an event filter. -/
  eventFilters : List ObjId
  m_yScrollAnimation : YScrollAnimation
  /-- Whether the single-shot `m_wheelScrollingTimer` is running. -/
  wheelScrollingTimerActive : Bool
  m_wheelScrolling : Bool
  m_wasTouched : Bool
  /-- Whether `m_engine` is non-null (set by `classBegin`). -/
  m_engine : Bool
  m_defaultPixelStepSize : ℚ
  m_verticalStepSize : ℚ
  m_horizontalStepSize : ℚ
  m_explicitVStepSize : Bool
  m_explicitHStepSize : Bool
  m_pageScrollModifiers : Nat
  m_defaultPageScrollModifiers : Nat
  m_defaultHorizontalScrollModifiers : Nat
  m_filterMouseEvents : Bool
  m_keyNavigationEnabled : Bool
  m_scrollFlickableTarget : Bool
  m_blockTargetWheel : Bool
  m_lingmouiWheelEvent : LingmoUIWheelEvent
  /-- The most recent `setProperty("interactive", _)` per scroll bar, newest first. -/
  interactive : List (ObjId × Bool)
  /-- `qGuiApp->devicePixelRatio()`. -/
  appDevicePixelRatio : ℚ
  /-- Whether `qGuiApp->platformName()` is `"xcb"`. -/
  platformIsXcb : Bool
  /-- Outward effects, oldest first. -/
  log : List Effect
deriving DecidableEq

/-- The in-class member defaults of `WheelHandler`, declared in the header
`wheelhandler.h`, which is not among the sources: the default step size (20 times
the system's wheel-scroll-lines setting), the modifier masks and the option flags. -/
structure HeaderDefaults where
  defaultPixelStepSize : ℚ
  pageScrollModifiers : Nat
  horizontalScrollModifiers : Nat
  filterMouseEvents : Bool
  keyNavigationEnabled : Bool
  scrollFlickableTarget : Bool
  blockTargetWheel : Bool
deriving DecidableEq

namespace WheelHandler

/-- Embedding of `Q_EMIT` of an argument-less signal. -/
def emitSignal (s : WheelHandler) (signal : Signal) : WheelHandler :=
  { s with log := s.log ++ [Effect.emitted signal] }

/-- Embedding of `object->installEventFilter(this)`: the handler is registered once per object. -/
def installEventFilter (s : WheelHandler) (object : ObjId) : WheelHandler :=
  { s with eventFilters := object :: s.eventFilters.filter (fun o => o != object) }

/-- Embedding of `object->removeEventFilter(this)`. -/
def removeEventFilter (s : WheelHandler) (object : ObjId) : WheelHandler :=
  { s with eventFilters := s.eventFilters.filter (fun o => o != object) }

/-- Whether the handler currently filters the events of `object`. -/
def filters (s : WheelHandler) (object : ObjId) : Bool := s.eventFilters.contains object

/-- Embedding of `WheelHandler::target`. -/
def target (s : WheelHandler) : Option QQuickItem := s.m_flickable

/-- The constructor `WheelHandler::WheelHandler`: the filter item is created
disabled and gets the handler as event filter, the timer is single-shot and not
started, the animation is stopped; nothing is bound. The members that the
constructor does not assign start from the defaults of the header. -/
def create (filterItemId : ObjId) (defaults : HeaderDefaults) (appDevicePixelRatio : ℚ)
    (platformIsXcb : Bool) : WheelHandler :=
  { m_flickable := none
    m_verticalScrollBar := none
    m_horizontalScrollBar := none
    m_filterItem := WheelFilterItem.create filterItemId
    m_verticalChangedConnection := none
    m_horizontalChangedConnection := none
    parentChangedConnected := false
    sizeConnections := none
    eventFilters := [filterItemId]
    m_yScrollAnimation := { running := false, endValue := 0, targetObject := none }
    wheelScrollingTimerActive := false
    m_wheelScrolling := false
    m_wasTouched := false
    m_engine := false
    m_defaultPixelStepSize := defaults.defaultPixelStepSize
    m_verticalStepSize := defaults.defaultPixelStepSize
    m_horizontalStepSize := defaults.defaultPixelStepSize
    m_explicitVStepSize := false
    m_explicitHStepSize := false
    m_pageScrollModifiers := defaults.pageScrollModifiers
    m_defaultPageScrollModifiers := defaults.pageScrollModifiers
    m_defaultHorizontalScrollModifiers := defaults.horizontalScrollModifiers
    m_filterMouseEvents := defaults.filterMouseEvents
    m_keyNavigationEnabled := defaults.keyNavigationEnabled
    m_scrollFlickableTarget := defaults.scrollFlickableTarget
    m_blockTargetWheel := defaults.blockTargetWheel
    m_lingmouiWheelEvent :=
      { m_x := 0, m_y := 0, m_angleDelta := { x := 0, y := 0 }, m_pixelDelta := { x := 0, y := 0 }
        m_buttons := 0, m_modifiers := 0, m_accepted := false, m_inverted := false }
    interactive := []
    appDevicePixelRatio := appDevicePixelRatio
    platformIsXcb := platformIsXcb
    log := [] }

/-- The slot connected to `QStyleHints::wheelScrollLinesChanged` in the constructor.
The product `20 * scrollLines` is computed in `int` before it is stored. -/
def wheelScrollLinesChanged (s : WheelHandler) (scrollLines : ℤ) : WheelHandler :=
  let s0 := { s with m_defaultPixelStepSize := ((wrapInt32 (20 * scrollLines) : ℤ) : ℚ) }
  let s1 :=
    if !s0.m_explicitVStepSize && decide (s0.m_verticalStepSize ≠ s0.m_defaultPixelStepSize) then
      ({ s0 with m_verticalStepSize := s0.m_defaultPixelStepSize }).emitSignal
        Signal.verticalStepSizeChanged
    else s0
  if !s1.m_explicitHStepSize && decide (s1.m_horizontalStepSize ≠ s1.m_defaultPixelStepSize) then
    ({ s1 with m_horizontalStepSize := s1.m_defaultPixelStepSize }).emitSignal
      Signal.horizontalStepSizeChanged
  else s1

/-- The scroll bars found on one attachment source (`struct ScrollBarAttached`). -/
structure ScrollBarAttached where
  attached : Option ObjId
  vertical : Option ObjId
  horizontal : Option ObjId
deriving DecidableEq

/-- The scroll bar chosen for one axis (`struct ChosenScrollBar`). -/
structure ChosenScrollBar where
  attached : Option ObjId
  scrollBar : Option ObjId
deriving DecidableEq

/-- The loop over `children()` of `_k_rebindScrollBars`: the first child that
`inherits("QQuickScrollBarAttached")` fills the record, then `break`. -/
def findAttached : List ChildObject → ScrollBarAttached
  | [] => { attached := none, vertical := none, horizontal := none }
  | child :: rest =>
    if child.inheritsScrollBarAttached then
      { attached := some child.id, vertical := child.vertical, horizontal := child.horizontal }
    else findAttached rest

/-- The record `attachedToFlickable` of `_k_rebindScrollBars`. -/
def attachedToFlickable (s : WheelHandler) : ScrollBarAttached :=
  match s.m_flickable with
  | some flickable => findAttached flickable.children
  | none => { attached := none, vertical := none, horizontal := none }

/-- The record `attachedToScrollView` of `_k_rebindScrollBars`. -/
def attachedToScrollView (s : WheelHandler) : ScrollBarAttached :=
  match s.m_flickable with
  | some flickable =>
    match flickable.parentItem with
    | some flickableParent =>
      if flickableParent.inheritsScrollView then findAttached flickableParent.children
      else { attached := none, vertical := none, horizontal := none }
    | none => { attached := none, vertical := none, horizontal := none }
  | none => { attached := none, vertical := none, horizontal := none }

/-- The `ChosenScrollBar vertical` of `_k_rebindScrollBars`. -/
def chosenVertical (s : WheelHandler) : ChosenScrollBar :=
  if (attachedToFlickable s).vertical.isSome then
    { attached := (attachedToFlickable s).attached, scrollBar := (attachedToFlickable s).vertical }
  else if (attachedToScrollView s).vertical.isSome then
    { attached := (attachedToScrollView s).attached, scrollBar := (attachedToScrollView s).vertical }
  else { attached := none, scrollBar := none }

/-- The `ChosenScrollBar horizontal` of `_k_rebindScrollBars`. -/
def chosenHorizontal (s : WheelHandler) : ChosenScrollBar :=
  if (attachedToFlickable s).horizontal.isSome then
    { attached := (attachedToFlickable s).attached, scrollBar := (attachedToFlickable s).horizontal }
  else if (attachedToScrollView s).horizontal.isSome then
    { attached := (attachedToScrollView s).attached, scrollBar := (attachedToScrollView s).horizontal }
  else { attached := none, scrollBar := none }

/-- The block of `_k_rebindScrollBars` that rebinds the vertical scroll bar. -/
def rebindVertical (s : WheelHandler) (vertical : ChosenScrollBar) : WheelHandler :=
  if s.m_verticalScrollBar ≠ vertical.scrollBar then
    let s1 :=
      match s.m_verticalScrollBar with
      | some old => { s.removeEventFilter old with m_verticalChangedConnection := none }
      | none => s
    let s2 := { s1 with m_verticalScrollBar := vertical.scrollBar }
    match vertical.scrollBar with
    | some scrollBar =>
      { s2.installEventFilter scrollBar with m_verticalChangedConnection := vertical.attached }
    | none => s2
  else s

/-- The block of `_k_rebindScrollBars` that rebinds the horizontal scroll bar. -/
def rebindHorizontal (s : WheelHandler) (horizontal : ChosenScrollBar) : WheelHandler :=
  if s.m_horizontalScrollBar ≠ horizontal.scrollBar then
    let s1 :=
      match s.m_horizontalScrollBar with
      | some old => { s.removeEventFilter old with m_horizontalChangedConnection := none }
      | none => s
    let s2 := { s1 with m_horizontalScrollBar := horizontal.scrollBar }
    match horizontal.scrollBar with
    | some scrollBar =>
      { s2.installEventFilter scrollBar with m_horizontalChangedConnection := horizontal.attached }
    | none => s2
  else s

/-- Embedding of `WheelHandler::_k_rebindScrollBars`. -/
def _k_rebindScrollBars (s : WheelHandler) : WheelHandler :=
  let vertical := chosenVertical s
  let horizontal := chosenHorizontal s
  let s1 :=
    match s.m_flickable with
    | some _ =>
      if (attachedToFlickable s).horizontal.isSome && (attachedToFlickable s).vertical.isSome then
        { s with parentChangedConnected := false }
      else { s with parentChangedConnected := true }
    | none => s
  rebindHorizontal (rebindVertical s1 vertical) horizontal

/-- Embedding of `WheelHandler::setTarget`. -/
def setTarget (s : WheelHandler) (target : Option QQuickItem) : WheelHandler :=
  if s.m_flickable.map QQuickItem.id = target.map QQuickItem.id then s
  else if (match target with
      | some t => !t.inheritsFlickable
      | none => false) then
    { s with log := s.log ++ [Effect.qmlWarning] }
  else
    let s1 :=
      match s.m_flickable with
      | some old =>
        { s.removeEventFilter old.id with sizeConnections := none, parentChangedConnected := false }
      | none => s
    let s2 :=
      { s1 with
        m_flickable := target
        m_filterItem := { s1.m_filterItem with parentItem := target.map QQuickItem.id } }
    let s3 :=
      if s2.m_yScrollAnimation.targetObject.isSome then
        { s2 with
          m_yScrollAnimation := { s2.m_yScrollAnimation with running := false }
          log := s2.log ++ [Effect.animationStop] }
      else s2
    let s4 :=
      { s3 with
        m_yScrollAnimation :=
          { s3.m_yScrollAnimation with targetObject := target.map QQuickItem.id } }
    let s5 :=
      match target with
      | some t =>
        let s6 := s4.installEventFilter t.id
        { s6 with
          m_filterItem :=
            { s6.m_filterItem with stackedAfter := t.contentItem, width := t.width, height := t.height }
          sizeConnections := some t.id }
      | none => s4
    (_k_rebindScrollBars s5).emitSignal Signal.targetChanged

/-- Embedding of `WheelHandler::verticalStepSize`. -/
def verticalStepSize (s : WheelHandler) : ℚ := s.m_verticalStepSize

/-- Embedding of `WheelHandler::resetVerticalStepSize`. -/
def resetVerticalStepSize (s : WheelHandler) : WheelHandler :=
  let s1 := { s with m_explicitVStepSize := false }
  if qFuzzyCompare s1.m_verticalStepSize s1.m_defaultPixelStepSize then s1
  else
    ({ s1 with m_verticalStepSize := s1.m_defaultPixelStepSize }).emitSignal
      Signal.verticalStepSizeChanged

/-- Embedding of `WheelHandler::setVerticalStepSize`. -/
def setVerticalStepSize (s : WheelHandler) (stepSize : ℚ) : WheelHandler :=
  let s1 := { s with m_explicitVStepSize := true }
  if qFuzzyCompare s1.m_verticalStepSize stepSize then s1
  else if qFuzzyIsNull stepSize then resetVerticalStepSize s1
  else ({ s1 with m_verticalStepSize := stepSize }).emitSignal Signal.verticalStepSizeChanged

/-- Embedding of `WheelHandler::horizontalStepSize`. -/
def horizontalStepSize (s : WheelHandler) : ℚ := s.m_horizontalStepSize

/-- Embedding of `WheelHandler::resetHorizontalStepSize`. -/
def resetHorizontalStepSize (s : WheelHandler) : WheelHandler :=
  let s1 := { s with m_explicitHStepSize := false }
  if qFuzzyCompare s1.m_horizontalStepSize s1.m_defaultPixelStepSize then s1
  else
    ({ s1 with m_horizontalStepSize := s1.m_defaultPixelStepSize }).emitSignal
      Signal.horizontalStepSizeChanged

/-- Embedding of `WheelHandler::setHorizontalStepSize`. -/
def setHorizontalStepSize (s : WheelHandler) (stepSize : ℚ) : WheelHandler :=
  let s1 := { s with m_explicitHStepSize := true }
  if qFuzzyCompare s1.m_horizontalStepSize stepSize then s1
  else if qFuzzyIsNull stepSize then resetHorizontalStepSize s1
  else ({ s1 with m_horizontalStepSize := stepSize }).emitSignal Signal.horizontalStepSizeChanged

/-- Embedding of `WheelHandler::setPageScrollModifiers`. -/
def setPageScrollModifiers (s : WheelHandler) (modifiers : Nat) : WheelHandler :=
  if s.m_pageScrollModifiers = modifiers then s
  else ({ s with m_pageScrollModifiers := modifiers }).emitSignal Signal.pageScrollModifiersChanged

/-- Embedding of `WheelHandler::resetPageScrollModifiers`. -/
def resetPageScrollModifiers (s : WheelHandler) : WheelHandler :=
  setPageScrollModifiers s s.m_defaultPageScrollModifiers

/-- Embedding of `WheelHandler::setFilterMouseEvents`. -/
def setFilterMouseEvents (s : WheelHandler) (enabled : Bool) : WheelHandler :=
  if s.m_filterMouseEvents = enabled then s
  else ({ s with m_filterMouseEvents := enabled }).emitSignal Signal.filterMouseEventsChanged

/-- Embedding of `WheelHandler::setKeyNavigationEnabled`. -/
def setKeyNavigationEnabled (s : WheelHandler) (enabled : Bool) : WheelHandler :=
  if s.m_keyNavigationEnabled = enabled then s
  else
    ({ s with m_keyNavigationEnabled := enabled }).emitSignal Signal.keyNavigationEnabledChanged

/-- Embedding of `WheelHandler::setScrolling`. -/
def setScrolling (s : WheelHandler) (scrolling : Bool) : WheelHandler :=
  if s.m_wheelScrolling = scrolling then
    if s.m_wheelScrolling then { s with wheelScrollingTimerActive := true } else s
  else
    { s with
      m_wheelScrolling := scrolling
      m_filterItem := { s.m_filterItem with enabled := scrolling } }

/-- The timeout of the single-shot `m_wheelScrollingTimer`: the callback installed
by the constructor runs `setScrolling(false)`. Without a running timer there is
no timeout. -/
def wheelScrollingTimeout (s : WheelHandler) : WheelHandler :=
  if s.wheelScrollingTimerActive then
    setScrolling { s with wheelScrollingTimerActive := false } false
  else s

/-! ### Scroll computation -/

/-- The `setProperty("contentX", value)` write on the target. -/
def setContentX (s : WheelHandler) (value : ℚ) : WheelHandler :=
  { s with
    m_flickable := s.m_flickable.map (fun (f : QQuickItem) => { f with contentX := value })
    log := s.log ++ [Effect.setContentX value] }

/-- The `setProperty("contentY", value)` write on the target. -/
def setContentY (s : WheelHandler) (value : ℚ) : WheelHandler :=
  { s with
    m_flickable := s.m_flickable.map (fun (f : QQuickItem) => { f with contentY := value })
    log := s.log ++ [Effect.setContentY value] }

/-- The command `m_yScrollAnimation.stop()`. -/
def animationStop (s : WheelHandler) : WheelHandler :=
  { s with
    m_yScrollAnimation := { s.m_yScrollAnimation with running := false }
    log := s.log ++ [Effect.animationStop] }

/-- The command `m_yScrollAnimation.setEndValue(value)`. -/
def animationSetEndValue (s : WheelHandler) (value : ℚ) : WheelHandler :=
  { s with
    m_yScrollAnimation := { s.m_yScrollAnimation with endValue := value }
    log := s.log ++ [Effect.animationSetEndValue value] }

/-- The command `m_yScrollAnimation.start(QAbstractAnimation::KeepWhenStopped)`. -/
def animationStart (s : WheelHandler) : WheelHandler :=
  { s with
    m_yScrollAnimation := { s.m_yScrollAnimation with running := true }
    log := s.log ++ [Effect.animationStart] }

/-- The local `pageWidth` of `scrollFlickable` and `eventFilter`. -/
def pageWidth (f : QQuickItem) : ℚ := f.width - f.leftMargin - f.rightMargin

/-- The local `pageHeight` of `scrollFlickable` and `eventFilter`. -/
def pageHeight (f : QQuickItem) : ℚ := f.height - f.topMargin - f.bottomMargin

/-- The local `devicePixelRatio` of `scrollFlickable`: the window's ratio, or the
application's when the target has no window. -/
def devicePixelRatio (s : WheelHandler) (f : QQuickItem) : ℚ :=
  match f.windowDevicePixelRatio with
  | some ratio => ratio
  | none => s.appDevicePixelRatio

/-- The condition under which `scrollFlickable` transposes both deltas. -/
def transposesDeltas (s : WheelHandler) (modifiers : Nat) : Bool :=
  testFlags modifiers s.m_defaultHorizontalScrollModifiers && !s.platformIsXcb

/-- A delta as `scrollFlickable` uses it after the transposition step. -/
def transposedIf (s : WheelHandler) (modifiers : Nat) (delta : QPointF) : QPointF :=
  if transposesDeltas s modifiers then delta.transposed else delta

/-- The local `xChange` of `scrollFlickable`. -/
def xChange (s : WheelHandler) (f : QQuickItem) (pixelDelta angleDelta : QPointF)
    (modifiers : Nat) : ℚ :=
  let xTicks := angleDelta.x / 120
  if testFlags modifiers s.m_pageScrollModifiers then
    qBound (-pageWidth f) (xTicks * pageWidth f) (pageWidth f)
  else if pixelDelta.x ≠ 0 then pixelDelta.x
  else xTicks * s.m_horizontalStepSize

/-- The local `minXExtent` of `scrollFlickable`. -/
def minXExtent (f : QQuickItem) : ℚ := f.leftMargin - f.originX

/-- The local `maxXExtent` of `scrollFlickable`. -/
def maxXExtent (f : QQuickItem) : ℚ := f.width - (f.contentWidth + f.rightMargin + f.originX)

/-- The local `newContentX` of `scrollFlickable` as first assigned: the bounded offset. -/
def boundedContentX (s : WheelHandler) (f : QQuickItem) (pixelDelta angleDelta : QPointF)
    (modifiers : Nat) : ℚ :=
  qBound (-minXExtent f) (f.contentX - xChange s f pixelDelta angleDelta modifiers) (-maxXExtent f)

/-- The local `newContentX` of `scrollFlickable` after rounding to device pixels. -/
def newContentX (s : WheelHandler) (f : QQuickItem) (pixelDelta angleDelta : QPointF)
    (modifiers : Nat) : ℚ :=
  (stdRound (boundedContentX s f pixelDelta angleDelta modifiers * devicePixelRatio s f) : ℚ)
    / devicePixelRatio s f

/-- The block `// Scroll X` of `scrollFlickable`; `f` holds the values read at entry. -/
def scrollX (s : WheelHandler) (f : QQuickItem) (pixelDelta angleDelta : QPointF)
    (modifiers : Nat) : Bool × WheelHandler :=
  if f.contentWidth > pageWidth f then
    if f.contentX ≠ newContentX s f pixelDelta angleDelta modifiers then
      (true, s.setContentX (newContentX s f pixelDelta angleDelta modifiers))
    else (false, s)
  else (false, s)

/-- The local `yChange` of `scrollFlickable`. -/
def yChange (s : WheelHandler) (f : QQuickItem) (pixelDelta angleDelta : QPointF)
    (modifiers : Nat) : ℚ :=
  let yTicks := angleDelta.y / 120
  if testFlags modifiers s.m_pageScrollModifiers then
    qBound (-pageHeight f) (yTicks * pageHeight f) (pageHeight f)
  else if pixelDelta.y ≠ 0 then pixelDelta.y
  else yTicks * s.m_verticalStepSize

/-- The local `minYExtent` of `scrollFlickable`. -/
def minYExtent (f : QQuickItem) : ℚ := f.topMargin - f.originY

/-- The local `maxYExtent` of `scrollFlickable`. -/
def maxYExtent (f : QQuickItem) : ℚ := f.height - (f.contentHeight + f.bottomMargin + f.originY)

/-- The local `newContentY` of `scrollFlickable` as first assigned: the bounded
offset, counted from the animation's end value while the animation runs. -/
def boundedContentY (s : WheelHandler) (f : QQuickItem) (pixelDelta angleDelta : QPointF)
    (modifiers : Nat) : ℚ :=
  if s.m_yScrollAnimation.running then
    stdClamp (s.m_yScrollAnimation.endValue + -yChange s f pixelDelta angleDelta modifiers)
      (-minYExtent f) (-maxYExtent f)
  else
    stdClamp (f.contentY - yChange s f pixelDelta angleDelta modifiers)
      (-minYExtent f) (-maxYExtent f)

/-- The local `newContentY` of `scrollFlickable` after rounding to device pixels. -/
def newContentY (s : WheelHandler) (f : QQuickItem) (pixelDelta angleDelta : QPointF)
    (modifiers : Nat) : ℚ :=
  (stdRound (boundedContentY s f pixelDelta angleDelta modifiers * devicePixelRatio s f) : ℚ)
    / devicePixelRatio s f

/-- The block `// Scroll Y` of `scrollFlickable`; `f` holds the values read at entry. -/
def scrollY (s : WheelHandler) (f : QQuickItem) (pixelDelta angleDelta : QPointF)
    (modifiers : Nat) : Bool × WheelHandler :=
  if f.contentHeight > pageHeight f then
    let s1 := if s.m_yScrollAnimation.running then s.animationStop else s
    if f.contentY ≠ newContentY s f pixelDelta angleDelta modifiers then
      if s1.m_wasTouched || !s1.m_engine then
        (true, s1.setContentY (newContentY s f pixelDelta angleDelta modifiers))
      else
        (true,
          (s1.animationSetEndValue (newContentY s f pixelDelta angleDelta modifiers)).animationStart)
    else (false, s1)
  else (false, s)

/-- Embedding of `WheelHandler::scrollFlickable`. -/
def scrollFlickable (s : WheelHandler) (pixelDelta angleDelta : QPointF) (modifiers : Nat) :
    Bool × WheelHandler :=
  match s.m_flickable with
  | none => (false, s)
  | some f =>
    if pixelDelta.isNull && angleDelta.isNull then (false, s)
    else
      let angleDelta1 := transposedIf s modifiers angleDelta
      let pixelDelta1 := transposedIf s modifiers pixelDelta
      let rx := scrollX s f pixelDelta1 angleDelta1 modifiers
      let ry := scrollY rx.2 f pixelDelta1 angleDelta1 modifiers
      (rx.1 || ry.1, ry.2)

/-- Modelled from the spec: the default arguments of `scrollFlickable`, declared in
the header `wheelhandler.h`, which is not among the sources: a directional helper
passes a one-axis pixel request with a null angle delta. -/
def defaultAngleDelta : QPointF := { x := 0, y := 0 }

/-- Modelled from the spec: the default `modifiers` argument of `scrollFlickable`,
declared in the absent header: no modifier (`Qt::NoModifier`). -/
def NoModifier : Nat := 0

/-- Modelled from the spec: the default `stepSize` argument of the directional
helpers, declared in the absent header: a value for which the configured step size
of the axis is used, that is, a negative one. -/
def defaultStepSize : ℚ := -1

/-- Embedding of `WheelHandler::scrollUp`. -/
def scrollUp (s : WheelHandler) (stepSize : ℚ) : Bool × WheelHandler :=
  if qFuzzyIsNull stepSize then (false, s)
  else
    let stepSize1 := if stepSize < 0 then s.m_verticalStepSize else stepSize
    scrollFlickable s { x := 0, y := stepSize1 } defaultAngleDelta NoModifier

/-- Embedding of `WheelHandler::scrollDown`. -/
def scrollDown (s : WheelHandler) (stepSize : ℚ) : Bool × WheelHandler :=
  if qFuzzyIsNull stepSize then (false, s)
  else
    let stepSize1 := if stepSize < 0 then s.m_verticalStepSize else stepSize
    scrollFlickable s { x := 0, y := -stepSize1 } defaultAngleDelta NoModifier

/-- Embedding of `WheelHandler::scrollLeft`: the request is built as a `QPoint`, so the step is
converted to `int`. -/
def scrollLeft (s : WheelHandler) (stepSize : ℚ) : Bool × WheelHandler :=
  if qFuzzyIsNull stepSize then (false, s)
  else
    let stepSize1 := if stepSize < 0 then s.m_horizontalStepSize else stepSize
    scrollFlickable s (QPoint.toPointF { x := truncToInt stepSize1, y := 0 })
      defaultAngleDelta NoModifier

/-- Embedding of `WheelHandler::scrollRight`: the request is built as a `QPoint`, so the step is
converted to `int`. -/
def scrollRight (s : WheelHandler) (stepSize : ℚ) : Bool × WheelHandler :=
  if qFuzzyIsNull stepSize then (false, s)
  else
    let stepSize1 := if stepSize < 0 then s.m_horizontalStepSize else stepSize
    scrollFlickable s (QPoint.toPointF { x := truncToInt (-stepSize1), y := 0 })
      defaultAngleDelta NoModifier

/-! ### Event dispatch -/

/-- One `scrollBar->setProperty("interactive", value)`, guarded by the null check. -/
def setScrollBarInteractive (s : WheelHandler) (scrollBar : Option ObjId) (value : Bool) :
    WheelHandler :=
  match scrollBar with
  | some bar =>
    { s with
      interactive := (bar, value) :: s.interactive
      log := s.log ++ [Effect.setInteractive bar value] }
  | none => s

/-- The recurring pair of guarded `setProperty("interactive", value)` calls on the
vertical and then the horizontal scroll bar. -/
def setScrollBarsInteractive (s : WheelHandler) (value : Bool) : WheelHandler :=
  setScrollBarInteractive (setScrollBarInteractive s s.m_verticalScrollBar value)
    s.m_horizontalScrollBar value

/-- The value last written to the `interactive` property of a scroll bar, if any. -/
def interactiveOf (s : WheelHandler) (bar : ObjId) : Option Bool :=
  (s.interactive.find? (fun p => p.1 == bar)).map (fun p => p.2)

/-- The comparison `item == m_flickable` of `eventFilter`. -/
def isFlickable (s : WheelHandler) (item : Watched) : Bool :=
  decide (some item.id = s.m_flickable.map QQuickItem.id)

/-- The block of `case QEvent::Wheel` that fills `m_lingmouiWheelEvent`: when the
raw event carries a pixel delta identical to its angle delta, the pixel delta is
replaced by `(0, 0)`. -/
def synthesizeWheelEvent (wheelEvent : QWheelEvent) : LingmoUIWheelEvent :=
  if wheelEvent.pixelDelta = wheelEvent.angleDelta then
    LingmoUIWheelEvent.initializeFromEvent { wheelEvent with pixelDelta := { x := 0, y := 0 } }
  else LingmoUIWheelEvent.initializeFromEvent wheelEvent

/-- The first part of `case QEvent::Wheel`, up to and including `Q_EMIT wheel`.
The listeners of the `wheel` signal are the function `listener`: it receives the
synthesized event and returns the accepted flag they leave on it. -/
def emitWheel (s : WheelHandler) (listener : LingmoUIWheelEvent → Bool)
    (wheelEvent : QWheelEvent) : WheelHandler :=
  let s1 := if s.m_filterMouseEvents then setScrollBarsInteractive s true else s
  let s2 :=
    { s1 with
      m_wasTouched :=
        decide (wheelEvent.angleDelta.y.natAbs ≠ 0) &&
          decide (wheelEvent.angleDelta.y.natAbs % 120 ≠ 0) }
  { s2 with
    m_lingmouiWheelEvent :=
      (synthesizeWheelEvent wheelEvent).setAccepted (listener (synthesizeWheelEvent wheelEvent))
    log := s2.log ++ [Effect.wheel (synthesizeWheelEvent wheelEvent)] }

/-- The block of `case QEvent::Wheel` that computes the local `scrolled`: the
call of `scrollFlickable`, made when the scroll-flickable-target flag is set or
the content fits the page on both axes. The pixel delta is passed on only when the
angle delta is null. -/
def scrollOnWheel (s : WheelHandler) (contentWidth contentHeight pageWidth pageHeight : ℚ) :
    Bool × WheelHandler :=
  if s.m_scrollFlickableTarget ||
      (decide (contentHeight ≤ pageHeight) && decide (contentWidth ≤ pageWidth)) then
    let pixelDelta :=
      if s.m_lingmouiWheelEvent.angleDelta.isNull then s.m_lingmouiWheelEvent.pixelDelta
      else { x := 0, y := 0 }
    scrollFlickable s pixelDelta s.m_lingmouiWheelEvent.angleDelta s.m_lingmouiWheelEvent.modifiers
  else (false, s)

/-- The `case QEvent::Wheel` of `eventFilter`. -/
def eventFilterWheel (s : WheelHandler) (listener : LingmoUIWheelEvent → Bool)
    (wheelEvent : QWheelEvent) (contentWidth contentHeight pageWidth pageHeight : ℚ) :
    Bool × WheelHandler :=
  let s3 := emitWheel s listener wheelEvent
  if s3.m_lingmouiWheelEvent.isAccepted then (true, s3)
  else
    let r := scrollOnWheel s3 contentWidth contentHeight pageWidth pageHeight
    let s4 := setScrolling r.2 r.1
    let flickableWillUseGestureScrolling :=
      !(decide (wheelEvent.source = MouseEventSource.MouseEventNotSynthesized) ||
        wheelEvent.pixelDelta.isNull)
    (r.1 || s4.m_blockTargetWheel || flickableWillUseGestureScrolling, s4)

/-- The `case QEvent::KeyPress` of `eventFilter`. -/
def eventFilterKeyPress (s : WheelHandler) (key : Key) (modifiers : Nat)
    (contentWidth contentHeight pageWidth pageHeight : ℚ) : Bool × WheelHandler :=
  if !s.m_keyNavigationEnabled then (false, s)
  else
    let horizontalScroll := testFlags modifiers s.m_defaultHorizontalScrollModifiers
    match key with
    | Key.Key_Up => scrollUp s defaultStepSize
    | Key.Key_Down => scrollDown s defaultStepSize
    | Key.Key_Left => scrollLeft s defaultStepSize
    | Key.Key_Right => scrollRight s defaultStepSize
    | Key.Key_PageUp => if horizontalScroll then scrollLeft s pageWidth else scrollUp s pageHeight
    | Key.Key_PageDown =>
      if horizontalScroll then scrollRight s pageWidth else scrollDown s pageHeight
    | Key.Key_Home =>
      if horizontalScroll then scrollLeft s contentWidth else scrollUp s contentHeight
    | Key.Key_End =>
      if horizontalScroll then scrollRight s contentWidth else scrollDown s contentHeight
    | Key.Key_Other => (false, s)

/-- Embedding of `WheelHandler::eventFilter`. -/
def eventFilter (s : WheelHandler) (listener : LingmoUIWheelEvent → Bool) (watched : Watched)
    (event : QEvent) : Bool × WheelHandler :=
  if !watched.isQuickItem || !watched.isEnabled then (false, s)
  else
    let contentWidth := match s.m_flickable with
      | some f => f.contentWidth
      | none => 0
    let contentHeight := match s.m_flickable with
      | some f => f.contentHeight
      | none => 0
    let pageWidth := match s.m_flickable with
      | some f => pageWidth f
      | none => 0
    let pageHeight := match s.m_flickable with
      | some f => pageHeight f
      | none => 0
    match event with
    | QEvent.Wheel wheelEvent =>
      eventFilterWheel s listener wheelEvent contentWidth contentHeight pageWidth pageHeight
    | QEvent.TouchBegin =>
      let s1 := { s with m_wasTouched := true }
      if !s1.m_filterMouseEvents then (false, s1)
      else (false, setScrollBarsInteractive s1 false)
    | QEvent.TouchEnd => (false, { s with m_wasTouched := false })
    | QEvent.MouseButtonPress source =>
      let s1 :=
        { s with m_wasTouched := decide (source ≠ MouseEventSource.MouseEventNotSynthesized) }
      if !s1.m_filterMouseEvents then (false, s1)
      else if !s1.m_wasTouched then (false, setScrollBarsInteractive s1 true)
      else (!s1.m_wasTouched && isFlickable s1 watched, s1)
    | QEvent.MouseMove source =>
      let s1 := setScrolling s false
      if !s1.m_filterMouseEvents then (false, s1)
      else if decide (source = MouseEventSource.MouseEventNotSynthesized) && isFlickable s1 watched
      then (true, s1)
      else (false, s1)
    | QEvent.MouseButtonRelease source =>
      let s1 := setScrolling s false
      if !s1.m_filterMouseEvents then (false, s1)
      else if decide (source = MouseEventSource.MouseEventNotSynthesized) && isFlickable s1 watched
      then (true, s1)
      else (false, s1)
    | QEvent.HoverEnter =>
      if !s.m_filterMouseEvents then (false, s)
      else if s.m_wasTouched &&
          (decide (some watched.id = s.m_verticalScrollBar) ||
            decide (some watched.id = s.m_horizontalScrollBar)) then
        (false, setScrollBarsInteractive s true)
      else (false, s)
    | QEvent.HoverMove =>
      if !s.m_filterMouseEvents then (false, s)
      else if s.m_wasTouched &&
          (decide (some watched.id = s.m_verticalScrollBar) ||
            decide (some watched.id = s.m_horizontalScrollBar)) then
        (false, setScrollBarsInteractive s true)
      else (false, s)
    | QEvent.KeyPress key modifiers =>
      eventFilterKeyPress s key modifiers contentWidth contentHeight pageWidth pageHeight
    | QEvent.Other => (false, s)

end WheelHandler

/-! ### Example scenes -/

/-- A target of 100 x 100 showing content of 100 x 500, without margins or origin
offset, at the start of its content, in a window of device pixel ratio 1. -/
def exampleFlickable : QQuickItem :=
  { id := 1, inheritsFlickable := true, width := 100, height := 100, contentWidth := 100
    contentHeight := 500, contentX := 0, contentY := 0, topMargin := 0, bottomMargin := 0
    leftMargin := 0, rightMargin := 0, originX := 0, originY := 0, contentItem := some 2
    children := [], parentItem := none, windowDevicePixelRatio := some 1 }

/-- Defaults for the examples: a step of 20 (one scroll line), page-scroll
modifiers Control|Shift, horizontal-scroll modifier Alt, mouse filtering and key
navigation off, direct scrolling of the target and blocking of its wheel events on. -/
def exampleDefaults : HeaderDefaults :=
  { defaultPixelStepSize := 20, pageScrollModifiers := 100663296
    horizontalScrollModifiers := 134217728, filterMouseEvents := false
    keyNavigationEnabled := false, scrollFlickableTarget := true, blockTargetWheel := true }

/-- A freshly constructed handler bound to `exampleFlickable`. -/
def exampleHandler : WheelHandler :=
  WheelHandler.setTarget (WheelHandler.create 0 exampleDefaults 1 false)
    (some exampleFlickable)

/-- A mouse-wheel event of one detent down: `angleDelta = (0, -120)`, no pixel delta. -/
def oneDetentDown : QWheelEvent :=
  { position := { x := 50, y := 50 }, globalPosition := { x := 50, y := 50 }
    pixelDelta := { x := 0, y := 0 }, angleDelta := { x := 0, y := -120 }
    buttons := 0, modifiers := 0, phase := 0, inverted := false
    source := MouseEventSource.MouseEventNotSynthesized }

/-- The target itself as watched object, enabled. -/
def watchedFlickable : Watched := { id := 1, isQuickItem := true, isEnabled := true }

/-- The example target with content only half a pixel taller than the page: the
vertical offsets range over `[0, 1/2]`. -/
def halfPixelFlickable : QQuickItem := { exampleFlickable with contentHeight := 201 / 2 }

/-- A fresh handler bound to `halfPixelFlickable`. -/
def halfPixelHandler : WheelHandler :=
  WheelHandler.setTarget (WheelHandler.create 0 exampleDefaults 1 false)
    (some halfPixelFlickable)

/-- The effects that a call of `scrollFlickable` adds to the log. -/
def WheelHandler.scrollEffects (s : WheelHandler) (pixelDelta angleDelta : QPointF)
    (modifiers : Nat) : List Effect :=
  (WheelHandler.scrollFlickable s pixelDelta angleDelta modifiers).2.log.drop s.log.length

/-- A handler whose system default step is 60 and whose vertical and horizontal
steps were set first to 100 and then to `60 + 10⁻¹⁴`: within the tolerance of
`qFuzzyCompare` of the default, but not equal to it. -/
def nearDefaultHandler : WheelHandler :=
  WheelHandler.setHorizontalStepSize
    (WheelHandler.setHorizontalStepSize
      (WheelHandler.setVerticalStepSize
        (WheelHandler.setVerticalStepSize
          (WheelHandler.create 0 { exampleDefaults with defaultPixelStepSize := 60 } 1 false) 100)
        (60 + 1 / 100000000000000))
      100)
    (60 + 1 / 100000000000000)

/-- A fresh handler on a system whose wheel-scroll-lines setting is 0: the default
step and both step sizes are 0. -/
def zeroStepHandler : WheelHandler :=
  WheelHandler.create 0 { exampleDefaults with defaultPixelStepSize := 20 * 0 } 1 false

/-- A listener of the `wheel` signal that leaves the event unaccepted. -/
def ignoringListener : LingmoUIWheelEvent → Bool := fun _ => false

/-- A target of 100 x 100 showing content of 500 x 500, scrolled to
`contentX = 200` and to the unaligned `contentY = 1/2`. -/
def wideFlickable : QQuickItem :=
  { exampleFlickable with contentWidth := 500, contentX := 200, contentY := 1 / 2 }

/-- A fresh handler bound to `wideFlickable`, with key navigation enabled. -/
def wideHandler : WheelHandler :=
  WheelHandler.setKeyNavigationEnabled
    (WheelHandler.setTarget (WheelHandler.create 0 exampleDefaults 1 false)
      (some wideFlickable))
    true

/-- A target 100 wide with left and right margins of 100 each (so a page width of
-100) showing content 150 wide and as high as the page, scrolled to the end bound
`contentX = 150` of the horizontal range `[-100, 150]`. -/
def marginFlickable : QQuickItem :=
  { exampleFlickable with
    contentWidth := 150, contentHeight := 100, leftMargin := 100, rightMargin := 100
    contentX := 150 }

/-- A fresh handler bound to `marginFlickable`, with key navigation enabled. -/
def marginHandler : WheelHandler :=
  WheelHandler.setKeyNavigationEnabled
    (WheelHandler.setTarget (WheelHandler.create 0 exampleDefaults 1 false)
      (some marginFlickable))
    true

/-- The scroll bars that one attachment source offers, in the words of the
specification (section 4.3, steps 1 and 2): among the children, the first object
of the attachment shape, and the scroll bar it holds for the axis. -/
def specAttachedScrollBar (children : List ChildObject) (axis : ChildObject → Option ObjId) :
    Option ObjId :=
  (children.find? (fun child => child.inheritsScrollBarAttached)).bind axis

/-- The scroll bar to bind on an axis, in the words of the specification (section
4.3, step 3): the surface-attached scroll bar if present, else the scroll bar
attached to the parent when that is a scroll-view container, else none. -/
def specSelectedScrollBar (target : Option QQuickItem) (axis : ChildObject → Option ObjId) :
    Option ObjId :=
  match target with
  | none => none
  | some f =>
    match specAttachedScrollBar f.children axis with
    | some bar => some bar
    | none =>
      match f.parentItem with
      | some container =>
        if container.inheritsScrollView then specAttachedScrollBar container.children axis
        else none
      | none => none

/-- A target with a vertical scroll bar (object 11) attached to itself and, in its
scroll-view parent, an attachment with other scroll bars (objects 21 and 22). -/
def doublyAttachedFlickable : QQuickItem :=
  { exampleFlickable with
    children :=
      [{ id := 9, inheritsScrollBarAttached := false, vertical := none, horizontal := none },
        { id := 10, inheritsScrollBarAttached := true, vertical := some 11, horizontal := none }]
    parentItem := some
      { id := 30, inheritsScrollView := true
        children :=
          [{ id := 20, inheritsScrollBarAttached := true, vertical := some 21
             horizontal := some 22 }] } }

/-- An item that is no `QQuickFlickable` (object 5). -/
def plainItem : QQuickItem := { exampleFlickable with id := 5, inheritsFlickable := false }

/-- The example target with content that fits its page on both axes. -/
def fittingFlickable : QQuickItem := { exampleFlickable with contentHeight := 100 }

/-- A fresh handler whose block-target-wheel flag is off, bound to `fittingFlickable`. -/
def unblockedHandler : WheelHandler :=
  WheelHandler.setTarget
    (WheelHandler.create 0 { exampleDefaults with blockTargetWheel := false } 1 false)
    (some fittingFlickable)

/-- A wheel event that carries only a pixel delta, `(0, -5)`, from the given source. -/
def pixelOnlyWheel (source : MouseEventSource) : QWheelEvent :=
  { position := { x := 50, y := 50 }, globalPosition := { x := 50, y := 50 }
    pixelDelta := { x := 0, y := -5 }, angleDelta := { x := 0, y := 0 }
    buttons := 0, modifiers := 0, phase := 0, inverted := false, source := source }

/-- The local `scrolled` of `case QEvent::Wheel` in a dispatch on an enabled item
that no listener accepts: the result of `scrollOnWheel` on the geometry that
`eventFilter` reads from the target. -/
def WheelHandler.wheelScrolled (s : WheelHandler) (listener : LingmoUIWheelEvent → Bool)
    (wheelEvent : QWheelEvent) : Bool :=
  (WheelHandler.scrollOnWheel (WheelHandler.emitWheel s listener wheelEvent)
    (match s.m_flickable with
      | some f => f.contentWidth
      | none => 0)
    (match s.m_flickable with
      | some f => f.contentHeight
      | none => 0)
    (match s.m_flickable with
      | some f => WheelHandler.pageWidth f
      | none => 0)
    (match s.m_flickable with
      | some f => WheelHandler.pageHeight f
      | none => 0)).1

/-- The example handler after one wheel dispatch of one detent down: in
WheelScrolling, with the filter item enabled. -/
def scrollingHandler : WheelHandler :=
  (WheelHandler.eventFilter exampleHandler ignoringListener watchedFlickable
    (QEvent.Wheel oneDetentDown)).2

/-- A fresh handler bound to `doublyAttachedFlickable` (vertical scroll bar 11,
horizontal scroll bar 22), with mouse filtering enabled. -/
def filteringHandler : WheelHandler :=
  WheelHandler.setFilterMouseEvents
    (WheelHandler.setTarget (WheelHandler.create 0 exampleDefaults 1 false)
      (some doublyAttachedFlickable))
    true

/-- A value clamped to the interval `[lo, hi]`, in the words of the specification
(section 4.5, "clamped to ±viewport-extent"): raised to `lo` when below it, then
lowered to `hi` when above it. -/
def specClamped (value lo hi : ℚ) : ℚ := min (max value lo) hi

/-- The Control modifier (`Qt::ControlModifier`), one of the page-scroll modifiers
of the examples. -/
def ControlModifier : Nat := 67108864

/-- The 500 x 500 example at `contentX = 200`, `contentY = 0`, in a window of
device pixel ratio 2. -/
def hidpiFlickable : QQuickItem :=
  { wideFlickable with contentY := 0, windowDevicePixelRatio := some 2 }

/-- A fresh handler bound to `hidpiFlickable`. -/
def hidpiHandler : WheelHandler :=
  WheelHandler.setTarget (WheelHandler.create 0 exampleDefaults 1 false) (some hidpiFlickable)

/-- The example target with one scroll-bar attachment (object 10) among its
children, holding the given vertical and horizontal scroll bars. -/
def barsFlickable (vertical horizontal : Option ObjId) : QQuickItem :=
  { exampleFlickable with
    children :=
      [{ id := 10, inheritsScrollBarAttached := true, vertical := vertical
         horizontal := horizontal }] }

/-- The handler's view of its target after the scene has changed the target's
properties or children: the same object, presented as `f`. -/
def WheelHandler.sceneUpdate (s : WheelHandler) (f : QQuickItem) : WheelHandler :=
  { s with m_flickable := some f }

/-- A fresh handler bound to a target with vertical scroll bar 11 and horizontal
scroll bar 12. -/
def barsHandler : WheelHandler :=
  WheelHandler.setTarget (WheelHandler.create 0 exampleDefaults 1 false)
    (some (barsFlickable (some 11) (some 12)))

/-- The handler `barsHandler` after the attachment's `vertical` was set to bar 12:
`verticalChanged` has run `_k_rebindScrollBars`. -/
def barsHandlerStep1 : WheelHandler :=
  WheelHandler._k_rebindScrollBars
    (WheelHandler.sceneUpdate barsHandler (barsFlickable (some 12) (some 12)))

/-- The handler `barsHandlerStep1` after the attachment's `horizontal` was then
set to bar 11: `horizontalChanged` has run `_k_rebindScrollBars`. -/
def barsHandlerStep2 : WheelHandler :=
  WheelHandler._k_rebindScrollBars
    (WheelHandler.sceneUpdate barsHandlerStep1 (barsFlickable (some 12) (some 11)))

/-- A fresh handler whose scroll-flickable-target flag is off, bound to the
scrollable `exampleFlickable`. -/
def indirectHandler : WheelHandler :=
  WheelHandler.setTarget
    (WheelHandler.create 0 { exampleDefaults with scrollFlickableTarget := false } 1 false)
    (some exampleFlickable)

/-! ## Binary64 arithmetic

The target's geometry and the locals of `scrollFlickable` are `qreal`, that is
IEEE 754 binary64: every arithmetic operation yields the representable value
nearest to the exact result. The embedding above computes in exact rational
arithmetic. Below, the arithmetic of `scrollFlickable` is embedded once more with
the rounding of each operation given as a function `fl`; with `fl = id` it is
the exact embedding, with `fl = roundToDouble` it is the computation in binary64. -/

/-- The power `2 ^ e` for an integer exponent. -/
def pow2 (e : ℤ) : ℚ :=
  if 0 ≤ e then ((2 ^ e.toNat : ℕ) : ℚ) else 1 / ((2 ^ (-e).toNat : ℕ) : ℚ)

/-- Nearest integer, halfway cases to the even neighbour: the default rounding
direction of IEEE 754 (`roundTiesToEven`). -/
def roundHalfEven (x : ℚ) : ℤ :=
  if x - ⌊x⌋ < 1 / 2 then ⌊x⌋
  else if 1 / 2 < x - ⌊x⌋ then ⌊x⌋ + 1
  else if ⌊x⌋ % 2 = 0 then ⌊x⌋
  else ⌊x⌋ + 1

/-- The number of binary digits of `n`, found in at most `fuel` halvings. -/
def bitLengthAux : Nat → Nat → Nat
  | 0, _ => 0
  | fuel + 1, n => if n = 0 then 0 else bitLengthAux fuel (n / 2) + 1

/-- The number of binary digits of `n`: `n` halvings are enough. -/
def bitLength (n : Nat) : Nat := bitLengthAux n n

/-- The exponent `e` such that the binary64 values around `q` are the multiples of
`2 ^ e`: for a normal value, 52 below the exponent of the leading bit of `|q|`
(a significand of 53 bits); for a subnormal one, `-1074`. -/
def ulpExponent (q : ℚ) : ℤ :=
  let e0 : ℤ := (bitLength q.num.natAbs : ℤ) - (bitLength q.den : ℤ)
  let e1 : ℤ := if |q| < pow2 e0 then e0 - 1 else e0
  max (e1 - 52) (-1074)

/-- The result of a binary64 operation whose exact result is `q`: `q` rounded to
the nearest multiple of the unit in the last place, ties to even. Results of
magnitude `2 ^ 1024` and above, which binary64 turns into an infinity, are outside
this embedding. -/
def roundToDouble (q : ℚ) : ℚ :=
  (roundHalfEven (q / pow2 (ulpExponent q)) : ℚ) * pow2 (ulpExponent q)

namespace WheelHandler.Rounded

/-- The local `pageWidth` of `scrollFlickable`, `width - leftMargin - rightMargin`:
two subtractions, each rounded. -/
def pageWidth (fl : ℚ → ℚ) (f : QQuickItem) : ℚ := fl (fl (f.width - f.leftMargin) - f.rightMargin)

/-- The local `pageHeight` of `scrollFlickable`. -/
def pageHeight (fl : ℚ → ℚ) (f : QQuickItem) : ℚ :=
  fl (fl (f.height - f.topMargin) - f.bottomMargin)

/-- The local `xChange` of `scrollFlickable`; `xTicks` is `angleDelta.x() / 120`. -/
def xChange (fl : ℚ → ℚ) (s : WheelHandler) (f : QQuickItem) (pixelDelta angleDelta : QPointF)
    (modifiers : Nat) : ℚ :=
  let xTicks := fl (angleDelta.x / 120)
  if testFlags modifiers s.m_pageScrollModifiers then
    qBound (-pageWidth fl f) (fl (xTicks * pageWidth fl f)) (pageWidth fl f)
  else if pixelDelta.x ≠ 0 then pixelDelta.x
  else fl (xTicks * s.m_horizontalStepSize)

/-- The local `minXExtent` of `scrollFlickable`. -/
def minXExtent (fl : ℚ → ℚ) (f : QQuickItem) : ℚ := fl (f.leftMargin - f.originX)

/-- The local `maxXExtent` of `scrollFlickable`,
`width - (contentWidth + rightMargin + originX)`: three operations, each rounded. -/
def maxXExtent (fl : ℚ → ℚ) (f : QQuickItem) : ℚ :=
  fl (f.width - fl (fl (f.contentWidth + f.rightMargin) + f.originX))

/-- The local `newContentX` of `scrollFlickable` as first assigned: the bounded offset. -/
def boundedContentX (fl : ℚ → ℚ) (s : WheelHandler) (f : QQuickItem)
    (pixelDelta angleDelta : QPointF) (modifiers : Nat) : ℚ :=
  qBound (-minXExtent fl f) (fl (f.contentX - xChange fl s f pixelDelta angleDelta modifiers))
    (-maxXExtent fl f)

/-- The local `newContentX` of `scrollFlickable` after rounding to device pixels:
`std::round(newContentX * devicePixelRatio) / devicePixelRatio`. -/
def newContentX (fl : ℚ → ℚ) (s : WheelHandler) (f : QQuickItem)
    (pixelDelta angleDelta : QPointF) (modifiers : Nat) : ℚ :=
  fl ((stdRound (fl (boundedContentX fl s f pixelDelta angleDelta modifiers *
    devicePixelRatio s f)) : ℚ) / devicePixelRatio s f)

/-- The block `// Scroll X` of `scrollFlickable`; `f` holds the values read at entry. -/
def scrollX (fl : ℚ → ℚ) (s : WheelHandler) (f : QQuickItem) (pixelDelta angleDelta : QPointF)
    (modifiers : Nat) : Bool × WheelHandler :=
  if f.contentWidth > pageWidth fl f then
    if f.contentX ≠ newContentX fl s f pixelDelta angleDelta modifiers then
      (true, s.setContentX (newContentX fl s f pixelDelta angleDelta modifiers))
    else (false, s)
  else (false, s)

/-- The local `yChange` of `scrollFlickable`; `yTicks` is `angleDelta.y() / 120`. -/
def yChange (fl : ℚ → ℚ) (s : WheelHandler) (f : QQuickItem) (pixelDelta angleDelta : QPointF)
    (modifiers : Nat) : ℚ :=
  let yTicks := fl (angleDelta.y / 120)
  if testFlags modifiers s.m_pageScrollModifiers then
    qBound (-pageHeight fl f) (fl (yTicks * pageHeight fl f)) (pageHeight fl f)
  else if pixelDelta.y ≠ 0 then pixelDelta.y
  else fl (yTicks * s.m_verticalStepSize)

/-- The local `minYExtent` of `scrollFlickable`. -/
def minYExtent (fl : ℚ → ℚ) (f : QQuickItem) : ℚ := fl (f.topMargin - f.originY)

/-- The local `maxYExtent` of `scrollFlickable`. -/
def maxYExtent (fl : ℚ → ℚ) (f : QQuickItem) : ℚ :=
  fl (f.height - fl (fl (f.contentHeight + f.bottomMargin) + f.originY))

/-- The local `newContentY` of `scrollFlickable` as first assigned: the bounded
offset, counted from the animation's end value while the animation runs. -/
def boundedContentY (fl : ℚ → ℚ) (s : WheelHandler) (f : QQuickItem)
    (pixelDelta angleDelta : QPointF) (modifiers : Nat) : ℚ :=
  if s.m_yScrollAnimation.running then
    stdClamp (fl (s.m_yScrollAnimation.endValue + -yChange fl s f pixelDelta angleDelta modifiers))
      (-minYExtent fl f) (-maxYExtent fl f)
  else
    stdClamp (fl (f.contentY - yChange fl s f pixelDelta angleDelta modifiers))
      (-minYExtent fl f) (-maxYExtent fl f)

/-- The local `newContentY` of `scrollFlickable` after rounding to device pixels. -/
def newContentY (fl : ℚ → ℚ) (s : WheelHandler) (f : QQuickItem)
    (pixelDelta angleDelta : QPointF) (modifiers : Nat) : ℚ :=
  fl ((stdRound (fl (boundedContentY fl s f pixelDelta angleDelta modifiers *
    devicePixelRatio s f)) : ℚ) / devicePixelRatio s f)

/-- The block `// Scroll Y` of `scrollFlickable`; `f` holds the values read at entry. -/
def scrollY (fl : ℚ → ℚ) (s : WheelHandler) (f : QQuickItem) (pixelDelta angleDelta : QPointF)
    (modifiers : Nat) : Bool × WheelHandler :=
  if f.contentHeight > pageHeight fl f then
    let s1 := if s.m_yScrollAnimation.running then s.animationStop else s
    if f.contentY ≠ newContentY fl s f pixelDelta angleDelta modifiers then
      if s1.m_wasTouched || !s1.m_engine then
        (true, s1.setContentY (newContentY fl s f pixelDelta angleDelta modifiers))
      else
        (true,
          (s1.animationSetEndValue
            (newContentY fl s f pixelDelta angleDelta modifiers)).animationStart)
    else (false, s1)
  else (false, s)

/-- Embedding of `WheelHandler::scrollFlickable` with every arithmetic operation
rounded by `fl`. -/
def scrollFlickable (fl : ℚ → ℚ) (s : WheelHandler) (pixelDelta angleDelta : QPointF)
    (modifiers : Nat) : Bool × WheelHandler :=
  match s.m_flickable with
  | none => (false, s)
  | some f =>
    if pixelDelta.isNull && angleDelta.isNull then (false, s)
    else
      let angleDelta1 := transposedIf s modifiers angleDelta
      let pixelDelta1 := transposedIf s modifiers pixelDelta
      let rx := scrollX fl s f pixelDelta1 angleDelta1 modifiers
      let ry := scrollY fl rx.2 f pixelDelta1 angleDelta1 modifiers
      (rx.1 || ry.1, ry.2)

/-- The effects that a call of `scrollFlickable` adds to the log. -/
def scrollEffects (fl : ℚ → ℚ) (s : WheelHandler) (pixelDelta angleDelta : QPointF)
    (modifiers : Nat) : List Effect :=
  (scrollFlickable fl s pixelDelta angleDelta modifiers).2.log.drop s.log.length

end WheelHandler.Rounded

/-- A target whose horizontal geometry is given in tenths, as binary64 values:
286.9 wide with margins 4.3 and 28.9, showing content 500.7 wide; vertically as
`exampleFlickable`. -/
def fractionalFlickable : QQuickItem :=
  { exampleFlickable with
    width := roundToDouble (2869 / 10), contentWidth := roundToDouble (5007 / 10)
    leftMargin := roundToDouble (43 / 10), rightMargin := roundToDouble (289 / 10) }

/-- A fresh handler bound to `fractionalFlickable`. -/
def fractionalHandler : WheelHandler :=
  WheelHandler.setTarget (WheelHandler.create 0 exampleDefaults 1 false)
    (some fractionalFlickable)

/-- A target whose geometry, the same on both axes, is given in tenths, as binary64
values: extent 286.9 with a leading margin of 4.3 and a trailing margin of 28.9,
showing content of extent 253.7, without origin offset, at offset 0. With these
binary64 values the page extent `286.9 - 4.3 - 28.9` is a little less than the
content extent, in exact arithmetic as in binary64. -/
def roundingFlickable : QQuickItem :=
  { exampleFlickable with
    width := roundToDouble (2869 / 10), height := roundToDouble (2869 / 10)
    contentWidth := roundToDouble (2537 / 10), contentHeight := roundToDouble (2537 / 10)
    leftMargin := roundToDouble (43 / 10), topMargin := roundToDouble (43 / 10)
    rightMargin := roundToDouble (289 / 10), bottomMargin := roundToDouble (289 / 10) }

/-- A fresh handler bound to `roundingFlickable`. -/
def roundingHandler : WheelHandler :=
  WheelHandler.setTarget (WheelHandler.create 0 exampleDefaults 1 false)
    (some roundingFlickable)

/-- A mouse-wheel event of one detent on the horizontal axis with Control held:
`angleDelta = (x, 0)`, no pixel delta. -/
def pageDetent (x : ℤ) : QWheelEvent :=
  { oneDetentDown with angleDelta := { x := x, y := 0 }, modifiers := ControlModifier }

/-- Whether an effect is part of a scroll: a write of an offset or a command to
the vertical scroll animation. -/
def Effect.isScroll : Effect → Bool
  | Effect.setContentX _ => true
  | Effect.setContentY _ => true
  | Effect.animationStop => true
  | Effect.animationSetEndValue _ => true
  | Effect.animationStart => true
  | _ => false

/-- Whether an effect gives an axis an offset other than its current one: a write
of `contentX` / `contentY`, or a new end value for the vertical animation. -/
def Effect.changesOffset (f : QQuickItem) : Effect → Bool
  | Effect.setContentX v => decide (v ≠ f.contentX)
  | Effect.setContentY v => decide (v ≠ f.contentY)
  | Effect.animationSetEndValue v => decide (v ≠ f.contentY)
  | _ => false

/-! ## Lemmas on the helper functions -/

open WheelHandler

theorem abs_stdRound_sub_le (x : ℚ) : |(stdRound x : ℚ) - x| ≤ 1 / 2 := by
  unfold stdRound
  split
  · have h1 := Int.floor_le (x + 1 / 2)
    have h2 := Int.lt_floor_add_one (x + 1 / 2)
    rw [abs_le]
    constructor <;> linarith
  · have h1 := Int.floor_le (-x + 1 / 2)
    have h2 := Int.lt_floor_add_one (-x + 1 / 2)
    push_cast
    rw [abs_le]
    constructor <;> linarith

theorem qBound_mem {lo hi : ℚ} (v : ℚ) (h : lo ≤ hi) : lo ≤ qBound lo v hi ∧ qBound lo v hi ≤ hi := by
  unfold qBound
  exact ⟨le_max_left _ _, max_le h (min_le_left _ _)⟩

theorem stdClamp_mem {lo hi : ℚ} (v : ℚ) (h : lo ≤ hi) :
    lo ≤ stdClamp v lo hi ∧ stdClamp v lo hi ≤ hi := by
  unfold stdClamp
  split_ifs with h1 h2
  · exact ⟨le_refl _, h⟩
  · exact ⟨h, le_refl _⟩
  · exact ⟨not_lt.mp h1, not_lt.mp h2⟩

theorem scrollX_fst (s : WheelHandler) (f : QQuickItem) (pd ad : QPointF) (m : Nat) :
    (scrollX s f pd ad m).1 =
      decide (f.contentWidth > pageWidth f ∧ f.contentX ≠ newContentX s f pd ad m) := by
  unfold scrollX
  split_ifs with h1 h2 <;> simp_all

theorem scrollX_log (s : WheelHandler) (f : QQuickItem) (pd ad : QPointF) (m : Nat) :
    (scrollX s f pd ad m).2.log =
      s.log ++ (if (scrollX s f pd ad m).1 then [Effect.setContentX (newContentX s f pd ad m)]
        else []) := by
  unfold scrollX
  split_ifs <;> simp_all [setContentX]

theorem scrollY_fst (s : WheelHandler) (f : QQuickItem) (pd ad : QPointF) (m : Nat) :
    (scrollY s f pd ad m).1 =
      decide (f.contentHeight > pageHeight f ∧ f.contentY ≠ newContentY s f pd ad m) := by
  unfold scrollY
  by_cases hrun : s.m_yScrollAnimation.running = true <;>
  by_cases ht : s.m_wasTouched = true <;>
  by_cases he : s.m_engine = true <;>
  split_ifs <;>
  simp_all [setContentY, animationStop, animationSetEndValue, animationStart]

theorem scrollY_log (s : WheelHandler) (f : QQuickItem) (pd ad : QPointF) (m : Nat) :
    (scrollY s f pd ad m).2.log =
      s.log ++
        (if f.contentHeight > pageHeight f ∧ s.m_yScrollAnimation.running = true then
          [Effect.animationStop] else []) ++
        (if (scrollY s f pd ad m).1 then
          (if s.m_wasTouched || !s.m_engine then
            [Effect.setContentY (newContentY s f pd ad m)]
          else [Effect.animationSetEndValue (newContentY s f pd ad m), Effect.animationStart])
        else []) := by
  unfold scrollY
  by_cases hrun : s.m_yScrollAnimation.running = true <;>
  by_cases ht : s.m_wasTouched = true <;>
  by_cases he : s.m_engine = true <;>
  split_ifs <;>
  simp_all [setContentY, animationStop, animationSetEndValue, animationStart]

theorem newContentY_scrollX (s : WheelHandler) (f : QQuickItem) (pd ad pd2 ad2 : QPointF)
    (m m2 : Nat) :
    newContentY (scrollX s f pd2 ad2 m2).2 f pd ad m = newContentY s f pd ad m := by
  unfold scrollX
  split_ifs <;> rfl

theorem scrollFlickable_none (s : WheelHandler) (pd ad : QPointF) (m : Nat)
    (h : s.m_flickable = none) : scrollFlickable s pd ad m = (false, s) := by
  unfold scrollFlickable
  rw [h]

theorem scrollFlickable_null (s : WheelHandler) (pd ad : QPointF) (m : Nat)
    (h : (pd.isNull && ad.isNull) = true) : scrollFlickable s pd ad m = (false, s) := by
  unfold scrollFlickable
  cases s.m_flickable with
  | none => rfl
  | some f => simp only [h, if_true]

theorem scrollFlickable_some (s : WheelHandler) (f : QQuickItem) (pd ad : QPointF) (m : Nat)
    (hf : s.m_flickable = some f) (h : (pd.isNull && ad.isNull) = false) :
    scrollFlickable s pd ad m =
      ((scrollX s f (transposedIf s m pd) (transposedIf s m ad) m).1 ||
        (scrollY (scrollX s f (transposedIf s m pd) (transposedIf s m ad) m).2 f
          (transposedIf s m pd) (transposedIf s m ad) m).1,
       (scrollY (scrollX s f (transposedIf s m pd) (transposedIf s m ad) m).2 f
          (transposedIf s m pd) (transposedIf s m ad) m).2) := by
  unfold scrollFlickable
  rw [hf]
  simp only [h, Bool.false_eq_true, if_false]

theorem scrollX_isScroll (s : WheelHandler) (f : QQuickItem) (pd ad : QPointF) (m : Nat) :
    ∃ post, (scrollX s f pd ad m).2.log = s.log ++ post ∧ ∀ e ∈ post, e.isScroll = true := by
  refine ⟨_, scrollX_log s f pd ad m, ?_⟩
  intro e he
  split_ifs at he <;> simp_all [Effect.isScroll]

theorem scrollY_isScroll (s : WheelHandler) (f : QQuickItem) (pd ad : QPointF) (m : Nat) :
    ∃ post, (scrollY s f pd ad m).2.log = s.log ++ post ∧ ∀ e ∈ post, e.isScroll = true := by
  refine ⟨_, by rw [scrollY_log, List.append_assoc], ?_⟩
  intro e he
  rw [List.mem_append] at he
  rcases he with he | he <;> split_ifs at he <;> simp_all [Effect.isScroll]
  rcases he with he | he <;> simp [he, Effect.isScroll]

theorem scrollFlickable_isScroll (s : WheelHandler) (pd ad : QPointF) (m : Nat) :
    ∃ post, (scrollFlickable s pd ad m).2.log = s.log ++ post ∧
      ∀ e ∈ post, e.isScroll = true := by
  cases hf : s.m_flickable with
  | none => exact ⟨[], by rw [scrollFlickable_none s pd ad m hf]; simp, by simp⟩
  | some f =>
    cases h : (pd.isNull && ad.isNull) with
    | true => exact ⟨[], by rw [scrollFlickable_null s pd ad m h]; simp, by simp⟩
    | false =>
      rw [scrollFlickable_some s f pd ad m hf h]
      obtain ⟨p1, h1, h1s⟩ := scrollX_isScroll s f (transposedIf s m pd) (transposedIf s m ad) m
      obtain ⟨p2, h2, h2s⟩ := scrollY_isScroll
        (scrollX s f (transposedIf s m pd) (transposedIf s m ad) m).2 f
        (transposedIf s m pd) (transposedIf s m ad) m
      refine ⟨p1 ++ p2, by simp only [h2, h1, List.append_assoc], ?_⟩
      intro e he
      rcases List.mem_append.mp he with he | he
      · exact h1s e he
      · exact h2s e he

theorem setScrolling_log (s : WheelHandler) (b : Bool) : (setScrolling s b).log = s.log := by
  unfold setScrolling
  split_ifs <;> rfl

theorem setScrollBarsInteractive_log (s : WheelHandler) (b : Bool) :
    ∃ pre, (setScrollBarsInteractive s b).log = s.log ++ pre ∧ ∀ e ∈ pre, e.isScroll = false := by
  unfold setScrollBarsInteractive setScrollBarInteractive
  cases s.m_verticalScrollBar with
  | none =>
    cases s.m_horizontalScrollBar with
    | none => exact ⟨[], by simp, by simp⟩
    | some h => exact ⟨[Effect.setInteractive h b], rfl, by simp [Effect.isScroll]⟩
  | some v =>
    cases s.m_horizontalScrollBar with
    | none => exact ⟨[Effect.setInteractive v b], rfl, by simp [Effect.isScroll]⟩
    | some h =>
      exact ⟨[Effect.setInteractive v b, Effect.setInteractive h b], by simp,
        by simp [Effect.isScroll]⟩

/-! ## Wheel dispatch: listeners come first -/

theorem eventFilter_wheel (s : WheelHandler) (listener : LingmoUIWheelEvent → Bool)
    (watched : Watched) (wheelEvent : QWheelEvent)
    (hitem : watched.isQuickItem = true) (henabled : watched.isEnabled = true) :
    eventFilter s listener watched (QEvent.Wheel wheelEvent) =
      eventFilterWheel s listener wheelEvent
        (match s.m_flickable with
          | some f => f.contentWidth
          | none => 0)
        (match s.m_flickable with
          | some f => f.contentHeight
          | none => 0)
        (match s.m_flickable with
          | some f => pageWidth f
          | none => 0)
        (match s.m_flickable with
          | some f => pageHeight f
          | none => 0) := by
  unfold eventFilter
  simp [hitem, henabled]

theorem setScrollBarsInteractive_flickable (s : WheelHandler) (b : Bool) :
    (setScrollBarsInteractive s b).m_flickable = s.m_flickable := by
  unfold setScrollBarsInteractive setScrollBarInteractive
  cases s.m_verticalScrollBar <;> cases s.m_horizontalScrollBar <;> rfl

theorem setScrollBarsInteractive_animation (s : WheelHandler) (b : Bool) :
    (setScrollBarsInteractive s b).m_yScrollAnimation = s.m_yScrollAnimation := by
  unfold setScrollBarsInteractive setScrollBarInteractive
  cases s.m_verticalScrollBar <;> cases s.m_horizontalScrollBar <;> rfl

theorem emitWheel_log (s : WheelHandler) (listener : LingmoUIWheelEvent → Bool)
    (wheelEvent : QWheelEvent) :
    ∃ pre, (emitWheel s listener wheelEvent).log =
        s.log ++ pre ++ [Effect.wheel (synthesizeWheelEvent wheelEvent)] ∧
      ∀ e ∈ pre, e.isScroll = false := by
  unfold emitWheel
  by_cases h : s.m_filterMouseEvents = true
  · obtain ⟨pre, hlog, hpre⟩ := setScrollBarsInteractive_log s true
    exact ⟨pre, by simp only [h, if_true, hlog], hpre⟩
  · exact ⟨[], by simp [h], by simp⟩

theorem emitWheel_accepted (s : WheelHandler) (listener : LingmoUIWheelEvent → Bool)
    (wheelEvent : QWheelEvent) :
    (emitWheel s listener wheelEvent).m_lingmouiWheelEvent.isAccepted =
      listener (synthesizeWheelEvent wheelEvent) := rfl

theorem emitWheel_flickable (s : WheelHandler) (listener : LingmoUIWheelEvent → Bool)
    (wheelEvent : QWheelEvent) :
    (emitWheel s listener wheelEvent).m_flickable = s.m_flickable := by
  unfold emitWheel
  by_cases h : s.m_filterMouseEvents = true
  · simp only [h, if_true]
    exact setScrollBarsInteractive_flickable s true
  · simp [h]

theorem emitWheel_animation (s : WheelHandler) (listener : LingmoUIWheelEvent → Bool)
    (wheelEvent : QWheelEvent) :
    (emitWheel s listener wheelEvent).m_yScrollAnimation = s.m_yScrollAnimation := by
  unfold emitWheel
  by_cases h : s.m_filterMouseEvents = true
  · simp only [h, if_true]
    exact setScrollBarsInteractive_animation s true
  · simp [h]

theorem scrollOnWheel_isScroll (s : WheelHandler) (cw ch pw ph : ℚ) :
    ∃ post, (scrollOnWheel s cw ch pw ph).2.log = s.log ++ post ∧
      ∀ e ∈ post, e.isScroll = true := by
  unfold scrollOnWheel
  split
  · exact scrollFlickable_isScroll s _ _ _
  · exact ⟨[], by simp, by simp⟩

/-- C1. When a listener of the `wheel` signal accepts the synthesized event,
`eventFilter` consumes the wheel event (returns true) and performs no scroll: the
target (so `contentX` and `contentY`) and the vertical scroll animation (so its end
value) are left as they were, and nothing follows the emission. In every wheel
dispatch the emission of `wheel` precedes every scroll effect: only
`interactive` writes on the scroll bars come before it. -/
theorem C1_accepted_wheel_consumed (s : WheelHandler) (listener : LingmoUIWheelEvent → Bool)
    (watched : Watched) (wheelEvent : QWheelEvent)
    (hitem : watched.isQuickItem = true) (henabled : watched.isEnabled = true) :
    (∃ pre post,
        (eventFilter s listener watched (QEvent.Wheel wheelEvent)).2.log =
          s.log ++ pre ++ Effect.wheel (synthesizeWheelEvent wheelEvent) :: post ∧
        (∀ e ∈ pre, e.isScroll = false) ∧
        (listener (synthesizeWheelEvent wheelEvent) = true → post = [])) ∧
    (listener (synthesizeWheelEvent wheelEvent) = true →
        (eventFilter s listener watched (QEvent.Wheel wheelEvent)).1 = true ∧
        (eventFilter s listener watched (QEvent.Wheel wheelEvent)).2.m_flickable = s.m_flickable ∧
        (eventFilter s listener watched (QEvent.Wheel wheelEvent)).2.m_yScrollAnimation =
          s.m_yScrollAnimation) := by
  rw [eventFilter_wheel s listener watched wheelEvent hitem henabled]
  obtain ⟨pre, hlog, hpre⟩ := emitWheel_log s listener wheelEvent
  have hacc := emitWheel_accepted s listener wheelEvent
  have hflick := emitWheel_flickable s listener wheelEvent
  have hanim := emitWheel_animation s listener wheelEvent
  unfold eventFilterWheel
  simp only [hacc]
  cases hl : listener (synthesizeWheelEvent wheelEvent) with
  | true =>
    simp only [if_true]
    exact ⟨⟨pre, [], by simp only [hlog, List.append_assoc, List.singleton_append], hpre,
      fun _ => rfl⟩, fun _ => ⟨trivial, hflick, hanim⟩⟩
  | false =>
    simp only [Bool.false_eq_true, if_false, setScrolling_log, false_implies, and_true]
    obtain ⟨post, hpost, _⟩ := scrollOnWheel_isScroll (emitWheel s listener wheelEvent)
      (match s.m_flickable with
        | some f => f.contentWidth
        | none => 0)
      (match s.m_flickable with
        | some f => f.contentHeight
        | none => 0)
      (match s.m_flickable with
        | some f => pageWidth f
        | none => 0)
      (match s.m_flickable with
        | some f => pageHeight f
        | none => 0)
    refine ⟨pre, post, ?_, hpre⟩
    rw [hpost, hlog]
    simp only [List.append_assoc, List.singleton_append]

/-- C1, at a concrete dispatch: one detent down on the example handler with a
listener that accepts every event. -/
theorem C1_accepted_wheel_consumed_witness :
    watchedFlickable.isQuickItem = true ∧ watchedFlickable.isEnabled = true ∧
    (fun _ => true) (synthesizeWheelEvent oneDetentDown) = true ∧
    (eventFilter exampleHandler (fun _ => true) watchedFlickable
        (QEvent.Wheel oneDetentDown)).1 = true ∧
    (eventFilter exampleHandler (fun _ => true) watchedFlickable
        (QEvent.Wheel oneDetentDown)).2.m_flickable = exampleHandler.m_flickable :=
  ⟨rfl, rfl, rfl,
    ((C1_accepted_wheel_consumed exampleHandler (fun _ => true) watchedFlickable oneDetentDown
      rfl rfl).2 rfl).1,
    ((C1_accepted_wheel_consumed exampleHandler (fun _ => true) watchedFlickable oneDetentDown
      rfl rfl).2 rfl).2.1⟩

theorem scrollX_frame (s : WheelHandler) (f : QQuickItem) (pd ad : QPointF) (m : Nat) :
    (scrollX s f pd ad m).2.m_yScrollAnimation = s.m_yScrollAnimation ∧
    (scrollX s f pd ad m).2.m_wasTouched = s.m_wasTouched ∧
    (scrollX s f pd ad m).2.m_engine = s.m_engine := by
  unfold scrollX
  split_ifs <;> exact ⟨rfl, rfl, rfl⟩

theorem scrollFlickable_fst (s : WheelHandler) (f : QQuickItem) (pd ad : QPointF) (m : Nat)
    (hf : s.m_flickable = some f) (h : (pd.isNull && ad.isNull) = false) :
    (scrollFlickable s pd ad m).1 =
      (decide (f.contentWidth > pageWidth f ∧
          f.contentX ≠ newContentX s f (transposedIf s m pd) (transposedIf s m ad) m) ||
        decide (f.contentHeight > pageHeight f ∧
          f.contentY ≠ newContentY s f (transposedIf s m pd) (transposedIf s m ad) m)) := by
  rw [scrollFlickable_some s f pd ad m hf h]
  simp only [scrollX_fst, scrollY_fst, newContentY_scrollX]

theorem scrollFlickable_effects (s : WheelHandler) (f : QQuickItem) (pd ad : QPointF) (m : Nat)
    (hf : s.m_flickable = some f) (h : (pd.isNull && ad.isNull) = false) :
    (scrollFlickable s pd ad m).2.log =
      s.log ++
        ((if f.contentWidth > pageWidth f ∧
              f.contentX ≠ newContentX s f (transposedIf s m pd) (transposedIf s m ad) m then
            [Effect.setContentX (newContentX s f (transposedIf s m pd) (transposedIf s m ad) m)]
          else []) ++
        (if f.contentHeight > pageHeight f ∧ s.m_yScrollAnimation.running = true then
            [Effect.animationStop]
          else []) ++
        (if f.contentHeight > pageHeight f ∧
              f.contentY ≠ newContentY s f (transposedIf s m pd) (transposedIf s m ad) m then
            (if s.m_wasTouched || !s.m_engine then
              [Effect.setContentY (newContentY s f (transposedIf s m pd) (transposedIf s m ad) m)]
            else
              [Effect.animationSetEndValue
                  (newContentY s f (transposedIf s m pd) (transposedIf s m ad) m),
                Effect.animationStart])
          else [])) := by
  rw [scrollFlickable_some s f pd ad m hf h]
  obtain ⟨h1, h2, h3⟩ := scrollX_frame s f (transposedIf s m pd) (transposedIf s m ad) m
  simp only [scrollY_log, scrollX_log, scrollX_fst, scrollY_fst, newContentY_scrollX, h1, h2, h3,
    List.append_assoc, decide_eq_true_eq]

theorem boundedContentX_mem (s : WheelHandler) (f : QQuickItem) (pd ad : QPointF) (m : Nat)
    (h : f.contentWidth > pageWidth f) :
    -(f.leftMargin - f.originX) ≤ boundedContentX s f pd ad m ∧
      boundedContentX s f pd ad m ≤ -(f.width - (f.contentWidth + f.rightMargin + f.originX)) := by
  unfold boundedContentX minXExtent maxXExtent
  apply qBound_mem
  unfold pageWidth at h
  linarith

theorem boundedContentY_mem (s : WheelHandler) (f : QQuickItem) (pd ad : QPointF) (m : Nat)
    (h : f.contentHeight > pageHeight f) :
    -(f.topMargin - f.originY) ≤ boundedContentY s f pd ad m ∧
      boundedContentY s f pd ad m ≤ -(f.height - (f.contentHeight + f.bottomMargin + f.originY)) := by
  have hle : -(f.topMargin - f.originY) ≤
      -(f.height - (f.contentHeight + f.bottomMargin + f.originY)) := by
    unfold pageHeight at h
    linarith
  unfold boundedContentY minYExtent maxYExtent
  split <;> exact stdClamp_mem _ hle

/-! ## Clamping of the new offset -/

theorem scrollEffects_eq (s : WheelHandler) (f : QQuickItem) (pd ad : QPointF) (m : Nat)
    (hf : s.m_flickable = some f) (h : (pd.isNull && ad.isNull) = false) :
    scrollEffects s pd ad m =
        ((if f.contentWidth > pageWidth f ∧
              f.contentX ≠ newContentX s f (transposedIf s m pd) (transposedIf s m ad) m then
            [Effect.setContentX (newContentX s f (transposedIf s m pd) (transposedIf s m ad) m)]
          else []) ++
        (if f.contentHeight > pageHeight f ∧ s.m_yScrollAnimation.running = true then
            [Effect.animationStop]
          else []) ++
        (if f.contentHeight > pageHeight f ∧
              f.contentY ≠ newContentY s f (transposedIf s m pd) (transposedIf s m ad) m then
            (if s.m_wasTouched || !s.m_engine then
              [Effect.setContentY (newContentY s f (transposedIf s m pd) (transposedIf s m ad) m)]
            else
              [Effect.animationSetEndValue
                  (newContentY s f (transposedIf s m pd) (transposedIf s m ad) m),
                Effect.animationStart])
          else [])) := by
  unfold scrollEffects
  rw [scrollFlickable_effects s f pd ad m hf h, List.drop_left]

theorem scrollEffects_nil (s : WheelHandler) (pd ad : QPointF) (m : Nat)
    (h : s.m_flickable = none ∨ (pd.isNull && ad.isNull) = true) :
    scrollEffects s pd ad m = [] := by
  unfold scrollEffects
  rcases h with h | h
  · rw [scrollFlickable_none s pd ad m h]; simp
  · rw [scrollFlickable_null s pd ad m h]; simp

theorem exampleHandler_flickable : exampleHandler.m_flickable = some exampleFlickable := by
  decide!

theorem exampleHandler_oneDetentDown :
    scrollEffects exampleHandler { x := 0, y := 0 } { x := 0, y := -120 } 0 =
      [Effect.setContentY 20] := by
  decide!

/-! ## The scroll computation with rounded arithmetic -/

/-- The rounding to binary64 at known values: 0.1 and 1/3 as stored in a `double`,
whole numbers unchanged, the tie `2 ^ 53 + 1` rounded to the even `2 ^ 53` and
`2 ^ 53 + 3` to `2 ^ 53 + 4`, the smallest subnormal `2 ^ -1074` kept and half of
it rounded to zero. -/
theorem roundToDouble_examples :
    roundToDouble (1 / 10) = 3602879701896397 / 36028797018963968 ∧
    roundToDouble (1 / 3) = 6004799503160661 / 18014398509481984 ∧
    roundToDouble 100 = 100 ∧ roundToDouble (-20) = -20 ∧ roundToDouble 0 = 0 ∧
    roundToDouble 9007199254740993 = 9007199254740992 ∧
    roundToDouble 9007199254740995 = 9007199254740996 ∧
    roundToDouble (pow2 (-1074)) = pow2 (-1074) ∧
    roundToDouble (pow2 (-1075)) = 0 := by
  decide!

theorem rounded_scrollFlickable_id (s : WheelHandler) (pd ad : QPointF) (m : Nat) :
    Rounded.scrollFlickable id s pd ad m = scrollFlickable s pd ad m := rfl

theorem rounded_scrollX_fst (fl : ℚ → ℚ) (s : WheelHandler) (f : QQuickItem) (pd ad : QPointF)
    (m : Nat) :
    (Rounded.scrollX fl s f pd ad m).1 =
      decide (f.contentWidth > Rounded.pageWidth fl f ∧
        f.contentX ≠ Rounded.newContentX fl s f pd ad m) := by
  unfold Rounded.scrollX
  split_ifs with h1 h2 <;> simp_all

theorem rounded_scrollX_log (fl : ℚ → ℚ) (s : WheelHandler) (f : QQuickItem) (pd ad : QPointF)
    (m : Nat) :
    (Rounded.scrollX fl s f pd ad m).2.log =
      s.log ++ (if (Rounded.scrollX fl s f pd ad m).1 then
        [Effect.setContentX (Rounded.newContentX fl s f pd ad m)]
        else []) := by
  unfold Rounded.scrollX
  split_ifs <;> simp_all [setContentX]

theorem rounded_scrollY_fst (fl : ℚ → ℚ) (s : WheelHandler) (f : QQuickItem) (pd ad : QPointF)
    (m : Nat) :
    (Rounded.scrollY fl s f pd ad m).1 =
      decide (f.contentHeight > Rounded.pageHeight fl f ∧
        f.contentY ≠ Rounded.newContentY fl s f pd ad m) := by
  unfold Rounded.scrollY
  by_cases hrun : s.m_yScrollAnimation.running = true <;>
  by_cases ht : s.m_wasTouched = true <;>
  by_cases he : s.m_engine = true <;>
  split_ifs <;>
  simp_all [setContentY, animationStop, animationSetEndValue, animationStart]

theorem rounded_scrollY_log (fl : ℚ → ℚ) (s : WheelHandler) (f : QQuickItem) (pd ad : QPointF)
    (m : Nat) :
    (Rounded.scrollY fl s f pd ad m).2.log =
      s.log ++
        (if f.contentHeight > Rounded.pageHeight fl f ∧ s.m_yScrollAnimation.running = true then
          [Effect.animationStop] else []) ++
        (if (Rounded.scrollY fl s f pd ad m).1 then
          (if s.m_wasTouched || !s.m_engine then
            [Effect.setContentY (Rounded.newContentY fl s f pd ad m)]
          else
            [Effect.animationSetEndValue (Rounded.newContentY fl s f pd ad m),
              Effect.animationStart])
        else []) := by
  unfold Rounded.scrollY
  by_cases hrun : s.m_yScrollAnimation.running = true <;>
  by_cases ht : s.m_wasTouched = true <;>
  by_cases he : s.m_engine = true <;>
  split_ifs <;>
  simp_all [setContentY, animationStop, animationSetEndValue, animationStart]

theorem rounded_newContentY_scrollX (fl : ℚ → ℚ) (s : WheelHandler) (f : QQuickItem)
    (pd ad pd2 ad2 : QPointF) (m m2 : Nat) :
    Rounded.newContentY fl (Rounded.scrollX fl s f pd2 ad2 m2).2 f pd ad m =
      Rounded.newContentY fl s f pd ad m := by
  unfold Rounded.scrollX
  split_ifs <;> rfl

theorem rounded_scrollX_frame (fl : ℚ → ℚ) (s : WheelHandler) (f : QQuickItem)
    (pd ad : QPointF) (m : Nat) :
    (Rounded.scrollX fl s f pd ad m).2.m_yScrollAnimation = s.m_yScrollAnimation ∧
    (Rounded.scrollX fl s f pd ad m).2.m_wasTouched = s.m_wasTouched ∧
    (Rounded.scrollX fl s f pd ad m).2.m_engine = s.m_engine := by
  unfold Rounded.scrollX
  split_ifs <;> exact ⟨rfl, rfl, rfl⟩

theorem rounded_scrollEffects_nil (fl : ℚ → ℚ) (s : WheelHandler) (pd ad : QPointF) (m : Nat)
    (h : s.m_flickable = none ∨ (pd.isNull && ad.isNull) = true) :
    Rounded.scrollEffects fl s pd ad m = [] := by
  unfold Rounded.scrollEffects Rounded.scrollFlickable
  rcases h with h | h
  · rw [h]; simp
  · cases s.m_flickable with
    | none => simp
    | some f => simp [h]

theorem rounded_scrollEffects_eq (fl : ℚ → ℚ) (s : WheelHandler) (f : QQuickItem)
    (pd ad : QPointF) (m : Nat)
    (hf : s.m_flickable = some f) (h : (pd.isNull && ad.isNull) = false) :
    Rounded.scrollEffects fl s pd ad m =
        ((if f.contentWidth > Rounded.pageWidth fl f ∧
              f.contentX ≠
                Rounded.newContentX fl s f (transposedIf s m pd) (transposedIf s m ad) m then
            [Effect.setContentX
              (Rounded.newContentX fl s f (transposedIf s m pd) (transposedIf s m ad) m)]
          else []) ++
        (if f.contentHeight > Rounded.pageHeight fl f ∧ s.m_yScrollAnimation.running = true then
            [Effect.animationStop]
          else []) ++
        (if f.contentHeight > Rounded.pageHeight fl f ∧
              f.contentY ≠
                Rounded.newContentY fl s f (transposedIf s m pd) (transposedIf s m ad) m then
            (if s.m_wasTouched || !s.m_engine then
              [Effect.setContentY
                (Rounded.newContentY fl s f (transposedIf s m pd) (transposedIf s m ad) m)]
            else
              [Effect.animationSetEndValue
                  (Rounded.newContentY fl s f (transposedIf s m pd) (transposedIf s m ad) m),
                Effect.animationStart])
          else [])) := by
  have hsome : Rounded.scrollFlickable fl s pd ad m =
      ((Rounded.scrollX fl s f (transposedIf s m pd) (transposedIf s m ad) m).1 ||
        (Rounded.scrollY fl
          (Rounded.scrollX fl s f (transposedIf s m pd) (transposedIf s m ad) m).2 f
          (transposedIf s m pd) (transposedIf s m ad) m).1,
       (Rounded.scrollY fl
          (Rounded.scrollX fl s f (transposedIf s m pd) (transposedIf s m ad) m).2 f
          (transposedIf s m pd) (transposedIf s m ad) m).2) := by
    unfold Rounded.scrollFlickable
    rw [hf]
    simp only [h, Bool.false_eq_true, if_false]
  obtain ⟨h1, h2, h3⟩ :=
    rounded_scrollX_frame fl s f (transposedIf s m pd) (transposedIf s m ad) m
  unfold Rounded.scrollEffects
  rw [hsome]
  simp only [rounded_scrollY_log, rounded_scrollX_log, rounded_scrollX_fst, rounded_scrollY_fst,
    rounded_newContentY_scrollX, h1, h2, h3, List.append_assoc, decide_eq_true_eq]
  rw [List.drop_left]

theorem rounded_boundedContentX_mem (fl : ℚ → ℚ) (s : WheelHandler) (f : QQuickItem)
    (pd ad : QPointF) (m : Nat)
    (h : -fl (f.leftMargin - f.originX) ≤
      -fl (f.width - fl (fl (f.contentWidth + f.rightMargin) + f.originX))) :
    -fl (f.leftMargin - f.originX) ≤ Rounded.boundedContentX fl s f pd ad m ∧
      Rounded.boundedContentX fl s f pd ad m ≤
        -fl (f.width - fl (fl (f.contentWidth + f.rightMargin) + f.originX)) := by
  unfold Rounded.boundedContentX Rounded.minXExtent Rounded.maxXExtent
  exact qBound_mem _ h

theorem rounded_boundedContentY_mem (fl : ℚ → ℚ) (s : WheelHandler) (f : QQuickItem)
    (pd ad : QPointF) (m : Nat)
    (h : -fl (f.topMargin - f.originY) ≤
      -fl (f.height - fl (fl (f.contentHeight + f.bottomMargin) + f.originY))) :
    -fl (f.topMargin - f.originY) ≤ Rounded.boundedContentY fl s f pd ad m ∧
      Rounded.boundedContentY fl s f pd ad m ≤
        -fl (f.height - fl (fl (f.contentHeight + f.bottomMargin) + f.originY)) := by
  unfold Rounded.boundedContentY Rounded.minYExtent Rounded.maxYExtent
  split <;> exact stdClamp_mem _ h

/-- C2, as amended. Whatever the rounding `fl` of the arithmetic (none, or that of
binary64), every offset that `scrollFlickable` writes (to `contentX`, to
`contentY`, or as end value of the vertical animation) is the device-pixel
rounding `round(b * d) / d` of a bounded offset `b`, and whenever the two bounds
that the code computes for the axis are ordered, `lo ≤ hi` with
`lo = -(margin - origin)` and `hi = -(extent - (contentExtent + oppositeMargin +
origin))`, the negated `maxExtent`, that bounded offset lies in the inclusive
interval `[lo, hi]`. -/
theorem C2_bounded_offset_within_extents (fl : ℚ → ℚ) (s : WheelHandler) (f : QQuickItem)
    (pd ad : QPointF) (m : Nat) (hf : s.m_flickable = some f) (e : Effect)
    (he : e ∈ Rounded.scrollEffects fl s pd ad m) :
    (∀ v, e = Effect.setContentX v →
      ∃ b : ℚ,
        v = fl ((stdRound (fl (b * devicePixelRatio s f)) : ℚ) / devicePixelRatio s f) ∧
        (-fl (f.leftMargin - f.originX) ≤
            -fl (f.width - fl (fl (f.contentWidth + f.rightMargin) + f.originX)) →
          -fl (f.leftMargin - f.originX) ≤ b ∧
          b ≤ -fl (f.width - fl (fl (f.contentWidth + f.rightMargin) + f.originX)))) ∧
    (∀ v, e = Effect.setContentY v ∨ e = Effect.animationSetEndValue v →
      ∃ b : ℚ,
        v = fl ((stdRound (fl (b * devicePixelRatio s f)) : ℚ) / devicePixelRatio s f) ∧
        (-fl (f.topMargin - f.originY) ≤
            -fl (f.height - fl (fl (f.contentHeight + f.bottomMargin) + f.originY)) →
          -fl (f.topMargin - f.originY) ≤ b ∧
          b ≤ -fl (f.height - fl (fl (f.contentHeight + f.bottomMargin) + f.originY)))) := by
  have hX : ∀ v, Effect.setContentX
      (Rounded.newContentX fl s f (transposedIf s m pd) (transposedIf s m ad) m) =
        Effect.setContentX v →
      ∃ b : ℚ,
        v = fl ((stdRound (fl (b * devicePixelRatio s f)) : ℚ) / devicePixelRatio s f) ∧
        (-fl (f.leftMargin - f.originX) ≤
            -fl (f.width - fl (fl (f.contentWidth + f.rightMargin) + f.originX)) →
          -fl (f.leftMargin - f.originX) ≤ b ∧
          b ≤ -fl (f.width - fl (fl (f.contentWidth + f.rightMargin) + f.originX))) := by
    intro v hv
    simp only [Effect.setContentX.injEq] at hv
    exact ⟨Rounded.boundedContentX fl s f (transposedIf s m pd) (transposedIf s m ad) m,
      hv.symm, rounded_boundedContentX_mem fl s f _ _ m⟩
  have hY : ∀ v, Rounded.newContentY fl s f (transposedIf s m pd) (transposedIf s m ad) m = v →
      ∃ b : ℚ,
        v = fl ((stdRound (fl (b * devicePixelRatio s f)) : ℚ) / devicePixelRatio s f) ∧
        (-fl (f.topMargin - f.originY) ≤
            -fl (f.height - fl (fl (f.contentHeight + f.bottomMargin) + f.originY)) →
          -fl (f.topMargin - f.originY) ≤ b ∧
          b ≤ -fl (f.height - fl (fl (f.contentHeight + f.bottomMargin) + f.originY))) := by
    intro v hv
    exact ⟨Rounded.boundedContentY fl s f (transposedIf s m pd) (transposedIf s m ad) m,
      hv.symm, rounded_boundedContentY_mem fl s f _ _ m⟩
  cases h : (pd.isNull && ad.isNull) with
  | true =>
    rw [rounded_scrollEffects_nil fl s pd ad m (Or.inr h)] at he
    simp at he
  | false =>
    rw [rounded_scrollEffects_eq fl s f pd ad m hf h] at he
    simp only [List.mem_append] at he
    rcases he with (he | he) | he
    · split_ifs at he with hc
      · simp only [List.mem_singleton] at he
        subst he
        exact ⟨hX, fun v hv => by simp at hv⟩
      · simp at he
    · split_ifs at he
      · simp only [List.mem_singleton] at he
        subst he
        exact ⟨fun v hv => by simp at hv, fun v hv => by simp at hv⟩
      · simp at he
    · split_ifs at he with hc ht
      · simp only [List.mem_singleton] at he
        subst he
        refine ⟨fun v hv => by simp at hv, fun v hv => ?_⟩
        simp only [Effect.setContentY.injEq, reduceCtorEq, or_false] at hv
        exact hY v hv
      · simp only [List.mem_cons, List.mem_singleton, List.not_mem_nil, or_false] at he
        rcases he with he | he
        · subst he
          refine ⟨fun v hv => by simp at hv, fun v hv => ?_⟩
          simp only [Effect.animationSetEndValue.injEq, reduceCtorEq, false_or] at hv
          exact hY v hv
        · subst he
          exact ⟨fun v hv => by simp at hv, fun v hv => by simp at hv⟩
      · simp at he

theorem fractionalHandler_flickable :
    fractionalHandler.m_flickable = some fractionalFlickable := by
  decide!

theorem fractionalHandler_pixelDelta :
    Rounded.scrollEffects roundToDouble fractionalHandler
        { x := roundToDouble (-303 / 10), y := 0 } { x := 0, y := 0 } 0 =
      [Effect.setContentX 30] := by
  decide!

/-- C2 as amended, at a concrete call in binary64: on a target 286.9 wide with
margins 4.3 and 28.9 and content 500.7 wide, a pixel delta of `(-30.3, 0)` writes
`contentX = 30`, the rounding of a bounded offset that lies within the computed
bounds `-4.3` and `242.70000000000005`, which are ordered. -/
theorem C2_bounded_offset_within_extents_witness :
    fractionalHandler.m_flickable = some fractionalFlickable ∧
    Effect.setContentX 30 ∈
      Rounded.scrollEffects roundToDouble fractionalHandler
        { x := roundToDouble (-303 / 10), y := 0 } { x := 0, y := 0 } 0 ∧
    -roundToDouble (fractionalFlickable.leftMargin - fractionalFlickable.originX) =
      -(4841369599423283 / 1125899906842624) ∧
    -roundToDouble (fractionalFlickable.width -
        roundToDouble (roundToDouble (fractionalFlickable.contentWidth +
          fractionalFlickable.rightMargin) + fractionalFlickable.originX)) =
      1067405888244941 / 4398046511104 ∧
    ∃ b : ℚ,
      (30 : ℚ) = roundToDouble ((stdRound (roundToDouble
        (b * devicePixelRatio fractionalHandler fractionalFlickable)) : ℚ) /
          devicePixelRatio fractionalHandler fractionalFlickable) ∧
      -roundToDouble (fractionalFlickable.leftMargin - fractionalFlickable.originX) ≤ b ∧
      b ≤ -roundToDouble (fractionalFlickable.width -
        roundToDouble (roundToDouble (fractionalFlickable.contentWidth +
          fractionalFlickable.rightMargin) + fractionalFlickable.originX)) := by
  obtain ⟨b, hv, hb⟩ :=
    (C2_bounded_offset_within_extents roundToDouble fractionalHandler fractionalFlickable
      { x := roundToDouble (-303 / 10), y := 0 } { x := 0, y := 0 } 0
      fractionalHandler_flickable (Effect.setContentX 30)
      (by rw [fractionalHandler_pixelDelta]; simp)).1 30 rfl
  exact ⟨fractionalHandler_flickable, by rw [fractionalHandler_pixelDelta]; simp, by decide!,
    by decide!, b, hv, hb (by decide!)⟩

/-- C2, refuted as stated. One detent down on the example handler writes
`contentY = 20`, which is not at most `extent - (contentExtent + oppositeMargin +
origin) = -400`; and with content half a pixel taller than the page the written
offset `1` exceeds even the negated bound `1/2`, because it is rounded after the
clamp. Both in exact arithmetic and in binary64. -/
theorem C2_counterexample :
    (scrollEffects exampleHandler { x := 0, y := 0 } { x := 0, y := -120 } 0 =
        [Effect.setContentY 20] ∧
      Rounded.scrollEffects roundToDouble exampleHandler { x := 0, y := 0 } { x := 0, y := -120 }
        0 = [Effect.setContentY 20] ∧
      ¬ ((20 : ℚ) ≤ exampleFlickable.height -
        (exampleFlickable.contentHeight + exampleFlickable.bottomMargin +
          exampleFlickable.originY))) ∧
    (scrollEffects halfPixelHandler { x := 0, y := 0 } { x := 0, y := -120 } 0 =
        [Effect.setContentY 1] ∧
      Rounded.scrollEffects roundToDouble halfPixelHandler { x := 0, y := 0 }
        { x := 0, y := -120 } 0 = [Effect.setContentY 1] ∧
      ¬ ((1 : ℚ) ≤ -(halfPixelFlickable.height -
        (halfPixelFlickable.contentHeight + halfPixelFlickable.bottomMargin +
          halfPixelFlickable.originY)))) := by
  decide!

/-! ## Step sizes -/

theorem qFuzzyCompare_zero_right {x : ℚ} (h : x ≠ 0) : qFuzzyCompare x 0 = false := by
  unfold qFuzzyCompare
  have hx : 0 < |x| := abs_pos.mpr h
  have hmin : min |x| |(0 : ℚ)| = 0 := by
    rw [abs_zero]
    exact min_eq_right (le_of_lt hx)
  rw [hmin, sub_zero, decide_eq_false_iff_not, not_le]
  positivity

theorem qFuzzyCompare_self (x : ℚ) : qFuzzyCompare x x = true := by
  unfold qFuzzyCompare
  simp

theorem qFuzzyIsNull_zero : qFuzzyIsNull 0 = true := by
  unfold qFuzzyIsNull
  simp

theorem qFuzzyIsNull_iff (x : ℚ) : qFuzzyIsNull x = true ↔ |x| ≤ 1 / 1000000000000 := by
  unfold qFuzzyIsNull
  simp

theorem resetVerticalStepSize_spec (s : WheelHandler) :
    (resetVerticalStepSize s).m_explicitVStepSize = false ∧
    (resetVerticalStepSize s).m_defaultPixelStepSize = s.m_defaultPixelStepSize ∧
    (resetVerticalStepSize s).m_verticalStepSize =
      (if qFuzzyCompare s.m_verticalStepSize s.m_defaultPixelStepSize then s.m_verticalStepSize
        else s.m_defaultPixelStepSize) ∧
    qFuzzyCompare (resetVerticalStepSize s).m_verticalStepSize s.m_defaultPixelStepSize = true := by
  unfold resetVerticalStepSize
  by_cases h : qFuzzyCompare s.m_verticalStepSize s.m_defaultPixelStepSize = true
  · simp [h]
  · simp [h, emitSignal, qFuzzyCompare_self]

theorem resetHorizontalStepSize_spec (s : WheelHandler) :
    (resetHorizontalStepSize s).m_explicitHStepSize = false ∧
    (resetHorizontalStepSize s).m_defaultPixelStepSize = s.m_defaultPixelStepSize ∧
    (resetHorizontalStepSize s).m_horizontalStepSize =
      (if qFuzzyCompare s.m_horizontalStepSize s.m_defaultPixelStepSize then s.m_horizontalStepSize
        else s.m_defaultPixelStepSize) ∧
    qFuzzyCompare (resetHorizontalStepSize s).m_horizontalStepSize s.m_defaultPixelStepSize =
      true := by
  unfold resetHorizontalStepSize
  by_cases h : qFuzzyCompare s.m_horizontalStepSize s.m_defaultPixelStepSize = true
  · simp [h]
  · simp [h, emitSignal, qFuzzyCompare_self]

theorem setVerticalStepSize_null (s : WheelHandler) (x : ℚ)
    (hne : qFuzzyCompare s.m_verticalStepSize x = false) (hnull : qFuzzyIsNull x = true) :
    setVerticalStepSize s x = resetVerticalStepSize s := by
  unfold setVerticalStepSize
  simp only [hne, hnull, Bool.false_eq_true, if_false, if_true]
  rfl

theorem setHorizontalStepSize_null (s : WheelHandler) (x : ℚ)
    (hne : qFuzzyCompare s.m_horizontalStepSize x = false) (hnull : qFuzzyIsNull x = true) :
    setHorizontalStepSize s x = resetHorizontalStepSize s := by
  unfold setHorizontalStepSize
  simp only [hne, hnull, Bool.false_eq_true, if_false, if_true]
  rfl

/-- C3, as amended. Per axis: from every handler state whose current vertical step
size is not exactly zero, `setVerticalStepSize(0)` produces exactly the state that
`resetVerticalStepSize()` produces (signals included): the explicit-override flag
is cleared and the step size is the system-derived default, or is left as it was
when it already agreed with the default within the tolerance of `qFuzzyCompare`.
Likewise, from every state whose horizontal step size is not exactly zero, for
`setHorizontalStepSize(0)` and `resetHorizontalStepSize()`. Neither half depends
on the other axis. -/
theorem C3_zero_step_size_is_reset (s : WheelHandler) :
    (s.m_verticalStepSize ≠ 0 →
      setVerticalStepSize s 0 = resetVerticalStepSize s ∧
      (setVerticalStepSize s 0).m_explicitVStepSize = false ∧
      (setVerticalStepSize s 0).m_verticalStepSize =
        (if qFuzzyCompare s.m_verticalStepSize s.m_defaultPixelStepSize then s.m_verticalStepSize
          else s.m_defaultPixelStepSize) ∧
      qFuzzyCompare (setVerticalStepSize s 0).m_verticalStepSize s.m_defaultPixelStepSize =
        true) ∧
    (s.m_horizontalStepSize ≠ 0 →
      setHorizontalStepSize s 0 = resetHorizontalStepSize s ∧
      (setHorizontalStepSize s 0).m_explicitHStepSize = false ∧
      (setHorizontalStepSize s 0).m_horizontalStepSize =
        (if qFuzzyCompare s.m_horizontalStepSize s.m_defaultPixelStepSize then
          s.m_horizontalStepSize
        else s.m_defaultPixelStepSize) ∧
      qFuzzyCompare (setHorizontalStepSize s 0).m_horizontalStepSize s.m_defaultPixelStepSize =
        true) := by
  constructor
  · intro hv
    have h1 := setVerticalStepSize_null s 0 (qFuzzyCompare_zero_right hv) qFuzzyIsNull_zero
    obtain ⟨a1, _, a3, a4⟩ := resetVerticalStepSize_spec s
    rw [h1]
    exact ⟨rfl, a1, a3, a4⟩
  · intro hh
    have h2 := setHorizontalStepSize_null s 0 (qFuzzyCompare_zero_right hh) qFuzzyIsNull_zero
    obtain ⟨b1, _, b3, b4⟩ := resetHorizontalStepSize_spec s
    rw [h2]
    exact ⟨rfl, b1, b3, b4⟩

/-- C3 as amended, at the example handler (both step sizes 20, default 20), and at
a handler whose vertical step size is 30 while its horizontal step size is 0: the
vertical half applies there all the same. -/
theorem C3_zero_step_size_is_reset_witness :
    (exampleHandler.m_verticalStepSize ≠ 0 ∧ exampleHandler.m_horizontalStepSize ≠ 0 ∧
      setVerticalStepSize exampleHandler 0 = resetVerticalStepSize exampleHandler ∧
      setHorizontalStepSize exampleHandler 0 = resetHorizontalStepSize exampleHandler) ∧
    ((setVerticalStepSize zeroStepHandler 30).m_verticalStepSize = 30 ∧
      (setVerticalStepSize zeroStepHandler 30).m_horizontalStepSize = 0 ∧
      setVerticalStepSize (setVerticalStepSize zeroStepHandler 30) 0 =
        resetVerticalStepSize (setVerticalStepSize zeroStepHandler 30)) :=
  ⟨⟨by decide!, by decide!,
      ((C3_zero_step_size_is_reset exampleHandler).1 (by decide!)).1,
      ((C3_zero_step_size_is_reset exampleHandler).2 (by decide!)).1⟩,
    ⟨by decide!, by decide!,
      ((C3_zero_step_size_is_reset (setVerticalStepSize zeroStepHandler 30)).1
        (by decide!)).1⟩⟩

/-- C3, refuted as stated. With a step size of `60 + 10⁻¹⁴` and a default of 60,
`setVerticalStepSize(0)` clears the flag but leaves the step size, which is not the
default; and with a step size of exactly 0, `setVerticalStepSize(0)` returns early
with the override flag set, unlike `resetVerticalStepSize()`. The horizontal axis
behaves alike. -/
theorem C3_counterexample :
    ((setVerticalStepSize nearDefaultHandler 0).m_verticalStepSize ≠
        (setVerticalStepSize nearDefaultHandler 0).m_defaultPixelStepSize ∧
      (setHorizontalStepSize nearDefaultHandler 0).m_horizontalStepSize ≠
        (setHorizontalStepSize nearDefaultHandler 0).m_defaultPixelStepSize) ∧
    (setVerticalStepSize zeroStepHandler 0 ≠ resetVerticalStepSize zeroStepHandler ∧
      (setVerticalStepSize zeroStepHandler 0).m_explicitVStepSize = true ∧
      setHorizontalStepSize zeroStepHandler 0 ≠ resetHorizontalStepSize zeroStepHandler ∧
      (setHorizontalStepSize zeroStepHandler 0).m_explicitHStepSize = true) := by
  decide!

/-! ## The return value of `scrollFlickable` -/

theorem scrollX_flickable_of_false (s : WheelHandler) (f : QQuickItem) (pd ad : QPointF)
    (m : Nat) (h : (scrollX s f pd ad m).1 = false) : (scrollX s f pd ad m).2 = s := by
  unfold scrollX at h ⊢
  split_ifs at h ⊢ <;> simp_all

theorem scrollY_flickable_of_false (s : WheelHandler) (f : QQuickItem) (pd ad : QPointF)
    (m : Nat) (h : (scrollY s f pd ad m).1 = false) :
    (scrollY s f pd ad m).2.m_flickable = s.m_flickable ∧
      (scrollY s f pd ad m).2.m_yScrollAnimation.endValue = s.m_yScrollAnimation.endValue := by
  unfold scrollY at h ⊢
  by_cases ht : s.m_wasTouched = true <;>
  by_cases he : s.m_engine = true <;>
  split_ifs at h ⊢ <;>
  simp_all [animationStop]

theorem eventFilter_disabled (s : WheelHandler) (listener : LingmoUIWheelEvent → Bool)
    (watched : Watched) (event : QEvent)
    (h : watched.isQuickItem = false ∨ watched.isEnabled = false) :
    eventFilter s listener watched event = (false, s) := by
  unfold eventFilter
  rcases h with h | h <;> simp [h]

theorem setScrolling_frame (s : WheelHandler) (b : Bool) :
    (setScrolling s b).m_flickable = s.m_flickable ∧
      (setScrolling s b).m_yScrollAnimation = s.m_yScrollAnimation := by
  unfold setScrolling
  split_ifs <;> exact ⟨rfl, rfl⟩

theorem synthesizeWheelEvent_null (wheelEvent : QWheelEvent)
    (hp : wheelEvent.pixelDelta = { x := 0, y := 0 })
    (ha : wheelEvent.angleDelta = { x := 0, y := 0 }) :
    (synthesizeWheelEvent wheelEvent).m_pixelDelta = { x := 0, y := 0 } ∧
      (synthesizeWheelEvent wheelEvent).m_angleDelta = { x := 0, y := 0 } := by
  unfold synthesizeWheelEvent LingmoUIWheelEvent.initializeFromEvent QPoint.toPointF
  simp [hp, ha]

theorem scrollOnWheel_null (s : WheelHandler) (cw ch pw ph : ℚ)
    (ha : s.m_lingmouiWheelEvent.angleDelta.isNull = true)
    (hp : s.m_lingmouiWheelEvent.pixelDelta.isNull = true) :
    scrollOnWheel s cw ch pw ph = (false, s) := by
  unfold scrollOnWheel
  split
  · simp only [ha, if_true]
    exact scrollFlickable_null s _ _ _ (by simp [ha, hp])
  · rfl

/-- C4. `scrollFlickable` returns true exactly when, among the effects it performs,
there is a write of `contentX` or `contentY`, or a new end value for the vertical
animation, that differs from the current offset of that axis; it never writes an
offset equal to the current one; when it returns false the target's properties and
the animation's end value are as before. With the target unset, or with a null
pixel delta and a null angle delta, it returns false and changes nothing; so a
wheel dispatch whose deltas are all zero leaves the target and the animation
untouched. -/
theorem C4_scrolled_iff_offset_changed (s : WheelHandler) (pd ad : QPointF) (m : Nat) :
    ((scrollFlickable s pd ad m).1 = true ↔
      ∃ f, s.m_flickable = some f ∧ ∃ e ∈ scrollEffects s pd ad m, e.changesOffset f = true) ∧
    (∀ f, s.m_flickable = some f → ∀ e ∈ scrollEffects s pd ad m,
      (∀ v, e = Effect.setContentX v → v ≠ f.contentX) ∧
      (∀ v, e = Effect.setContentY v ∨ e = Effect.animationSetEndValue v → v ≠ f.contentY)) ∧
    ((scrollFlickable s pd ad m).1 = false →
      (scrollFlickable s pd ad m).2.m_flickable = s.m_flickable ∧
      (scrollFlickable s pd ad m).2.m_yScrollAnimation.endValue =
        s.m_yScrollAnimation.endValue) ∧
    (s.m_flickable = none ∨ (pd.isNull = true ∧ ad.isNull = true) →
      scrollFlickable s pd ad m = (false, s)) ∧
    (∀ (listener : LingmoUIWheelEvent → Bool) (watched : Watched) (wheelEvent : QWheelEvent),
      wheelEvent.pixelDelta = { x := 0, y := 0 } → wheelEvent.angleDelta = { x := 0, y := 0 } →
      (eventFilter s listener watched (QEvent.Wheel wheelEvent)).2.m_flickable = s.m_flickable ∧
      (eventFilter s listener watched (QEvent.Wheel wheelEvent)).2.m_yScrollAnimation =
        s.m_yScrollAnimation) := by
  refine ⟨?_, ?_, ?_, ?_, ?_⟩
  · cases hf : s.m_flickable with
    | none =>
      rw [scrollFlickable_none s pd ad m hf]
      simp
    | some f =>
      cases h : (pd.isNull && ad.isNull) with
      | true =>
        rw [scrollFlickable_null s pd ad m h, scrollEffects_nil s pd ad m (Or.inr h)]
        simp
      | false =>
        rw [scrollFlickable_fst s f pd ad m hf h, scrollEffects_eq s f pd ad m hf h]
        simp only [Option.some.injEq, exists_eq_left', Bool.or_eq_true, decide_eq_true_eq]
        constructor
        · rintro (hx | hy)
          · refine ⟨Effect.setContentX
              (newContentX s f (transposedIf s m pd) (transposedIf s m ad) m), ?_, ?_⟩
            · simp [hx]
            · simp only [Effect.changesOffset, decide_eq_true_eq]
              exact fun heq => hx.2 heq.symm
          · by_cases ht : (s.m_wasTouched || !s.m_engine) = true
            · refine ⟨Effect.setContentY
                (newContentY s f (transposedIf s m pd) (transposedIf s m ad) m), ?_, ?_⟩
              · have ht1 : s.m_wasTouched = true ∨ s.m_engine = false := by simpa using ht
                simp [hy, ht1]
              · simp only [Effect.changesOffset, decide_eq_true_eq]
                exact fun heq => hy.2 heq.symm
            · refine ⟨Effect.animationSetEndValue
                (newContentY s f (transposedIf s m pd) (transposedIf s m ad) m), ?_, ?_⟩
              · have ht1 : ¬ (s.m_wasTouched = true ∨ s.m_engine = false) := by simpa using ht
                simp [hy, ht1]
              · simp only [Effect.changesOffset, decide_eq_true_eq]
                exact fun heq => hy.2 heq.symm
        · rintro ⟨e, he, hch⟩
          simp only [List.mem_append] at he
          rcases he with (he | he) | he
          · split_ifs at he with hc
            · exact Or.inl hc
            · simp at he
          · split_ifs at he
            · simp only [List.mem_singleton] at he
              subst he
              simp [Effect.changesOffset] at hch
            · simp at he
          · split_ifs at he with hc
            · exact Or.inr hc
            · exact Or.inr hc
            · simp at he
  · intro f hf e he
    cases h : (pd.isNull && ad.isNull) with
    | true =>
      rw [scrollEffects_nil s pd ad m (Or.inr h)] at he
      simp at he
    | false =>
      rw [scrollEffects_eq s f pd ad m hf h] at he
      simp only [List.mem_append] at he
      rcases he with (he | he) | he
      · split_ifs at he with hc
        · simp only [List.mem_singleton] at he
          subst he
          refine ⟨fun v hv => ?_, fun v hv => by simp at hv⟩
          simp only [Effect.setContentX.injEq] at hv
          rw [← hv]
          exact fun heq => hc.2 heq.symm
        · simp at he
      · split_ifs at he
        · simp only [List.mem_singleton] at he
          subst he
          exact ⟨fun v hv => by simp at hv, fun v hv => by simp at hv⟩
        · simp at he
      · split_ifs at he with hc ht
        · simp only [List.mem_singleton] at he
          subst he
          refine ⟨fun v hv => by simp at hv, fun v hv => ?_⟩
          simp only [Effect.setContentY.injEq, reduceCtorEq, or_false] at hv
          rw [← hv]
          exact fun heq => hc.2 heq.symm
        · simp only [List.mem_cons, List.mem_singleton, List.not_mem_nil, or_false] at he
          rcases he with he | he
          · subst he
            refine ⟨fun v hv => by simp at hv, fun v hv => ?_⟩
            simp only [Effect.animationSetEndValue.injEq, reduceCtorEq, false_or] at hv
            rw [← hv]
            exact fun heq => hc.2 heq.symm
          · subst he
            exact ⟨fun v hv => by simp at hv, fun v hv => by simp at hv⟩
        · simp at he
  · intro hfalse
    cases hf : s.m_flickable with
    | none =>
      rw [scrollFlickable_none s pd ad m hf]
      exact ⟨hf, rfl⟩
    | some f =>
      cases h : (pd.isNull && ad.isNull) with
      | true =>
        rw [scrollFlickable_null s pd ad m h]
        exact ⟨hf, rfl⟩
      | false =>
        rw [scrollFlickable_some s f pd ad m hf h] at hfalse ⊢
        simp only [Bool.or_eq_false_iff] at hfalse
        obtain ⟨hx, hy⟩ := hfalse
        have h1 := scrollX_flickable_of_false s f _ _ m hx
        obtain ⟨h2, h3⟩ := scrollY_flickable_of_false _ f _ _ m hy
        rw [h1] at h2 h3
        rw [h1]
        exact ⟨h2.trans hf, h3⟩
  · rintro (h | ⟨h1, h2⟩)
    · exact scrollFlickable_none s pd ad m h
    · exact scrollFlickable_null s pd ad m (by simp [h1, h2])
  · intro listener watched wheelEvent hp ha
    by_cases hw : watched.isQuickItem = true ∧ watched.isEnabled = true
    · rw [eventFilter_wheel s listener watched wheelEvent hw.1 hw.2]
      obtain ⟨hp1, ha1⟩ := synthesizeWheelEvent_null wheelEvent hp ha
      have hflick := emitWheel_flickable s listener wheelEvent
      have hanim := emitWheel_animation s listener wheelEvent
      have hev : (emitWheel s listener wheelEvent).m_lingmouiWheelEvent.angleDelta.isNull = true ∧
          (emitWheel s listener wheelEvent).m_lingmouiWheelEvent.pixelDelta.isNull = true := by
        simp [emitWheel, LingmoUIWheelEvent.setAccepted, LingmoUIWheelEvent.angleDelta,
          LingmoUIWheelEvent.pixelDelta, hp1, ha1, QPointF.isNull]
      unfold eventFilterWheel
      simp only [scrollOnWheel_null _ _ _ _ _ hev.1 hev.2]
      split_ifs
      · exact ⟨hflick, hanim⟩
      · obtain ⟨f1, f2⟩ := setScrolling_frame (emitWheel s listener wheelEvent) false
        exact ⟨f1.trans hflick, f2.trans hanim⟩
    · rw [eventFilter_disabled s listener watched _ (by
        by_cases h1 : watched.isQuickItem = true
        · right
          simpa [h1] using hw
        · left
          simpa using h1)]
      exact ⟨rfl, rfl⟩

/-! ## One detent down -/

theorem pixelRound_close (b d : ℚ) (hd : 0 < d) :
    |(stdRound (b * d) : ℚ) / d - b| ≤ 1 / (2 * d) := by
  have h := abs_stdRound_sub_le (b * d)
  have heq : (stdRound (b * d) : ℚ) / d - b = ((stdRound (b * d) : ℚ) - b * d) / d := by
    field_simp
    ring
  have hhalf : 1 / (2 * d) = 1 / 2 / d := by
    field_simp
  rw [heq, hhalf, abs_div, abs_of_pos hd]
  exact (div_le_div_iff_of_pos_right hd).mpr h

theorem findAttached_vertical (children : List ChildObject) :
    (findAttached children).vertical = specAttachedScrollBar children ChildObject.vertical := by
  induction children with
  | nil => rfl
  | cons child rest ih =>
    unfold findAttached specAttachedScrollBar
    by_cases h : child.inheritsScrollBarAttached = true
    · simp [h]
    · simp only [h, Bool.false_eq_true, if_false, List.find?_cons]
      simpa [specAttachedScrollBar, h] using ih

theorem findAttached_horizontal (children : List ChildObject) :
    (findAttached children).horizontal =
      specAttachedScrollBar children ChildObject.horizontal := by
  induction children with
  | nil => rfl
  | cons child rest ih =>
    unfold findAttached specAttachedScrollBar
    by_cases h : child.inheritsScrollBarAttached = true
    · simp [h]
    · simp only [h, Bool.false_eq_true, if_false, List.find?_cons]
      simpa [specAttachedScrollBar, h] using ih

theorem rebindVertical_bound (s : WheelHandler) (vertical : ChosenScrollBar) :
    (rebindVertical s vertical).m_verticalScrollBar = vertical.scrollBar ∧
      (rebindVertical s vertical).m_horizontalScrollBar = s.m_horizontalScrollBar := by
  unfold rebindVertical
  by_cases h : s.m_verticalScrollBar = vertical.scrollBar
  · simp [h]
  · rw [if_pos h]
    cases vertical.scrollBar <;> cases s.m_verticalScrollBar <;>
      simp [installEventFilter, removeEventFilter]

theorem rebindHorizontal_bound (s : WheelHandler) (horizontal : ChosenScrollBar) :
    (rebindHorizontal s horizontal).m_horizontalScrollBar = horizontal.scrollBar ∧
      (rebindHorizontal s horizontal).m_verticalScrollBar = s.m_verticalScrollBar := by
  unfold rebindHorizontal
  by_cases h : s.m_horizontalScrollBar = horizontal.scrollBar
  · simp [h]
  · rw [if_pos h]
    cases horizontal.scrollBar <;> cases s.m_horizontalScrollBar <;>
      simp [installEventFilter, removeEventFilter]

theorem chosenVertical_spec (s : WheelHandler) :
    (chosenVertical s).scrollBar = specSelectedScrollBar s.m_flickable ChildObject.vertical := by
  unfold chosenVertical attachedToFlickable attachedToScrollView specSelectedScrollBar
  cases s.m_flickable with
  | none => simp
  | some f =>
    simp only [findAttached_vertical]
    cases h1 : specAttachedScrollBar f.children ChildObject.vertical with
    | some bar => simp
    | none =>
      cases f.parentItem with
      | none => simp
      | some container =>
        by_cases hview : container.inheritsScrollView = true
        · simp only [hview, if_true, findAttached_vertical]
          cases h2 : specAttachedScrollBar container.children ChildObject.vertical <;> simp
        · simp [hview]

theorem chosenHorizontal_spec (s : WheelHandler) :
    (chosenHorizontal s).scrollBar =
      specSelectedScrollBar s.m_flickable ChildObject.horizontal := by
  unfold chosenHorizontal attachedToFlickable attachedToScrollView specSelectedScrollBar
  cases s.m_flickable with
  | none => simp
  | some f =>
    simp only [findAttached_horizontal]
    cases h1 : specAttachedScrollBar f.children ChildObject.horizontal with
    | some bar => simp
    | none =>
      cases f.parentItem with
      | none => simp
      | some container =>
        by_cases hview : container.inheritsScrollView = true
        · simp only [hview, if_true, findAttached_horizontal]
          cases h2 : specAttachedScrollBar container.children ChildObject.horizontal <;> simp
        · simp [hview]

/-- C7. After `_k_rebindScrollBars`, for the vertical and the horizontal axis
independently, the bound scroll bar is the one the specification selects: the
surface-attached scroll bar when there is one, otherwise the one attached to the
target's parent when that is a scroll-view container and has one, otherwise none.
In particular a surface-attached scroll bar is bound whatever the parent offers. -/
theorem C7_rebind_prefers_surface_scrollbars (s : WheelHandler) :
    (_k_rebindScrollBars s).m_verticalScrollBar =
      specSelectedScrollBar s.m_flickable ChildObject.vertical ∧
    (_k_rebindScrollBars s).m_horizontalScrollBar =
      specSelectedScrollBar s.m_flickable ChildObject.horizontal ∧
    (∀ f bar, s.m_flickable = some f →
      specAttachedScrollBar f.children ChildObject.vertical = some bar →
      (_k_rebindScrollBars s).m_verticalScrollBar = some bar) ∧
    (∀ f bar, s.m_flickable = some f →
      specAttachedScrollBar f.children ChildObject.horizontal = some bar →
      (_k_rebindScrollBars s).m_horizontalScrollBar = some bar) := by
  have hv : (_k_rebindScrollBars s).m_verticalScrollBar =
      specSelectedScrollBar s.m_flickable ChildObject.vertical := by
    unfold _k_rebindScrollBars
    simp only []
    rw [(rebindHorizontal_bound _ _).2, (rebindVertical_bound _ _).1, chosenVertical_spec]
  have hh : (_k_rebindScrollBars s).m_horizontalScrollBar =
      specSelectedScrollBar s.m_flickable ChildObject.horizontal := by
    unfold _k_rebindScrollBars
    simp only []
    rw [(rebindHorizontal_bound _ _).1, chosenHorizontal_spec]
  refine ⟨hv, hh, ?_, ?_⟩
  · intro f bar hf hbar
    rw [hv, hf]
    simp [specSelectedScrollBar, hbar]
  · intro f bar hf hbar
    rw [hh, hf]
    simp [specSelectedScrollBar, hbar]

/-- C7, at a target with scroll bars on both sources: the vertical binding is the
surface-attached bar 11, not the parent's 21; the horizontal one falls back to the
parent's 22. -/
theorem C7_rebind_prefers_surface_scrollbars_witness :
    (_k_rebindScrollBars
        (setTarget (create 0 exampleDefaults 1 false)
          (some doublyAttachedFlickable))).m_verticalScrollBar = some 11 ∧
    (_k_rebindScrollBars
        (setTarget (create 0 exampleDefaults 1 false)
          (some doublyAttachedFlickable))).m_horizontalScrollBar = some 22 :=
  ⟨((C7_rebind_prefers_surface_scrollbars
      (setTarget (create 0 exampleDefaults 1 false)
        (some doublyAttachedFlickable))).2.2.1 doublyAttachedFlickable 11 (by decide!)
      (by decide!)),
    by decide!⟩

/-! ## Rejected targets -/

/-- C8. For every handler state and every non-null candidate that does not
inherit `QQuickFlickable`, `setTarget` rejects the assignment: the state is left as
it was, but for the developer warning recorded in the log. The bound target, the
bound scroll bars, the event-filter registrations and the filter item (so its
parent) are unchanged and `targetChanged` is not emitted. -/
theorem C8_setTarget_rejects_non_flickable (s : WheelHandler) (candidate : QQuickItem)
    (h : candidate.inheritsFlickable = false) :
    (setTarget s (some candidate) = s ∨
      setTarget s (some candidate) = { s with log := s.log ++ [Effect.qmlWarning] }) ∧
    (setTarget s (some candidate)).m_flickable = s.m_flickable ∧
    (setTarget s (some candidate)).m_verticalScrollBar = s.m_verticalScrollBar ∧
    (setTarget s (some candidate)).m_horizontalScrollBar = s.m_horizontalScrollBar ∧
    (setTarget s (some candidate)).eventFilters = s.eventFilters ∧
    (setTarget s (some candidate)).m_filterItem = s.m_filterItem ∧
    Effect.emitted Signal.targetChanged ∉
      (setTarget s (some candidate)).log.drop s.log.length := by
  unfold setTarget
  by_cases hsame : s.m_flickable.map QQuickItem.id = (some candidate).map QQuickItem.id
  · rw [if_pos hsame]
    simp
  · rw [if_neg hsame]
    simp [h]

/-- C8, at the example handler and an item that is no flickable: the handler
stays bound to the example target. -/
theorem C8_setTarget_rejects_non_flickable_witness :
    plainItem.inheritsFlickable = false ∧
    (setTarget exampleHandler (some plainItem)).m_flickable = some exampleFlickable ∧
    (setTarget exampleHandler (some plainItem)).eventFilters = exampleHandler.eventFilters :=
  ⟨rfl,
    (C8_setTarget_rejects_non_flickable exampleHandler plainItem rfl).2.1.trans
      exampleHandler_flickable,
    (C8_setTarget_rejects_non_flickable exampleHandler plainItem rfl).2.2.2.2.1⟩

/-! ## Zero and negative step sizes -/

theorem setVerticalStepSize_kept (s : WheelHandler) (x : ℚ) (h : qFuzzyIsNull x = false) :
    (setVerticalStepSize s x).m_explicitVStepSize = true ∧
      qFuzzyCompare (setVerticalStepSize s x).m_verticalStepSize x = true := by
  unfold setVerticalStepSize
  by_cases hc : qFuzzyCompare s.m_verticalStepSize x = true
  · simp [hc]
  · simp [hc, h, emitSignal, qFuzzyCompare_self]

theorem setHorizontalStepSize_kept (s : WheelHandler) (x : ℚ) (h : qFuzzyIsNull x = false) :
    (setHorizontalStepSize s x).m_explicitHStepSize = true ∧
      qFuzzyCompare (setHorizontalStepSize s x).m_horizontalStepSize x = true := by
  unfold setHorizontalStepSize
  by_cases hc : qFuzzyCompare s.m_horizontalStepSize x = true
  · simp [hc]
  · simp [hc, h, emitSignal, qFuzzyCompare_self]

/-- C9, as amended. A step size within the tolerance of `qFuzzyIsNull` around zero
(`|x| ≤ 10⁻¹²`) that `qFuzzyCompare` does not find equal to the current step size
is treated as a reset: `setVerticalStepSize(x)` / `setHorizontalStepSize(x)` yield
the state of `resetVerticalStepSize()` / `resetHorizontalStepSize()`, with the
explicit-override flag cleared and the step size equal to the system-derived
default up to the tolerance of `qFuzzyCompare`. Every step size outside that
tolerance, negative ones included, is kept as an explicit override: the flag is set
and the step size is `x` up to the tolerance of `qFuzzyCompare`. -/
theorem C9_null_step_size_resets (s : WheelHandler) (x : ℚ) :
    (|x| ≤ 1 / 1000000000000 → qFuzzyCompare s.m_verticalStepSize x = false →
      setVerticalStepSize s x = resetVerticalStepSize s ∧
      (setVerticalStepSize s x).m_explicitVStepSize = false ∧
      qFuzzyCompare (setVerticalStepSize s x).m_verticalStepSize s.m_defaultPixelStepSize =
        true) ∧
    (|x| ≤ 1 / 1000000000000 → qFuzzyCompare s.m_horizontalStepSize x = false →
      setHorizontalStepSize s x = resetHorizontalStepSize s ∧
      (setHorizontalStepSize s x).m_explicitHStepSize = false ∧
      qFuzzyCompare (setHorizontalStepSize s x).m_horizontalStepSize s.m_defaultPixelStepSize =
        true) ∧
    (1 / 1000000000000 < |x| →
      ((setVerticalStepSize s x).m_explicitVStepSize = true ∧
        qFuzzyCompare (setVerticalStepSize s x).m_verticalStepSize x = true) ∧
      ((setHorizontalStepSize s x).m_explicitHStepSize = true ∧
        qFuzzyCompare (setHorizontalStepSize s x).m_horizontalStepSize x = true)) := by
  refine ⟨fun hx hne => ?_, fun hx hne => ?_, fun hx => ?_⟩
  · have h1 := setVerticalStepSize_null s x hne ((qFuzzyIsNull_iff x).mpr hx)
    obtain ⟨a1, _, _, a4⟩ := resetVerticalStepSize_spec s
    rw [h1]
    exact ⟨rfl, a1, a4⟩
  · have h1 := setHorizontalStepSize_null s x hne ((qFuzzyIsNull_iff x).mpr hx)
    obtain ⟨a1, _, _, a4⟩ := resetHorizontalStepSize_spec s
    rw [h1]
    exact ⟨rfl, a1, a4⟩
  · have hnull : qFuzzyIsNull x = false := by
      cases hq : qFuzzyIsNull x with
      | false => rfl
      | true => exact absurd ((qFuzzyIsNull_iff x).mp hq) (not_le.mpr hx)
    exact ⟨setVerticalStepSize_kept s x hnull, setHorizontalStepSize_kept s x hnull⟩

/-- C9 as amended, at the example handler (step sizes 100 after an explicit
override, default 20): a step size of 0 resets to the default, a step size of -5
is kept. -/
theorem C9_null_step_size_resets_witness :
    (setVerticalStepSize (setVerticalStepSize exampleHandler 100) 0 =
        resetVerticalStepSize (setVerticalStepSize exampleHandler 100) ∧
      (setVerticalStepSize (setVerticalStepSize exampleHandler 100) 0).m_explicitVStepSize =
        false) ∧
    (setVerticalStepSize (setVerticalStepSize exampleHandler 100) (-5)).m_explicitVStepSize =
      true :=
  ⟨⟨((C9_null_step_size_resets (setVerticalStepSize exampleHandler 100) 0).1 (by norm_num)
        (by decide!)).1,
      ((C9_null_step_size_resets (setVerticalStepSize exampleHandler 100) 0).1 (by norm_num)
        (by decide!)).2.1⟩,
    ((C9_null_step_size_resets (setVerticalStepSize exampleHandler 100) (-5)).2.2
      (by norm_num)).1.1⟩

/-- C9, refuted as stated. On the example handler (default step 20) the negative
step size -5 is stored, with the override flag set, on either axis; with a step
size of `60 + 10⁻¹⁴` and a default of 60 a step size of 0 leaves the step size off
the default; and with a current step size of 0 a step size of 0 leaves the
override flag set. -/
theorem C9_counterexample :
    ((setVerticalStepSize exampleHandler (-5)).m_verticalStepSize = -5 ∧
      (setVerticalStepSize exampleHandler (-5)).m_defaultPixelStepSize = 20 ∧
      (setVerticalStepSize exampleHandler (-5)).m_explicitVStepSize = true ∧
      (setHorizontalStepSize exampleHandler (-5)).m_horizontalStepSize = -5 ∧
      (setHorizontalStepSize exampleHandler (-5)).m_defaultPixelStepSize = 20 ∧
      (setHorizontalStepSize exampleHandler (-5)).m_explicitHStepSize = true) ∧
    (setVerticalStepSize nearDefaultHandler 0).m_verticalStepSize ≠
      (setVerticalStepSize nearDefaultHandler 0).m_defaultPixelStepSize ∧
    (setVerticalStepSize zeroStepHandler 0).m_explicitVStepSize = true := by
  decide!

/-! ## The debounce timer -/

theorem setScrolling_enter (s : WheelHandler) (h : s.m_wheelScrolling = false) :
    (setScrolling s true).m_wheelScrolling = true ∧
      (setScrolling s true).m_filterItem.enabled = true ∧
      (setScrolling s true).wheelScrollingTimerActive = s.wheelScrollingTimerActive := by
  unfold setScrolling
  simp [h]

theorem setScrolling_stay (s : WheelHandler) (h : s.m_wheelScrolling = true) :
    (setScrolling s true).m_wheelScrolling = true ∧
      (setScrolling s true).m_filterItem.enabled = s.m_filterItem.enabled ∧
      (setScrolling s true).wheelScrollingTimerActive = true := by
  unfold setScrolling
  simp [h]

/-- C10, evaluated at the failing input. From Idle (flag false, overlay disabled,
timer idle) a single wheel dispatch of one detent down changes the offset (to 20)
and puts the handler in WheelScrolling with the overlay enabled, but the debounce
timer is not started: a timeout cannot occur, and the handler stays in
WheelScrolling. Only a second such dispatch starts the timer, whose timeout then
returns the handler to Idle with the overlay disabled. -/
theorem C10_single_dispatch_leaves_timer_idle :
    (exampleHandler.m_wheelScrolling = false ∧ exampleHandler.m_filterItem.enabled = false ∧
      exampleHandler.wheelScrollingTimerActive = false) ∧
    ((eventFilter exampleHandler ignoringListener watchedFlickable
        (QEvent.Wheel oneDetentDown)).2.m_flickable.map QQuickItem.contentY = some 20 ∧
      (eventFilter exampleHandler ignoringListener watchedFlickable
        (QEvent.Wheel oneDetentDown)).2.m_wheelScrolling = true ∧
      (eventFilter exampleHandler ignoringListener watchedFlickable
        (QEvent.Wheel oneDetentDown)).2.m_filterItem.enabled = true ∧
      (eventFilter exampleHandler ignoringListener watchedFlickable
        (QEvent.Wheel oneDetentDown)).2.wheelScrollingTimerActive = false ∧
      (wheelScrollingTimeout
        (eventFilter exampleHandler ignoringListener watchedFlickable
          (QEvent.Wheel oneDetentDown)).2).m_wheelScrolling = true) ∧
    ((eventFilter
        (eventFilter exampleHandler ignoringListener watchedFlickable
          (QEvent.Wheel oneDetentDown)).2
        ignoringListener watchedFlickable
        (QEvent.Wheel oneDetentDown)).2.wheelScrollingTimerActive = true ∧
      (wheelScrollingTimeout
        (eventFilter
          (eventFilter exampleHandler ignoringListener watchedFlickable
            (QEvent.Wheel oneDetentDown)).2
          ignoringListener watchedFlickable
          (QEvent.Wheel oneDetentDown)).2).m_wheelScrolling = false ∧
      (wheelScrollingTimeout
        (eventFilter
          (eventFilter exampleHandler ignoringListener watchedFlickable
            (QEvent.Wheel oneDetentDown)).2
          ignoringListener watchedFlickable
          (QEvent.Wheel oneDetentDown)).2).m_filterItem.enabled = false) := by
  decide!

/-! ## A sufficient geometry for the Home jump -/

theorem home_jump_reaches_left_edge (f : QQuickItem) (hpage : 1 ≤ pageWidth f)
    (hW : f.contentWidth > pageWidth f) (hmax : f.contentWidth < 2147483648)
    (hx : f.contentX ≤ -(f.width - (f.contentWidth + f.rightMargin + f.originX))) :
    f.contentX - (truncToInt f.contentWidth : ℚ) ≤ -(f.leftMargin - f.originX) := by
  have hpos : (0 : ℚ) ≤ f.contentWidth := by linarith
  have hfloor : f.contentWidth < (truncToInt f.contentWidth : ℚ) + 1 := by
    unfold truncToInt
    rw [if_pos ⟨by linarith, hmax⟩, if_pos hpos]
    exact Int.lt_floor_add_one f.contentWidth
  unfold pageWidth at hpage hW
  linarith

/-! ## Consuming the wheel event -/

theorem scrollX_blockTargetWheel (s : WheelHandler) (f : QQuickItem) (pd ad : QPointF)
    (m : Nat) : (scrollX s f pd ad m).2.m_blockTargetWheel = s.m_blockTargetWheel := by
  unfold scrollX
  split_ifs <;> rfl

theorem scrollY_blockTargetWheel (s : WheelHandler) (f : QQuickItem) (pd ad : QPointF)
    (m : Nat) : (scrollY s f pd ad m).2.m_blockTargetWheel = s.m_blockTargetWheel := by
  unfold scrollY
  by_cases hrun : s.m_yScrollAnimation.running = true <;>
  by_cases ht : s.m_wasTouched = true <;>
  by_cases he : s.m_engine = true <;>
  split_ifs <;>
  simp_all [setContentY, animationStop, animationSetEndValue, animationStart]

theorem scrollFlickable_blockTargetWheel (s : WheelHandler) (pd ad : QPointF) (m : Nat) :
    (scrollFlickable s pd ad m).2.m_blockTargetWheel = s.m_blockTargetWheel := by
  cases hf : s.m_flickable with
  | none => rw [scrollFlickable_none s pd ad m hf]
  | some f =>
    cases h : (pd.isNull && ad.isNull) with
    | true => rw [scrollFlickable_null s pd ad m h]
    | false =>
      rw [scrollFlickable_some s f pd ad m hf h]
      simp only [scrollY_blockTargetWheel, scrollX_blockTargetWheel]

theorem scrollOnWheel_blockTargetWheel (s : WheelHandler) (cw ch pw ph : ℚ) :
    (scrollOnWheel s cw ch pw ph).2.m_blockTargetWheel = s.m_blockTargetWheel := by
  unfold scrollOnWheel
  split
  · exact scrollFlickable_blockTargetWheel s _ _ _
  · rfl

theorem setScrolling_flag (s : WheelHandler) (b : Bool) :
    (setScrolling s b).m_wheelScrolling = b ∧
      (setScrolling s b).m_filterItem.enabled = (if s.m_wheelScrolling = b then
        s.m_filterItem.enabled else b) ∧
      (setScrolling s b).m_blockTargetWheel = s.m_blockTargetWheel := by
  unfold setScrolling
  by_cases h : s.m_wheelScrolling = b
  · rw [if_pos h, if_pos h]
    split_ifs
    · exact ⟨h, rfl, rfl⟩
    · exact ⟨h, rfl, rfl⟩
  · rw [if_neg h, if_neg h]
    exact ⟨rfl, rfl, rfl⟩

theorem emitWheel_blockTargetWheel (s : WheelHandler) (listener : LingmoUIWheelEvent → Bool)
    (wheelEvent : QWheelEvent) :
    (emitWheel s listener wheelEvent).m_blockTargetWheel = s.m_blockTargetWheel := by
  unfold emitWheel setScrollBarsInteractive setScrollBarInteractive
  by_cases h : s.m_filterMouseEvents = true
  · simp only [h, if_true]
    cases s.m_verticalScrollBar <;> cases s.m_horizontalScrollBar <;> rfl
  · simp [h]

/-- The local `scrolled` of a wheel dispatch that no listener accepts. -/
theorem eventFilterWheel_unaccepted (s : WheelHandler) (listener : LingmoUIWheelEvent → Bool)
    (wheelEvent : QWheelEvent) (cw ch pw ph : ℚ)
    (hacc : listener (synthesizeWheelEvent wheelEvent) = false) :
    eventFilterWheel s listener wheelEvent cw ch pw ph =
      ((scrollOnWheel (emitWheel s listener wheelEvent) cw ch pw ph).1 ||
          s.m_blockTargetWheel ||
          !(decide (wheelEvent.source = MouseEventSource.MouseEventNotSynthesized) ||
            wheelEvent.pixelDelta.isNull),
        setScrolling (scrollOnWheel (emitWheel s listener wheelEvent) cw ch pw ph).2
          (scrollOnWheel (emitWheel s listener wheelEvent) cw ch pw ph).1) := by
  unfold eventFilterWheel
  simp only [emitWheel_accepted, hacc, Bool.false_eq_true, if_false, (setScrolling_flag _ _).2.2,
    scrollOnWheel_blockTargetWheel, emitWheel_blockTargetWheel]

/-- C11, as amended. For every wheel event dispatched to `eventFilter` on an
enabled watched item and not accepted by a listener, `eventFilter` returns true
if and only if scrolling occurred (the local `scrolled`, which is also the
wheel-scrolling flag after the dispatch), or the block-target-wheel flag is set,
or the event has a synthesized mouse source (any source other than
`MouseEventNotSynthesized`) together with a non-null pixel delta. -/
theorem C11_wheel_consumed_iff (s : WheelHandler) (listener : LingmoUIWheelEvent → Bool)
    (watched : Watched) (wheelEvent : QWheelEvent)
    (hitem : watched.isQuickItem = true) (henabled : watched.isEnabled = true)
    (hacc : listener (synthesizeWheelEvent wheelEvent) = false) :
    ((eventFilter s listener watched (QEvent.Wheel wheelEvent)).1 = true ↔
      wheelScrolled s listener wheelEvent = true ∨ s.m_blockTargetWheel = true ∨
        (wheelEvent.source ≠ MouseEventSource.MouseEventNotSynthesized ∧
          wheelEvent.pixelDelta ≠ { x := 0, y := 0 })) ∧
    (eventFilter s listener watched (QEvent.Wheel wheelEvent)).2.m_wheelScrolling =
      wheelScrolled s listener wheelEvent := by
  rw [eventFilter_wheel s listener watched wheelEvent hitem henabled,
    eventFilterWheel_unaccepted s listener wheelEvent _ _ _ _ hacc]
  have hnull : wheelEvent.pixelDelta.isNull = true ↔ wheelEvent.pixelDelta = { x := 0, y := 0 } := by
    cases hp : wheelEvent.pixelDelta with
    | mk x y => simp [QPoint.isNull]
  refine ⟨?_, (setScrolling_flag _ _).1⟩
  unfold wheelScrolled
  simp only [Bool.or_eq_true, Bool.not_eq_true', Bool.or_eq_false_iff, decide_eq_false_iff_not,
    ne_eq, or_assoc]
  rw [← hnull]
  simp

/-- C11 as amended, at a touchpad-like event on a handler that does not block the
target's wheel events: a pixel-only event synthesized by the system is consumed
although nothing scrolls. -/
theorem C11_wheel_consumed_iff_witness :
    ignoringListener
        (synthesizeWheelEvent (pixelOnlyWheel MouseEventSource.MouseEventSynthesizedBySystem)) =
      false ∧
    wheelScrolled unblockedHandler ignoringListener
        (pixelOnlyWheel MouseEventSource.MouseEventSynthesizedBySystem) = false ∧
    unblockedHandler.m_blockTargetWheel = false ∧
    (eventFilter unblockedHandler ignoringListener watchedFlickable
        (QEvent.Wheel (pixelOnlyWheel MouseEventSource.MouseEventSynthesizedBySystem))).1 = true :=
  ⟨rfl, by decide!, by decide!,
    (C11_wheel_consumed_iff unblockedHandler ignoringListener watchedFlickable
      (pixelOnlyWheel MouseEventSource.MouseEventSynthesizedBySystem) rfl rfl rfl).1.mpr
      (Or.inr (Or.inr ⟨by decide, by decide⟩))⟩

/-- C11, refuted as stated. On a handler that neither scrolls (the content fits the
page) nor blocks the target's wheel events, a wheel event with the non-synthesized
mouse source and the non-null pixel delta `(0, -5)` is not consumed, and the same
event from a synthesized source is consumed. -/
theorem C11_counterexample :
    (unblockedHandler.m_blockTargetWheel = false ∧
      (pixelOnlyWheel MouseEventSource.MouseEventNotSynthesized).pixelDelta.isNull = false ∧
      (eventFilter unblockedHandler ignoringListener watchedFlickable
        (QEvent.Wheel (pixelOnlyWheel MouseEventSource.MouseEventNotSynthesized))).1 = false) ∧
    ((eventFilter unblockedHandler ignoringListener watchedFlickable
        (QEvent.Wheel (pixelOnlyWheel MouseEventSource.MouseEventSynthesizedBySystem))).1 = true ∧
      (eventFilter unblockedHandler ignoringListener watchedFlickable
        (QEvent.Wheel (pixelOnlyWheel
          MouseEventSource.MouseEventSynthesizedBySystem))).2.m_wheelScrolling = false ∧
      (eventFilter unblockedHandler ignoringListener watchedFlickable
        (QEvent.Wheel (pixelOnlyWheel
          MouseEventSource.MouseEventSynthesizedBySystem))).2.m_flickable =
        unblockedHandler.m_flickable) := by
  decide!

/-! ## Leaving WheelScrolling on touch and mouse events -/

theorem setScrollBarsInteractive_scrolling (s : WheelHandler) (b : Bool) :
    (setScrollBarsInteractive s b).m_wheelScrolling = s.m_wheelScrolling ∧
      (setScrollBarsInteractive s b).m_filterItem = s.m_filterItem ∧
      (setScrollBarsInteractive s b).wheelScrollingTimerActive = s.wheelScrollingTimerActive := by
  unfold setScrollBarsInteractive setScrollBarInteractive
  cases s.m_verticalScrollBar <;> cases s.m_horizontalScrollBar <;> exact ⟨rfl, rfl, rfl⟩

theorem setScrolling_false_of_scrolling (s : WheelHandler) (h : s.m_wheelScrolling = true) :
    (setScrolling s false).m_wheelScrolling = false ∧
      (setScrolling s false).m_filterItem.enabled = false := by
  unfold setScrolling
  simp [h]

/-- C12, as amended. For every handler state in WheelScrolling, a MouseMove or a
MouseButtonRelease dispatched to `eventFilter` on an enabled watched item leaves
the handler in Idle (wheel-scrolling flag false, filter overlay disabled). A
TouchBegin or a MouseButtonPress leaves the wheel-scrolling flag, the filter
overlay and the debounce timer as they were: the handler stays in WheelScrolling. -/
theorem C12_mouse_move_release_force_idle (s : WheelHandler)
    (listener : LingmoUIWheelEvent → Bool) (watched : Watched) (source : MouseEventSource)
    (hitem : watched.isQuickItem = true) (henabled : watched.isEnabled = true)
    (hscroll : s.m_wheelScrolling = true) :
    ((eventFilter s listener watched (QEvent.MouseMove source)).2.m_wheelScrolling = false ∧
      (eventFilter s listener watched (QEvent.MouseMove source)).2.m_filterItem.enabled =
        false) ∧
    ((eventFilter s listener watched (QEvent.MouseButtonRelease source)).2.m_wheelScrolling =
        false ∧
      (eventFilter s listener watched (QEvent.MouseButtonRelease source)).2.m_filterItem.enabled =
        false) ∧
    ((eventFilter s listener watched QEvent.TouchBegin).2.m_wheelScrolling = true ∧
      (eventFilter s listener watched QEvent.TouchBegin).2.m_filterItem = s.m_filterItem ∧
      (eventFilter s listener watched QEvent.TouchBegin).2.wheelScrollingTimerActive =
        s.wheelScrollingTimerActive) ∧
    ((eventFilter s listener watched (QEvent.MouseButtonPress source)).2.m_wheelScrolling =
        true ∧
      (eventFilter s listener watched (QEvent.MouseButtonPress source)).2.m_filterItem =
        s.m_filterItem ∧
      (eventFilter s listener watched
        (QEvent.MouseButtonPress source)).2.wheelScrollingTimerActive =
        s.wheelScrollingTimerActive) := by
  obtain ⟨i1, i2⟩ := setScrolling_false_of_scrolling s hscroll
  refine ⟨?_, ?_, ?_, ?_⟩
  · unfold eventFilter
    simp only [hitem, henabled, Bool.not_true, Bool.or_self, Bool.false_eq_true, if_false]
    split_ifs <;> exact ⟨i1, i2⟩
  · unfold eventFilter
    simp only [hitem, henabled, Bool.not_true, Bool.or_self, Bool.false_eq_true, if_false]
    split_ifs <;> exact ⟨i1, i2⟩
  · unfold eventFilter
    simp only [hitem, henabled, Bool.not_true, Bool.or_self, Bool.false_eq_true, if_false]
    split_ifs
    · exact ⟨hscroll, rfl, rfl⟩
    · obtain ⟨j1, j2, j3⟩ := setScrollBarsInteractive_scrolling { s with m_wasTouched := true }
        false
      exact ⟨j1.trans hscroll, j2, j3⟩
  · unfold eventFilter
    simp only [hitem, henabled, Bool.not_true, Bool.or_self, Bool.false_eq_true, if_false]
    split_ifs
    · exact ⟨hscroll, rfl, rfl⟩
    · obtain ⟨j1, j2, j3⟩ := setScrollBarsInteractive_scrolling
        { s with
          m_wasTouched := decide (source ≠ MouseEventSource.MouseEventNotSynthesized) } true
      exact ⟨j1.trans hscroll, j2, j3⟩
    · exact ⟨hscroll, rfl, rfl⟩

/-- C12 as amended, at the example handler after one scrolling wheel dispatch: a
mouse move returns it to Idle. -/
theorem C12_mouse_move_release_force_idle_witness :
    scrollingHandler.m_wheelScrolling = true ∧
    (eventFilter scrollingHandler ignoringListener watchedFlickable
      (QEvent.MouseMove MouseEventSource.MouseEventNotSynthesized)).2.m_wheelScrolling = false ∧
    (eventFilter scrollingHandler ignoringListener watchedFlickable
      (QEvent.MouseMove MouseEventSource.MouseEventNotSynthesized)).2.m_filterItem.enabled =
        false :=
  ⟨by decide!,
    (C12_mouse_move_release_force_idle scrollingHandler ignoringListener watchedFlickable
      MouseEventSource.MouseEventNotSynthesized rfl rfl (by decide!)).1.1,
    (C12_mouse_move_release_force_idle scrollingHandler ignoringListener watchedFlickable
      MouseEventSource.MouseEventNotSynthesized rfl rfl (by decide!)).1.2⟩

/-- C12, refuted as stated. The example handler, in WheelScrolling after one wheel
dispatch, is still in WheelScrolling with the filter overlay enabled after a
TouchBegin, and after a MouseButtonPress. -/
theorem C12_counterexample :
    scrollingHandler.m_wheelScrolling = true ∧
    ((eventFilter scrollingHandler ignoringListener watchedFlickable
        QEvent.TouchBegin).2.m_wheelScrolling = true ∧
      (eventFilter scrollingHandler ignoringListener watchedFlickable
        QEvent.TouchBegin).2.m_filterItem.enabled = true) ∧
    ((eventFilter scrollingHandler ignoringListener watchedFlickable
        (QEvent.MouseButtonPress
          MouseEventSource.MouseEventNotSynthesized)).2.m_wheelScrolling = true ∧
      (eventFilter scrollingHandler ignoringListener watchedFlickable
        (QEvent.MouseButtonPress
          MouseEventSource.MouseEventNotSynthesized)).2.m_filterItem.enabled = true) := by
  decide!

/-! ## Mouse button press -/

theorem setScrollBarsInteractive_interactiveOf (s : WheelHandler) (b : Bool) (bar : ObjId)
    (h : s.m_verticalScrollBar = some bar ∨ s.m_horizontalScrollBar = some bar) :
    interactiveOf (setScrollBarsInteractive s b) bar = some b := by
  unfold interactiveOf setScrollBarsInteractive setScrollBarInteractive
  cases hv : s.m_verticalScrollBar with
  | none =>
    cases hh : s.m_horizontalScrollBar with
    | none => simp [hv, hh] at h
    | some hbar =>
      have : hbar = bar := by simpa [hv, hh] using h
      simp [this]
  | some vbar =>
    cases hh : s.m_horizontalScrollBar with
    | none =>
      have : vbar = bar := by simpa [hv, hh] using h
      simp [this]
    | some hbar =>
      by_cases e1 : hbar = bar
      · simp [e1]
      · have : vbar = bar := by
          rcases h with h | h
          · simpa [hv] using h
          · exact absurd (by simpa [hh] using h) e1
        simp [List.find?_cons, e1, this]

/-- C13, as amended. For every MouseButtonPress dispatched to `eventFilter` on an
enabled watched item with mouse filtering enabled: if the event sets the
was-touched flag (its source is synthesized), nothing else changes, no scroll bar
is marked, and the event passes through (`eventFilter` returns false) whatever the
watched object; if was-touched is not set, both bound scroll bars are marked
interactive and the event passes through (returns false). -/
theorem C13_mouse_press_passes (s : WheelHandler) (listener : LingmoUIWheelEvent → Bool)
    (watched : Watched) (source : MouseEventSource)
    (hitem : watched.isQuickItem = true) (henabled : watched.isEnabled = true)
    (hfilter : s.m_filterMouseEvents = true) :
    (source ≠ MouseEventSource.MouseEventNotSynthesized →
      eventFilter s listener watched (QEvent.MouseButtonPress source) =
        (false, { s with m_wasTouched := true })) ∧
    (source = MouseEventSource.MouseEventNotSynthesized →
      (eventFilter s listener watched (QEvent.MouseButtonPress source)).1 = false ∧
      (eventFilter s listener watched (QEvent.MouseButtonPress source)).2 =
        setScrollBarsInteractive { s with m_wasTouched := false } true ∧
      ∀ bar, s.m_verticalScrollBar = some bar ∨ s.m_horizontalScrollBar = some bar →
        interactiveOf (eventFilter s listener watched (QEvent.MouseButtonPress source)).2 bar =
          some true) := by
  constructor
  · intro hsrc
    unfold eventFilter
    simp [hitem, henabled, hfilter, hsrc]
  · intro hsrc
    have heq : eventFilter s listener watched (QEvent.MouseButtonPress source) =
        (false, setScrollBarsInteractive { s with m_wasTouched := false } true) := by
      unfold eventFilter
      simp [hitem, henabled, hfilter, hsrc]
    rw [heq]
    exact ⟨rfl, rfl, fun bar hbar =>
      setScrollBarsInteractive_interactiveOf { s with m_wasTouched := false } true bar hbar⟩

theorem filteringHandler_bound :
    filteringHandler.m_filterMouseEvents = true ∧
      filteringHandler.m_verticalScrollBar = some 11 ∧
      filteringHandler.m_horizontalScrollBar = some 22 ∧
      filteringHandler.m_flickable.map QQuickItem.id = some watchedFlickable.id := by
  decide!

/-- C13 as amended, at a handler with both scroll bars bound: a genuine mouse
press marks both interactive and passes, a press synthesized from touch passes
without marking. -/
theorem C13_mouse_press_passes_witness :
    filteringHandler.m_filterMouseEvents = true ∧
    (eventFilter filteringHandler ignoringListener watchedFlickable
      (QEvent.MouseButtonPress MouseEventSource.MouseEventNotSynthesized)).1 = false ∧
    interactiveOf (eventFilter filteringHandler ignoringListener watchedFlickable
      (QEvent.MouseButtonPress MouseEventSource.MouseEventNotSynthesized)).2 11 = some true ∧
    eventFilter filteringHandler ignoringListener watchedFlickable
        (QEvent.MouseButtonPress MouseEventSource.MouseEventSynthesizedByQt) =
      (false, { filteringHandler with m_wasTouched := true }) :=
  ⟨filteringHandler_bound.1,
    ((C13_mouse_press_passes filteringHandler ignoringListener watchedFlickable
      MouseEventSource.MouseEventNotSynthesized rfl rfl filteringHandler_bound.1).2 rfl).1,
    ((C13_mouse_press_passes filteringHandler ignoringListener watchedFlickable
      MouseEventSource.MouseEventNotSynthesized rfl rfl filteringHandler_bound.1).2 rfl).2.2 11
      (Or.inl filteringHandler_bound.2.1),
    (C13_mouse_press_passes filteringHandler ignoringListener watchedFlickable
      MouseEventSource.MouseEventSynthesizedByQt rfl rfl filteringHandler_bound.1).1
      (by decide)⟩

/-- C13, refuted as stated. With mouse filtering enabled and both scroll bars
bound, a MouseButtonPress synthesized from touch, watched on the target itself,
sets was-touched but is not consumed, and neither scroll bar is marked
interactive. -/
theorem C13_counterexample :
    (filteringHandler.m_filterMouseEvents = true ∧
      filteringHandler.m_verticalScrollBar = some 11 ∧
      filteringHandler.m_horizontalScrollBar = some 22 ∧
      filteringHandler.m_flickable.map QQuickItem.id = some watchedFlickable.id) ∧
    (eventFilter filteringHandler ignoringListener watchedFlickable
      (QEvent.MouseButtonPress MouseEventSource.MouseEventSynthesizedByQt)).2.m_wasTouched =
        true ∧
    (eventFilter filteringHandler ignoringListener watchedFlickable
      (QEvent.MouseButtonPress MouseEventSource.MouseEventSynthesizedByQt)).1 = false ∧
    interactiveOf (eventFilter filteringHandler ignoringListener watchedFlickable
      (QEvent.MouseButtonPress MouseEventSource.MouseEventSynthesizedByQt)).2 11 = none ∧
    interactiveOf (eventFilter filteringHandler ignoringListener watchedFlickable
      (QEvent.MouseButtonPress MouseEventSource.MouseEventSynthesizedByQt)).2 22 = none := by
  decide!

/-! ## Page scrolling -/

theorem qBound_eq_specClamped {lo hi : ℚ} (v : ℚ) (h : lo ≤ hi) :
    qBound lo v hi = specClamped v lo hi := by
  unfold qBound specClamped
  rcases le_total v lo with h1 | h1
  · rw [max_eq_right h1, min_eq_left h, min_eq_right (le_trans h1 h), max_eq_left h1]
  · rw [max_eq_left h1, min_comm v hi]
    exact max_eq_right (le_min h h1)

theorem qBound_symmetric_abs (E v : ℚ) : |qBound (-E) v E| ≤ |E| := by
  unfold qBound
  rcases le_total 0 E with h | h
  · rw [abs_of_nonneg h, abs_le]
    exact ⟨le_max_left _ _, max_le (by linarith) (min_le_left _ _)⟩
  · have h1 : min E v ≤ -E := le_trans (min_le_left _ _) (by linarith)
    rw [max_eq_left h1, abs_of_nonpos h, abs_of_nonneg (by linarith)]

theorem qBound_inverted {E : ℚ} (v : ℚ) (h : E < 0) : qBound (-E) v E = -E := by
  unfold qBound
  exact max_eq_left (le_trans (min_le_left _ _) (by linarith))

/-- The requested change with the page-scroll modifier held, as the locals
`xChange` and `yChange`: bounded in magnitude by the page extent `E` of the axis
(width or height less the two margins), `|change| ≤ |E|`; when `E ≥ 0` it equals
(angle delta on that axis / 120) x `E` clamped to the interval `[-E, E]`, and when
the margins exceed the viewport (`E < 0`) it is `-E` whatever the angle delta. -/
theorem pageScroll_change_bounds (s : WheelHandler) (f : QQuickItem) (pd ad : QPointF) (m : Nat)
    (hmod : testFlags m s.m_pageScrollModifiers = true) :
    (|xChange s f pd ad m| ≤ |pageWidth f| ∧
      (0 ≤ pageWidth f →
        xChange s f pd ad m =
          specClamped (ad.x / 120 * pageWidth f) (-pageWidth f) (pageWidth f)) ∧
      (pageWidth f < 0 → xChange s f pd ad m = -pageWidth f)) ∧
    (|yChange s f pd ad m| ≤ |pageHeight f| ∧
      (0 ≤ pageHeight f →
        yChange s f pd ad m =
          specClamped (ad.y / 120 * pageHeight f) (-pageHeight f) (pageHeight f)) ∧
      (pageHeight f < 0 → yChange s f pd ad m = -pageHeight f)) := by
  have hx : xChange s f pd ad m =
      qBound (-pageWidth f) (ad.x / 120 * pageWidth f) (pageWidth f) := by
    simp [xChange, hmod]
  have hy : yChange s f pd ad m =
      qBound (-pageHeight f) (ad.y / 120 * pageHeight f) (pageHeight f) := by
    simp [yChange, hmod]
  rw [hx, hy]
  exact ⟨⟨qBound_symmetric_abs _ _, fun h => qBound_eq_specClamped _ (by linarith),
      fun h => qBound_inverted _ h⟩,
    ⟨qBound_symmetric_abs _ _, fun h => qBound_eq_specClamped _ (by linarith),
      fun h => qBound_inverted _ h⟩⟩

/-- C14, evaluated at the failing input. A target 100 wide with left and right
margins of 100 each has the page width `E = -100`; its content, 150 wide, exceeds
it, so the horizontal axis is processed. With Control (a page-scroll modifier)
held, `qBound(-E, ticks * E, E)` is called with its lower bound 100 above its
upper bound -100 and yields 100 for one detent in either direction: from
`contentX = 150` both `angleDelta = (120, 0)` and `angleDelta = (-120, 0)` write
`contentX = 50`, by a direct call as by a wheel dispatch, in exact arithmetic as
in binary64. The change 100 is not within `[-E, E]`, and it does not follow the
direction of the wheel. -/
theorem C14_page_scroll_negative_page_extent :
    (testFlags ControlModifier marginHandler.m_pageScrollModifiers = true ∧
      testFlags ControlModifier marginHandler.m_defaultHorizontalScrollModifiers = false ∧
      marginHandler.m_flickable = some marginFlickable ∧
      marginFlickable.contentX = 150) ∧
    (pageWidth marginFlickable = -100 ∧
      marginFlickable.contentWidth > pageWidth marginFlickable ∧
      ¬ (-pageWidth marginFlickable ≤ pageWidth marginFlickable)) ∧
    (xChange marginHandler marginFlickable { x := 0, y := 0 } { x := 120, y := 0 }
        ControlModifier = 100 ∧
      xChange marginHandler marginFlickable { x := 0, y := 0 } { x := -120, y := 0 }
        ControlModifier = 100 ∧
      ¬ (xChange marginHandler marginFlickable { x := 0, y := 0 } { x := 120, y := 0 }
        ControlModifier ≤ pageWidth marginFlickable)) ∧
    (scrollEffects marginHandler { x := 0, y := 0 } { x := 120, y := 0 } ControlModifier =
        [Effect.setContentX 50] ∧
      scrollEffects marginHandler { x := 0, y := 0 } { x := -120, y := 0 } ControlModifier =
        [Effect.setContentX 50]) ∧
    (Rounded.scrollEffects roundToDouble marginHandler { x := 0, y := 0 } { x := 120, y := 0 }
        ControlModifier = [Effect.setContentX 50] ∧
      Rounded.scrollEffects roundToDouble marginHandler { x := 0, y := 0 }
        { x := -120, y := 0 } ControlModifier = [Effect.setContentX 50]) ∧
    ((eventFilter marginHandler ignoringListener watchedFlickable
        (QEvent.Wheel (pageDetent 120))).2.m_flickable.map QQuickItem.contentX = some 50 ∧
      (eventFilter marginHandler ignoringListener watchedFlickable
        (QEvent.Wheel (pageDetent (-120)))).2.m_flickable.map QQuickItem.contentX = some 50) := by
  decide!

/-! ## The directional helpers -/

theorem truncToInt_intCast (k : ℤ) (h : |(k : ℚ)| < 2147483648) : truncToInt (k : ℚ) = k := by
  obtain ⟨h1, h2⟩ := abs_lt.mp h
  unfold truncToInt
  rw [if_pos ⟨by linarith, h2⟩]
  split_ifs
  · exact Int.floor_intCast k
  · exact Int.ceil_intCast k

theorem qFuzzyIsNull_of_lt {x : ℚ} (h : 1 / 1000000000000 < |x|) : qFuzzyIsNull x = false := by
  unfold qFuzzyIsNull
  rw [decide_eq_false_iff_not, not_le]
  exact h

theorem abs_gt_of_pos {x : ℚ} (h : 1 / 1000000000000 < x) : 1 / 1000000000000 < |x| :=
  lt_of_lt_of_le h (le_abs_self x)

theorem abs_gt_of_neg {x : ℚ} (h : x < -(1 / 1000000000000)) : 1 / 1000000000000 < |x| :=
  lt_of_lt_of_le (by linarith) (neg_le_abs x)

/-- C15, as amended. `scrollUp` and `scrollDown` translate onto `scrollFlickable`
(null angle delta, no modifiers): for every step size `x` above the tolerance of
`qFuzzyIsNull` (`x > 10⁻¹²`) they give the result of `scrollFlickable` with pixel
delta `(0, x)` and `(0, -x)`; for `x < -10⁻¹²` (the default argument) that with the
configured vertical step size in place of `x`. `scrollLeft` and `scrollRight` do
the same with pixel delta `(x, 0)` and `(-x, 0)` and the configured horizontal
step size, whenever the step used is a whole number of pixels within the range of
`int` (below `2 ^ 31` in magnitude), where the conversion to `int` changes nothing.
For `|x| ≤ 10⁻¹²` all four return false and change nothing. -/
theorem C15_directional_helpers (s : WheelHandler) (x : ℚ) :
    (1 / 1000000000000 < x →
      scrollUp s x = scrollFlickable s { x := 0, y := x } defaultAngleDelta NoModifier ∧
      scrollDown s x = scrollFlickable s { x := 0, y := -x } defaultAngleDelta NoModifier ∧
      ∀ k : ℤ, x = k → |x| < 2147483648 →
        scrollLeft s x = scrollFlickable s { x := x, y := 0 } defaultAngleDelta NoModifier ∧
        scrollRight s x = scrollFlickable s { x := -x, y := 0 } defaultAngleDelta NoModifier) ∧
    (x < -(1 / 1000000000000) →
      scrollUp s x =
        scrollFlickable s { x := 0, y := s.m_verticalStepSize } defaultAngleDelta NoModifier ∧
      scrollDown s x =
        scrollFlickable s { x := 0, y := -s.m_verticalStepSize } defaultAngleDelta NoModifier ∧
      ∀ k : ℤ, s.m_horizontalStepSize = k → |s.m_horizontalStepSize| < 2147483648 →
        scrollLeft s x =
          scrollFlickable s { x := s.m_horizontalStepSize, y := 0 } defaultAngleDelta
            NoModifier ∧
        scrollRight s x =
          scrollFlickable s { x := -s.m_horizontalStepSize, y := 0 } defaultAngleDelta
            NoModifier) ∧
    (|x| ≤ 1 / 1000000000000 →
      scrollUp s x = (false, s) ∧ scrollDown s x = (false, s) ∧
      scrollLeft s x = (false, s) ∧ scrollRight s x = (false, s)) := by
  have hneg_cast : ∀ k : ℤ, |(k : ℚ)| < 2147483648 → truncToInt (-(k : ℚ)) = -k := by
    intro k hk
    have := truncToInt_intCast (-k) (by rw [Int.cast_neg, abs_neg]; exact hk)
    rwa [Int.cast_neg] at this
  refine ⟨fun hx => ?_, fun hx => ?_, fun hx => ?_⟩
  · have hnull := qFuzzyIsNull_of_lt (abs_gt_of_pos hx)
    have hpos : ¬ x < 0 := not_lt.mpr (le_trans (by norm_num) (le_of_lt hx))
    refine ⟨by simp [scrollUp, hnull, hpos], by simp [scrollDown, hnull, hpos],
      fun k hk hrange => ?_⟩
    subst hk
    constructor
    · simp only [scrollLeft, hnull, hpos, Bool.false_eq_true, if_false,
        truncToInt_intCast k hrange, QPoint.toPointF, Int.cast_zero]
    · simp only [scrollRight, hnull, hpos, Bool.false_eq_true, if_false, hneg_cast k hrange,
        QPoint.toPointF, Int.cast_zero, Int.cast_neg]
  · have hnull := qFuzzyIsNull_of_lt (abs_gt_of_neg hx)
    have hneg : x < 0 := lt_trans hx (by norm_num)
    refine ⟨by simp [scrollUp, hnull, hneg], by simp [scrollDown, hnull, hneg],
      fun k hk hrange => ?_⟩
    rw [hk] at hrange
    constructor
    · simp only [scrollLeft, hnull, hneg, Bool.false_eq_true, if_false, if_true, hk,
        truncToInt_intCast k hrange, QPoint.toPointF, Int.cast_zero]
    · simp only [scrollRight, hnull, hneg, Bool.false_eq_true, if_false, if_true, hk,
        hneg_cast k hrange, QPoint.toPointF, Int.cast_zero, Int.cast_neg]
  · have hnull := (qFuzzyIsNull_iff x).mpr hx
    exact ⟨by simp [scrollUp, hnull], by simp [scrollDown, hnull], by simp [scrollLeft, hnull],
      by simp [scrollRight, hnull]⟩

/-- C15 as amended, at the 500 x 500 example in a window of pixel ratio 2:
`scrollLeft(3)` is `scrollFlickable` with pixel delta `(3, 0)` and moves
`contentX` from 200 to 197. -/
theorem C15_directional_helpers_witness :
    scrollLeft hidpiHandler 3 =
      scrollFlickable hidpiHandler { x := 3, y := 0 } defaultAngleDelta NoModifier ∧
    (scrollLeft hidpiHandler 3).2.m_flickable.map QQuickItem.contentX = some 197 ∧
    scrollUp hidpiHandler 0 = (false, hidpiHandler) :=
  ⟨(((C15_directional_helpers hidpiHandler 3).1 (by norm_num)).2.2 3 (by norm_num)
      (by norm_num [abs_lt])).1,
    by decide!,
    ((C15_directional_helpers hidpiHandler 0).2.2 (by norm_num)).1⟩

/-- C15, refuted as stated. At pixel ratio 2, `scrollLeft(5/2)` moves `contentX`
from 200 to 198 and `scrollRight(5/2)` to 202, where `scrollFlickable` with pixel
delta `(5/2, 0)` and `(-5/2, 0)` moves it to 197.5 and 202.5; and with an unaligned
`contentY = 1/2` the positive step `10⁻¹³` makes `scrollUp` return false and change
nothing, where `scrollFlickable` with pixel delta `(0, 10⁻¹³)` returns true and
writes `contentY = 0`. -/
theorem C15_counterexample :
    ((scrollLeft hidpiHandler (5 / 2)).2.m_flickable.map QQuickItem.contentX = some 198 ∧
      (scrollFlickable hidpiHandler { x := 5 / 2, y := 0 } defaultAngleDelta
        NoModifier).2.m_flickable.map QQuickItem.contentX = some (395 / 2) ∧
      (scrollRight hidpiHandler (5 / 2)).2.m_flickable.map QQuickItem.contentX = some 202 ∧
      (scrollFlickable hidpiHandler { x := -(5 / 2), y := 0 } defaultAngleDelta
        NoModifier).2.m_flickable.map QQuickItem.contentX = some (405 / 2)) ∧
    (scrollUp wideHandler (1 / 10000000000000) = (false, wideHandler) ∧
      (scrollFlickable wideHandler { x := 0, y := 1 / 10000000000000 } defaultAngleDelta
        NoModifier).1 = true ∧
      scrollEffects wideHandler { x := 0, y := 1 / 10000000000000 } defaultAngleDelta
        NoModifier = [Effect.setContentY 0]) := by
  decide!

/-! ## Rounding to the device pixel grid -/

theorem stdRound_nearest (x : ℚ) (j : ℤ) : |(stdRound x : ℚ) - x| ≤ |(j : ℚ) - x| := by
  have h := abs_stdRound_sub_le x
  by_cases hj : j = stdRound x
  · rw [hj]
  · have h1 : (1 : ℚ) ≤ |(j : ℚ) - (stdRound x : ℚ)| := by
      have h2 : (1 : ℤ) ≤ |j - stdRound x| := Int.one_le_abs (sub_ne_zero.mpr hj)
      exact_mod_cast h2
    have h3 : |(j : ℚ) - (stdRound x : ℚ)| ≤ |(j : ℚ) - x| + |(stdRound x : ℚ) - x| := by
      have := abs_sub_le (j : ℚ) x (stdRound x : ℚ)
      rwa [abs_sub_comm x (stdRound x : ℚ)] at this
    linarith

theorem pixelRound_spec (b d : ℚ) (hd : 0 < d) :
    (∃ k : ℤ, (stdRound (b * d) : ℚ) / d * d = k) ∧
    |(stdRound (b * d) : ℚ) / d - b| ≤ 1 / (2 * d) ∧
    (∀ w : ℚ, (∃ j : ℤ, w * d = j) → |(stdRound (b * d) : ℚ) / d - b| ≤ |w - b|) := by
  refine ⟨⟨stdRound (b * d), by field_simp⟩, pixelRound_close b d hd, ?_⟩
  rintro w ⟨j, hj⟩
  have h := stdRound_nearest (b * d) j
  have e1 : (stdRound (b * d) : ℚ) / d - b = ((stdRound (b * d) : ℚ) - b * d) / d := by
    field_simp
    ring
  have e2 : w - b = ((j : ℚ) - b * d) / d := by
    rw [← hj]
    field_simp
    ring
  rw [e1, e2, abs_div, abs_div, abs_of_pos hd]
  exact (div_le_div_iff_of_pos_right hd).mpr h

/-- C16. For every `scrollFlickable` call at a positive device pixel ratio `d`,
in exact rational arithmetic, every offset it writes to `contentX` or `contentY`,
or sets as end value of the vertical animation, is device-pixel aligned (the
offset times `d` is an integer), differs from the clamped offset of its axis by at
most `1 / (2 d)`, and is at least as close to the clamped offset as every other
device-pixel aligned value. -/
theorem C16_written_offsets_pixel_aligned (s : WheelHandler) (f : QQuickItem)
    (pd ad : QPointF) (m : Nat) (hf : s.m_flickable = some f)
    (hd : 0 < devicePixelRatio s f) (e : Effect) (he : e ∈ scrollEffects s pd ad m) :
    (∀ v, e = Effect.setContentX v →
      (∃ k : ℤ, v * devicePixelRatio s f = k) ∧
      |v - boundedContentX s f (transposedIf s m pd) (transposedIf s m ad) m| ≤
        1 / (2 * devicePixelRatio s f) ∧
      ∀ w : ℚ, (∃ j : ℤ, w * devicePixelRatio s f = j) →
        |v - boundedContentX s f (transposedIf s m pd) (transposedIf s m ad) m| ≤
          |w - boundedContentX s f (transposedIf s m pd) (transposedIf s m ad) m|) ∧
    (∀ v, e = Effect.setContentY v ∨ e = Effect.animationSetEndValue v →
      (∃ k : ℤ, v * devicePixelRatio s f = k) ∧
      |v - boundedContentY s f (transposedIf s m pd) (transposedIf s m ad) m| ≤
        1 / (2 * devicePixelRatio s f) ∧
      ∀ w : ℚ, (∃ j : ℤ, w * devicePixelRatio s f = j) →
        |v - boundedContentY s f (transposedIf s m pd) (transposedIf s m ad) m| ≤
          |w - boundedContentY s f (transposedIf s m pd) (transposedIf s m ad) m|) := by
  have hX := pixelRound_spec
    (boundedContentX s f (transposedIf s m pd) (transposedIf s m ad) m) _ hd
  have hY := pixelRound_spec
    (boundedContentY s f (transposedIf s m pd) (transposedIf s m ad) m) _ hd
  cases h : (pd.isNull && ad.isNull) with
  | true =>
    rw [scrollEffects_nil s pd ad m (Or.inr h)] at he
    simp at he
  | false =>
    rw [scrollEffects_eq s f pd ad m hf h] at he
    simp only [List.mem_append] at he
    rcases he with (he | he) | he
    · split_ifs at he with hc
      · simp only [List.mem_singleton] at he
        subst he
        refine ⟨fun v hv => ?_, fun v hv => by simp at hv⟩
        simp only [Effect.setContentX.injEq] at hv
        rw [← hv]
        exact hX
      · simp at he
    · split_ifs at he
      · simp only [List.mem_singleton] at he
        subst he
        exact ⟨fun v hv => by simp at hv, fun v hv => by simp at hv⟩
      · simp at he
    · split_ifs at he with hc ht
      · simp only [List.mem_singleton] at he
        subst he
        refine ⟨fun v hv => by simp at hv, fun v hv => ?_⟩
        simp only [Effect.setContentY.injEq, reduceCtorEq, or_false] at hv
        rw [← hv]
        exact hY
      · simp only [List.mem_cons, List.mem_singleton, List.not_mem_nil, or_false] at he
        rcases he with he | he
        · subst he
          refine ⟨fun v hv => by simp at hv, fun v hv => ?_⟩
          simp only [Effect.animationSetEndValue.injEq, reduceCtorEq, false_or] at hv
          rw [← hv]
          exact hY
        · subst he
          exact ⟨fun v hv => by simp at hv, fun v hv => by simp at hv⟩
      · simp at he

theorem hidpiHandler_flickable : hidpiHandler.m_flickable = some hidpiFlickable := by
  decide!

theorem hidpiHandler_fractional :
    scrollEffects hidpiHandler { x := 19 / 8, y := 0 } defaultAngleDelta NoModifier =
      [Effect.setContentX (395 / 2)] := by
  decide!

/-- C16, at pixel ratio 2: a pixel delta of `(19/8, 0)` from `contentX = 200`
writes 197.5, a whole number of device pixels (395) within `1/4` of the clamped
197.625. -/
theorem C16_written_offsets_pixel_aligned_witness :
    0 < devicePixelRatio hidpiHandler hidpiFlickable ∧
    Effect.setContentX (395 / 2) ∈
      scrollEffects hidpiHandler { x := 19 / 8, y := 0 } defaultAngleDelta NoModifier ∧
    (∃ k : ℤ, (395 / 2 : ℚ) * devicePixelRatio hidpiHandler hidpiFlickable = k) ∧
    |(395 / 2 : ℚ) - boundedContentX hidpiHandler hidpiFlickable
        (transposedIf hidpiHandler NoModifier { x := 19 / 8, y := 0 })
        (transposedIf hidpiHandler NoModifier defaultAngleDelta) NoModifier| ≤
      1 / (2 * devicePixelRatio hidpiHandler hidpiFlickable) :=
  ⟨by decide!, by rw [hidpiHandler_fractional]; simp,
    ((C16_written_offsets_pixel_aligned hidpiHandler hidpiFlickable { x := 19 / 8, y := 0 }
      defaultAngleDelta NoModifier hidpiHandler_flickable (by decide!)
      (Effect.setContentX (395 / 2)) (by rw [hidpiHandler_fractional]; simp)).1 (395 / 2)
      rfl).1,
    ((C16_written_offsets_pixel_aligned hidpiHandler hidpiFlickable { x := 19 / 8, y := 0 }
      defaultAngleDelta NoModifier hidpiHandler_flickable (by decide!)
      (Effect.setContentX (395 / 2)) (by rw [hidpiHandler_fractional]; simp)).1 (395 / 2)
      rfl).2.1⟩

/-! ## The clamp interval -/

/-- In exact arithmetic the clamp interval of a processed axis is not empty:
whenever the content extent exceeds the page extent, the lower bound
`-(leadingMargin - origin)` is strictly less than the upper bound
`-(extent - (contentExtent + trailingMargin + origin))`, their difference being
`contentExtent - pageExtent`, and the bounded offset lies between them. -/
theorem clamp_interval_nonempty_exact (s : WheelHandler) (f : QQuickItem) (pd ad : QPointF)
    (m : Nat) :
    (f.contentWidth > pageWidth f →
      -minXExtent f < -maxXExtent f ∧
      -minXExtent f = -(f.leftMargin - f.originX) ∧
      -maxXExtent f = -(f.width - (f.contentWidth + f.rightMargin + f.originX)) ∧
      -minXExtent f ≤ boundedContentX s f pd ad m ∧
      boundedContentX s f pd ad m ≤ -maxXExtent f) ∧
    (f.contentHeight > pageHeight f →
      -minYExtent f < -maxYExtent f ∧
      -minYExtent f = -(f.topMargin - f.originY) ∧
      -maxYExtent f = -(f.height - (f.contentHeight + f.bottomMargin + f.originY)) ∧
      -minYExtent f ≤ boundedContentY s f pd ad m ∧
      boundedContentY s f pd ad m ≤ -maxYExtent f) := by
  constructor
  · intro h
    obtain ⟨h1, h2⟩ := boundedContentX_mem s f pd ad m h
    refine ⟨?_, rfl, rfl, h1, h2⟩
    unfold pageWidth at h
    unfold minXExtent maxXExtent
    linarith
  · intro h
    obtain ⟨h1, h2⟩ := boundedContentY_mem s f pd ad m h
    refine ⟨?_, rfl, rfl, h1, h2⟩
    unfold pageHeight at h
    unfold minYExtent maxYExtent
    linarith

/-- C17, evaluated at the failing input in binary64. On a target of extent 286.9
with margins 4.3 and 28.9 showing content of extent 253.7, every value a binary64
number, `scrollFlickable` processes both axes (the content extent exceeds the page
extent as computed), yet the lower bound `-minExtent = -4.3` of the offset clamp
is greater than its upper bound `-maxExtent`, computed as `-4.300000000000011`:
`qBound` and `std::clamp` are called on an empty interval, the bounded
horizontal offset is the lower bound, above the upper bound, and one detent down
writes `contentX = -4` and, with `std::clamp` evaluated as
`(v < lo) ? lo : (hi < v) ? hi : v`, `contentY = -4`. In exact arithmetic the
bounds of the same geometry are ordered. -/
theorem C17_clamp_interval_empty_in_binary64 :
    (roundingFlickable.width = 2523599088071475 / 8796093022208 ∧
      roundingFlickable.leftMargin = 4841369599423283 / 1125899906842624 ∧
      roundingFlickable.rightMargin = 4067313413468979 / 140737488355328 ∧
      roundingFlickable.contentWidth = 4463137599468339 / 17592186044416 ∧
      roundingFlickable.originX = 0 ∧
      roundingFlickable.height = roundingFlickable.width ∧
      roundingFlickable.topMargin = roundingFlickable.leftMargin ∧
      roundingFlickable.bottomMargin = roundingFlickable.rightMargin ∧
      roundingFlickable.contentHeight = roundingFlickable.contentWidth ∧
      roundingFlickable.originY = 0) ∧
    (Rounded.pageWidth roundToDouble roundingFlickable = 8926275198936677 / 35184372088832 ∧
      roundingFlickable.contentWidth > Rounded.pageWidth roundToDouble roundingFlickable ∧
      roundingFlickable.contentHeight > Rounded.pageHeight roundToDouble roundingFlickable) ∧
    (-Rounded.minXExtent roundToDouble roundingFlickable =
        -(4841369599423283 / 1125899906842624) ∧
      -Rounded.maxXExtent roundToDouble roundingFlickable =
        -(75646399990989 / 17592186044416) ∧
      -Rounded.maxXExtent roundToDouble roundingFlickable <
        -Rounded.minXExtent roundToDouble roundingFlickable) ∧
    (-Rounded.minYExtent roundToDouble roundingFlickable =
        -(4841369599423283 / 1125899906842624) ∧
      -Rounded.maxYExtent roundToDouble roundingFlickable =
        -(75646399990989 / 17592186044416) ∧
      -Rounded.maxYExtent roundToDouble roundingFlickable <
        -Rounded.minYExtent roundToDouble roundingFlickable) ∧
    (roundingHandler.m_flickable = some roundingFlickable ∧
      Rounded.boundedContentX roundToDouble roundingHandler roundingFlickable
          { x := 0, y := 0 } { x := 0, y := -120 } 0 =
        -Rounded.minXExtent roundToDouble roundingFlickable ∧
      ¬ (Rounded.boundedContentX roundToDouble roundingHandler roundingFlickable
          { x := 0, y := 0 } { x := 0, y := -120 } 0 ≤
        -Rounded.maxXExtent roundToDouble roundingFlickable) ∧
      Rounded.scrollEffects roundToDouble roundingHandler { x := 0, y := 0 }
          { x := 0, y := -120 } 0 = [Effect.setContentX (-4), Effect.setContentY (-4)]) ∧
    (roundingFlickable.contentWidth > pageWidth roundingFlickable ∧
      -minXExtent roundingFlickable < -maxXExtent roundingFlickable ∧
      -minYExtent roundingFlickable < -maxYExtent roundingFlickable) := by
  decide!

/-! ## Event filters on rebound scroll bars -/

/-- C18, evaluated at the failing input. A handler bound to vertical bar 11 and
horizontal bar 12 filters both. When the attachment's two scroll bars are swapped,
one property after the other, the first rebinding is sound (bar 12 bound on both
axes and filtered, bar 11 unbound and unfiltered), but the second removes the
filter from the old horizontal bar 12, which stays bound on the vertical axis:
afterwards bar 12 is bound and not filtered. Rebinding to the swapped pair in one
step ends the same way. -/
theorem C18_swapped_scrollbar_loses_filter :
    (barsHandler.m_verticalScrollBar = some 11 ∧ barsHandler.m_horizontalScrollBar = some 12 ∧
      barsHandler.filters 11 = true ∧ barsHandler.filters 12 = true) ∧
    (barsHandlerStep1.m_verticalScrollBar = some 12 ∧
      barsHandlerStep1.m_horizontalScrollBar = some 12 ∧
      barsHandlerStep1.filters 12 = true ∧ barsHandlerStep1.filters 11 = false) ∧
    (barsHandlerStep2.m_verticalScrollBar = some 12 ∧
      barsHandlerStep2.m_horizontalScrollBar = some 11 ∧
      barsHandlerStep2.filters 11 = true ∧ barsHandlerStep2.filters 12 = false) ∧
    ((_k_rebindScrollBars
        (sceneUpdate barsHandler (barsFlickable (some 12) (some 11)))).m_verticalScrollBar =
        some 12 ∧
      (_k_rebindScrollBars
        (sceneUpdate barsHandler (barsFlickable (some 12) (some 11)))).filters 12 = false) := by
  decide!

/-! ## Wheel dispatch without direct scrolling of the target -/

theorem scrollFlickable_fits (s : WheelHandler) (f : QQuickItem) (pd ad : QPointF) (m : Nat)
    (hf : s.m_flickable = some f) (hW : f.contentWidth ≤ pageWidth f)
    (hH : f.contentHeight ≤ pageHeight f) : scrollFlickable s pd ad m = (false, s) := by
  cases h : (pd.isNull && ad.isNull) with
  | true => exact scrollFlickable_null s pd ad m h
  | false =>
    rw [scrollFlickable_some s f pd ad m hf h]
    have hx : ∀ pd1 ad1, scrollX s f pd1 ad1 m = (false, s) := by
      intro pd1 ad1
      unfold scrollX
      rw [if_neg (not_lt.mpr hW)]
    have hy : ∀ pd1 ad1, scrollY s f pd1 ad1 m = (false, s) := by
      intro pd1 ad1
      unfold scrollY
      rw [if_neg (not_lt.mpr hH)]
    rw [hx, hy]
    rfl

theorem emitWheel_scrollFlickableTarget (s : WheelHandler)
    (listener : LingmoUIWheelEvent → Bool) (wheelEvent : QWheelEvent) :
    (emitWheel s listener wheelEvent).m_scrollFlickableTarget = s.m_scrollFlickableTarget := by
  unfold emitWheel setScrollBarsInteractive setScrollBarInteractive
  by_cases h : s.m_filterMouseEvents = true
  · simp only [h, if_true]
    cases s.m_verticalScrollBar <;> cases s.m_horizontalScrollBar <;> rfl
  · simp [h]

theorem wheelScrolled_of_indirect (s : WheelHandler) (listener : LingmoUIWheelEvent → Bool)
    (wheelEvent : QWheelEvent) (hflag : s.m_scrollFlickableTarget = false) :
    scrollOnWheel (emitWheel s listener wheelEvent)
        (match s.m_flickable with
          | some f => f.contentWidth
          | none => 0)
        (match s.m_flickable with
          | some f => f.contentHeight
          | none => 0)
        (match s.m_flickable with
          | some f => pageWidth f
          | none => 0)
        (match s.m_flickable with
          | some f => pageHeight f
          | none => 0) =
      (false, emitWheel s listener wheelEvent) := by
  have hflick := emitWheel_flickable s listener wheelEvent
  have hfl := emitWheel_scrollFlickableTarget s listener wheelEvent
  unfold scrollOnWheel
  rw [hfl, hflag]
  cases hf : s.m_flickable with
  | none =>
    rw [hf] at hflick
    split
    · exact scrollFlickable_none _ _ _ _ hflick
    · rfl
  | some f =>
    rw [hf] at hflick
    simp only [Bool.false_or, Bool.and_eq_true, decide_eq_true_eq]
    split_ifs with hfit
    · exact scrollFlickable_fits _ f _ _ _ hflick hfit.2 hfit.1
    · exact scrollFlickable_fits _ f _ _ _ hflick hfit.2 hfit.1
    · rfl

theorem eventFilter_wheel_scrolling (s : WheelHandler) (listener : LingmoUIWheelEvent → Bool)
    (watched : Watched) (wheelEvent : QWheelEvent)
    (hitem : watched.isQuickItem = true) (henabled : watched.isEnabled = true)
    (hacc : listener (synthesizeWheelEvent wheelEvent) = false) :
    (eventFilter s listener watched (QEvent.Wheel wheelEvent)).2.m_wheelScrolling =
      wheelScrolled s listener wheelEvent := by
  rw [eventFilter_wheel s listener watched wheelEvent hitem henabled,
    eventFilterWheel_unaccepted s listener wheelEvent _ _ _ _ hacc]
  exact (setScrolling_flag _ _).1

/-- C19. When the scroll-flickable-target flag is false, no wheel dispatch changes
the target's offsets, for every wheel event, listener, watched object and
geometry: the local `scrolled` is false, the target's properties and the vertical
animation are as before, the dispatch performs no scroll effect, and after a
dispatch on an enabled item that no listener accepts the wheel-scrolling flag is
false. -/
theorem C19_indirect_wheel_never_scrolls (s : WheelHandler)
    (listener : LingmoUIWheelEvent → Bool) (watched : Watched) (wheelEvent : QWheelEvent)
    (hflag : s.m_scrollFlickableTarget = false) :
    wheelScrolled s listener wheelEvent = false ∧
    (eventFilter s listener watched (QEvent.Wheel wheelEvent)).2.m_flickable = s.m_flickable ∧
    (eventFilter s listener watched (QEvent.Wheel wheelEvent)).2.m_yScrollAnimation =
      s.m_yScrollAnimation ∧
    (∀ e ∈ (eventFilter s listener watched (QEvent.Wheel wheelEvent)).2.log.drop s.log.length,
      e.isScroll = false) ∧
    (watched.isQuickItem = true → watched.isEnabled = true →
      listener (synthesizeWheelEvent wheelEvent) = false →
      (eventFilter s listener watched (QEvent.Wheel wheelEvent)).2.m_wheelScrolling = false) := by
  have hso := wheelScrolled_of_indirect s listener wheelEvent hflag
  have hflick := emitWheel_flickable s listener wheelEvent
  have hanim := emitWheel_animation s listener wheelEvent
  obtain ⟨pre, hlog, hpre⟩ := emitWheel_log s listener wheelEvent
  have hws : wheelScrolled s listener wheelEvent = false := by
    unfold wheelScrolled
    rw [hso]
  refine ⟨hws, ?_⟩
  by_cases hw : watched.isQuickItem = true ∧ watched.isEnabled = true
  · have hres : (eventFilter s listener watched (QEvent.Wheel wheelEvent)).2 =
        emitWheel s listener wheelEvent ∨
        (eventFilter s listener watched (QEvent.Wheel wheelEvent)).2 =
          setScrolling (emitWheel s listener wheelEvent) false := by
      rw [eventFilter_wheel s listener watched wheelEvent hw.1 hw.2]
      unfold eventFilterWheel
      simp only [hso]
      split_ifs
      · exact Or.inl rfl
      · exact Or.inr rfl
    have hdrop : ∀ t : WheelHandler, t.log = (emitWheel s listener wheelEvent).log →
        ∀ e ∈ t.log.drop s.log.length, e.isScroll = false := by
      intro t ht e he
      rw [ht, hlog, List.append_assoc, List.drop_left, List.mem_append] at he
      rcases he with he | he
      · exact hpre e he
      · simp only [List.mem_singleton] at he
        rw [he]
        rfl
    refine ⟨?_, ?_, ?_, ?_⟩
    · rcases hres with h | h
      · rw [h, hflick]
      · rw [h, (setScrolling_frame _ _).1, hflick]
    · rcases hres with h | h
      · rw [h, hanim]
      · rw [h, (setScrolling_frame _ _).2, hanim]
    · rcases hres with h | h
      · exact hdrop _ (by rw [h])
      · exact hdrop _ (by rw [h, setScrolling_log])
    · intro _ _ hacc
      rw [eventFilter_wheel_scrolling s listener watched wheelEvent hw.1 hw.2 hacc, hws]
  · have hdis : watched.isQuickItem = false ∨ watched.isEnabled = false := by
      by_cases h1 : watched.isQuickItem = true
      · right
        simpa [h1] using hw
      · left
        simpa using h1
    rw [eventFilter_disabled s listener watched _ hdis]
    refine ⟨rfl, rfl, by simp, fun h1 h2 _ => ?_⟩
    rcases hdis with h | h
    · rw [h] at h1
      exact absurd h1 (by simp)
    · rw [h] at h2
      exact absurd h2 (by simp)

theorem indirectHandler_flag : indirectHandler.m_scrollFlickableTarget = false := by
  decide!

/-- C19, at a handler with the flag off bound to the scrollable 100 x 500 example:
one detent down leaves `contentY` at 0 and the handler in Idle. -/
theorem C19_indirect_wheel_never_scrolls_witness :
    indirectHandler.m_scrollFlickableTarget = false ∧
    exampleFlickable.contentHeight > pageHeight exampleFlickable ∧
    (eventFilter indirectHandler ignoringListener watchedFlickable
      (QEvent.Wheel oneDetentDown)).2.m_flickable = indirectHandler.m_flickable ∧
    indirectHandler.m_flickable = some exampleFlickable ∧
    (eventFilter indirectHandler ignoringListener watchedFlickable
      (QEvent.Wheel oneDetentDown)).2.m_wheelScrolling = false :=
  ⟨indirectHandler_flag, by decide!,
    (C19_indirect_wheel_never_scrolls indirectHandler ignoringListener watchedFlickable
      oneDetentDown indirectHandler_flag).2.1,
    by decide!,
    (C19_indirect_wheel_never_scrolls indirectHandler ignoringListener watchedFlickable
      oneDetentDown indirectHandler_flag).2.2.2.2 rfl rfl rfl⟩

/-! ## One detent down through the wheel dispatch -/

end LingmoUI
